import Mathlib

/-!
Verification of the YoloPlateSentry detection and recognition pipeline.

The Rust sources are shallowly embedded: `f32` values are modelled as exact
rationals (`ℚ`), strings as `List Char`, and the opaque external engines
(ONNX inference, Tesseract OCR, HTTP transports) as oracle parameters.
Each definition is translated from the named source function.
-/

/-- Embeds `BoundingBox` (src/crates/yolo-detector/src/lib.rs, lines 21-28).
The `f32` fields are modelled as exact rationals. -/
structure BoundingBox where
  x_min : ℚ
  y_min : ℚ
  x_max : ℚ
  y_max : ℚ
  confidence : ℚ
deriving DecidableEq

/-- Embeds `CONFIDENCE_THRESHOLD: f32 = 0.5` (yolo-detector lib.rs line 38). -/
def CONFIDENCE_THRESHOLD : ℚ := 1/2

/-- Embeds `IOU_THRESHOLD: f32 = 0.5` (yolo-detector lib.rs line 39). -/
def IOU_THRESHOLD : ℚ := 1/2

/-- Embeds `DetectorError` (yolo-detector lib.rs lines 11-19); each variant
carries its message. -/
inductive DetectorError where
  | ModelLoadError : String → DetectorError
  | ImageProcessError : String → DetectorError
  | InferenceError : String → DetectorError
deriving DecidableEq

/-- Embeds `LicensePlateDetector::calculate_iou` (yolo-detector lib.rs lines
194-209).  Rational division is total with `x / 0 = 0`; the only case where
the Rust code divides by zero is a `0.0 / 0.0 = NaN`, and `NaN > thr` is
false in Rust exactly as `0 > thr` is false here, so the suppression
decision made from this value agrees with the Rust code. -/
def calculate_iou (box1 box2 : BoundingBox) : ℚ :=
  let x_left := max box1.x_min box2.x_min
  let y_top := max box1.y_min box2.y_min
  let x_right := min box1.x_max box2.x_max
  let y_bottom := min box1.y_max box2.y_max
  if x_right < x_left ∨ y_bottom < y_top then 0
  else
    let intersection_area := (x_right - x_left) * (y_bottom - y_top)
    let box1_area := (box1.x_max - box1.x_min) * (box1.y_max - box1.y_min)
    let box2_area := (box2.x_max - box2.x_min) * (box2.y_max - box2.y_min)
    intersection_area / (box1_area + box2_area - intersection_area)

/-- Inserts a box into a list already sorted by descending confidence,
placing it before the first element of smaller-or-equal confidence.  Folding
this over the input (`sortByConfDesc`) yields the unique stable sort for the
comparator `|a, b| b.confidence.partial_cmp(&a.confidence)`; it embeds the
stable `boxes.sort_by(...)` call in `non_max_suppression` (yolo-detector
lib.rs line 168). -/
def insertByConfDesc (b : BoundingBox) : List BoundingBox → List BoundingBox
  | [] => [b]
  | a :: l => if a.confidence ≤ b.confidence then b :: a :: l else a :: insertByConfDesc b l

/-- Stable sort by descending confidence; see `insertByConfDesc`. -/
def sortByConfDesc (boxes : List BoundingBox) : List BoundingBox :=
  boxes.foldr insertByConfDesc []

/-- Embeds one pass of the inner `for j in (i + 1)..boxes.len()` loop of
`non_max_suppression` (yolo-detector lib.rs lines 176-184): every still-kept
later box whose IoU with the current box `b` exceeds the threshold has its
keep flag cleared. -/
def suppressOverlaps (iou_threshold : ℚ) (b : BoundingBox)
    (l : List (BoundingBox × Bool)) : List (BoundingBox × Bool) :=
  l.map fun p => if p.2 ∧ calculate_iou b p.1 > iou_threshold then (p.1, false) else p

/-- Embeds the outer `for i in 0..boxes.len()` loop of `non_max_suppression`
(yolo-detector lib.rs lines 171-185) over the sorted list tagged with keep
flags: a kept box clears the flag of every later overlapping box (the tail
of the list is exactly the index range `i+1..len`); a suppressed box is
skipped (`if !keep[i] { continue; }`). -/
def nmsWalk (iou_threshold : ℚ) : List (BoundingBox × Bool) → List (BoundingBox × Bool)
  | [] => []
  | (b, k) :: rest =>
    if k then (b, k) :: nmsWalk iou_threshold (suppressOverlaps iou_threshold b rest)
    else (b, k) :: nmsWalk iou_threshold rest
termination_by l => l.length
decreasing_by
  · simp [suppressOverlaps]
  · simp

/-- Embeds `LicensePlateDetector::non_max_suppression` (yolo-detector lib.rs
lines 167-192): stable sort by descending confidence, greedy suppression of
overlapping lower-confidence boxes, then the final
`filter_map(|(bbox, keep)| ...)` keeping the surviving boxes in order. -/
def non_max_suppression (boxes : List BoundingBox) (iou_threshold : ℚ) : List BoundingBox :=
  (nmsWalk iou_threshold ((sortByConfDesc boxes).map fun b => (b, true))).filterMap
    fun p => if p.2 then some p.1 else none

/-- Embeds the per-row body of the decode loop in `postprocess_output`
(yolo-detector lib.rs lines 137-159): keep the row only when
`confidence > CONFIDENCE_THRESHOLD`, converting center form to corner form.
Out-of-range column reads default to 0 (the Rust `ndarray` indexing would
panic there instead; all call sites pass rows of length `shape[2]`). -/
def decodeRow (row : List ℚ) : Option BoundingBox :=
  let confidence := row.getD 4 0
  if confidence > CONFIDENCE_THRESHOLD then
    let x_center := row.getD 0 0
    let y_center := row.getD 1 0
    let width := row.getD 2 0
    let height := row.getD 3 0
    some { x_min := x_center - width / 2, y_min := y_center - height / 2,
           x_max := x_center + width / 2, y_max := y_center + height / 2,
           confidence := confidence }
  else none

/-- The decode loop of `postprocess_output` over all rows of the
`s![0, .., ..]` slice (yolo-detector lib.rs lines 133-159). -/
def decode (predictions : List (List ℚ)) : List BoundingBox :=
  predictions.filterMap decodeRow

/-- Models the `ndarray` value extracted from the engine output: a shape
vector together with the row-major flat data, as `try_extract` yields it
(yolo-detector lib.rs lines 122-126). -/
structure Tensor where
  shape : List Nat
  data : List ℚ
deriving DecidableEq

/-- The rows of the `s![0, .., ..]` slice of a (3-dimensional) tensor in
row-major order: row `i`, column `k` sits at flat offset `i * shape[2] + k`
within the first outermost slab (yolo-detector lib.rs line 134). -/
def tensorRows (t : Tensor) : List (List ℚ) :=
  let n := t.shape.getD 1 0
  let cols := t.shape.getD 2 0
  (List.range n).map fun i => (List.range cols).map fun k => t.data.getD (i * cols + k) 0

/-- Embeds `LicensePlateDetector::postprocess_output` (yolo-detector lib.rs
lines 121-165): reject any output whose dimension count is not 3 with an
`InferenceError`, otherwise decode the rows of the first slab and apply
non-max suppression. -/
def postprocess_output (output : Tensor) : Except DetectorError (List BoundingBox) :=
  if output.shape.length ≠ 3 then
    Except.error (DetectorError.InferenceError "Unexpected output shape")
  else
    Except.ok (non_max_suppression (decode (tensorRows output)) IOU_THRESHOLD)

/-- Claim C4, counterexample: the raw prediction row
`(cx, cy, w, h, conf) = (0, 0, -2, -2, 0.9)` passes the confidence filter,
and the decoded box has `x_min = 1 > x_max = -1` (and likewise for `y`),
violating the claimed invariant `x_min ≤ x_max ∧ y_min ≤ y_max`. -/
theorem decode_negative_width_violates_corner_order :
    decode [[0, 0, -2, -2, (9:ℚ)/10]] =
      [{ x_min := 1, y_min := 1, x_max := -1, y_max := -1, confidence := 9/10 }] ∧
    ¬ ((1:ℚ) ≤ -1) := by
  refine ⟨?_, by norm_num⟩
  norm_num [decode, decodeRow, CONFIDENCE_THRESHOLD, List.filterMap_cons, List.getD]

/-- Claim C4, amended: every box produced by the decode step has confidence
strictly above `CONFIDENCE_THRESHOLD` unconditionally (rows at or below the
threshold are dropped by the `filterMap` and produce no box); and for any
row that produces the box, the box satisfies `x_min ≤ x_max` whenever that
row's width entry is nonnegative, and `y_min ≤ y_max` whenever that row's
height entry is nonnegative. -/
theorem decode_box_invariants (predictions : List (List ℚ)) (b : BoundingBox)
    (hb : b ∈ decode predictions) :
    CONFIDENCE_THRESHOLD < b.confidence ∧
      ∀ row ∈ predictions, decodeRow row = some b →
        (0 ≤ row.getD 2 0 → b.x_min ≤ b.x_max) ∧
        (0 ≤ row.getD 3 0 → b.y_min ≤ b.y_max) := by
  constructor
  · obtain ⟨row, hrow, hdec⟩ := List.mem_filterMap.mp hb
    unfold decodeRow at hdec
    by_cases hc : row.getD 4 0 > CONFIDENCE_THRESHOLD
    · rw [if_pos hc] at hdec
      obtain rfl := (Option.some_inj.mp hdec).symm
      exact hc
    · rw [if_neg hc] at hdec
      exact absurd hdec (by simp)
  · intro row hrow hdec
    unfold decodeRow at hdec
    by_cases hc : row.getD 4 0 > CONFIDENCE_THRESHOLD
    · rw [if_pos hc] at hdec
      obtain rfl := (Option.some_inj.mp hdec).symm
      constructor
      · intro hw
        dsimp only
        linarith
      · intro hh
        dsimp only
        linarith
    · rw [if_neg hc] at hdec
      exact absurd hdec (by simp)

/-- Claim C4, witness: instantiates `decode_box_invariants` on the single
row `(0, 0, 2, 2, 9/10)`, whose decoded box is `(-1, -1, 1, 1, 9/10)`,
discharging the membership, the producing-row equation and the two
nonnegativity provisos there. -/
theorem decode_box_invariants_witness :
    CONFIDENCE_THRESHOLD <
        ({ x_min := -1, y_min := -1, x_max := 1, y_max := 1,
           confidence := (9:ℚ)/10 } : BoundingBox).confidence ∧
      ({ x_min := -1, y_min := -1, x_max := 1, y_max := 1,
         confidence := (9:ℚ)/10 } : BoundingBox).x_min ≤
        ({ x_min := -1, y_min := -1, x_max := 1, y_max := 1,
           confidence := (9:ℚ)/10 } : BoundingBox).x_max ∧
      ({ x_min := -1, y_min := -1, x_max := 1, y_max := 1,
         confidence := (9:ℚ)/10 } : BoundingBox).y_min ≤
        ({ x_min := -1, y_min := -1, x_max := 1, y_max := 1,
           confidence := (9:ℚ)/10 } : BoundingBox).y_max := by
  have h := decode_box_invariants [[0, 0, 2, 2, (9:ℚ)/10]]
    { x_min := -1, y_min := -1, x_max := 1, y_max := 1, confidence := (9:ℚ)/10 }
    (by norm_num [decode, decodeRow, CONFIDENCE_THRESHOLD, List.filterMap_cons, List.getD])
  have h2 := h.2 [0, 0, 2, 2, (9:ℚ)/10] (by norm_num)
    (by norm_num [decodeRow, CONFIDENCE_THRESHOLD, List.getD])
  exact ⟨h.1, h2.1 (by norm_num [List.getD]), h2.2 (by norm_num [List.getD])⟩

/-- Claim C5, counterexample: a 3-dimensional engine output (shape
`[1, 1, 5]`) is not "exactly 2 dimensions with 5 columns", yet
`postprocess_output` accepts it and decodes its single row instead of
rejecting it with an `InferenceError`. -/
theorem postprocess_output_accepts_three_dims :
    postprocess_output ⟨[1, 1, 5], [0, 0, 2, 2, 1]⟩ =
      Except.ok [{ x_min := -1, y_min := -1, x_max := 1, y_max := 1, confidence := 1 }] := by
  have hrows : tensorRows ⟨[1, 1, 5], [0, 0, 2, 2, 1]⟩ = [[0, 0, 2, 2, 1]] := by
    simp [tensorRows, List.range_succ]
  have hdec : decode [[0, 0, 2, 2, (1:ℚ)]] =
      [{ x_min := -1, y_min := -1, x_max := 1, y_max := 1, confidence := 1 }] := by
    norm_num [decode, decodeRow, CONFIDENCE_THRESHOLD, List.filterMap_cons, List.getD]
  simp only [postprocess_output, hrows, hdec]
  norm_num [non_max_suppression, sortByConfDesc, insertByConfDesc, nmsWalk, suppressOverlaps,
    List.filterMap_cons]

/-- Claim C5, amended: every engine output whose dimension count is not
exactly 3 is rejected by `postprocess_output` with an `InferenceError`
before any row is decoded; the column count is never checked. -/
theorem postprocess_output_shape_guard (output : Tensor)
    (h : output.shape.length ≠ 3) :
    postprocess_output output =
      Except.error (DetectorError.InferenceError "Unexpected output shape") := by
  simp [postprocess_output, h]

/-- Claim C5, witness: even the 2-dimensional, 5-column shape `[1, 5]` that
the specification describes as the expected one is rejected, because the
code demands 3 dimensions. -/
theorem postprocess_output_shape_guard_witness :
    postprocess_output ⟨[1, 5], [0, 0, 2, 2, 1]⟩ =
      Except.error (DetectorError.InferenceError "Unexpected output shape") :=
  postprocess_output_shape_guard ⟨[1, 5], [0, 0, 2, 2, 1]⟩ (by norm_num)

/-- Membership in `insertByConfDesc` is membership in the inserted element or
the original list. -/
theorem mem_insertByConfDesc {x b : BoundingBox} {l : List BoundingBox} :
    x ∈ insertByConfDesc b l ↔ x = b ∨ x ∈ l := by
  induction l with
  | nil => simp [insertByConfDesc]
  | cons a l ih =>
    simp only [insertByConfDesc]
    split
    · simp [List.mem_cons]
    · simp only [List.mem_cons, ih]
      tauto

/-- Unfolding lemma for `sortByConfDesc` on a cons cell. -/
theorem sortByConfDesc_cons (a : BoundingBox) (l : List BoundingBox) :
    sortByConfDesc (a :: l) = insertByConfDesc a (sortByConfDesc l) := rfl

/-- Sorting preserves membership. -/
theorem mem_sortByConfDesc {x : BoundingBox} {l : List BoundingBox} :
    x ∈ sortByConfDesc l ↔ x ∈ l := by
  induction l with
  | nil => simp [sortByConfDesc]
  | cons a l ih =>
    rw [sortByConfDesc_cons, mem_insertByConfDesc]
    simp [ih]

/-- Inserting into a confidence-descending list keeps it descending. -/
theorem pairwise_insertByConfDesc {b : BoundingBox} {l : List BoundingBox}
    (h : l.Pairwise fun x y => y.confidence ≤ x.confidence) :
    (insertByConfDesc b l).Pairwise fun x y => y.confidence ≤ x.confidence := by
  induction l with
  | nil => simp [insertByConfDesc]
  | cons a l ih =>
    obtain ⟨ha, hl⟩ := List.pairwise_cons.mp h
    simp only [insertByConfDesc]
    split
    case isTrue hab =>
      refine List.pairwise_cons.mpr ⟨?_, h⟩
      intro y hy
      rcases List.mem_cons.mp hy with rfl | hy'
      · exact hab
      · exact le_trans (ha y hy') hab
    case isFalse hab =>
      refine List.pairwise_cons.mpr ⟨?_, ih hl⟩
      intro y hy
      rcases mem_insertByConfDesc.mp hy with rfl | hy'
      · exact le_of_not_le hab
      · exact ha y hy'

/-- The stable sort produces a confidence-descending list. -/
theorem sortByConfDesc_pairwise (l : List BoundingBox) :
    (sortByConfDesc l).Pairwise fun x y => y.confidence ≤ x.confidence := by
  induction l with
  | nil => simp [sortByConfDesc]
  | cons a l ih => exact sortByConfDesc_cons a l ▸ pairwise_insertByConfDesc ih

/-- Inserting a box of confidence `c` into a descending list puts it in front
of every other box of confidence `c`. -/
theorem filter_insertByConfDesc_eq {b : BoundingBox} {l : List BoundingBox} {c : ℚ}
    (hb : b.confidence = c) (h : l.Pairwise fun x y => y.confidence ≤ x.confidence) :
    ((insertByConfDesc b l).filter fun x => decide (x.confidence = c)) =
      b :: l.filter fun x => decide (x.confidence = c) := by
  induction l with
  | nil => simp [insertByConfDesc, hb]
  | cons a l ih =>
    obtain ⟨ha, hl⟩ := List.pairwise_cons.mp h
    simp only [insertByConfDesc]
    split
    case isTrue hab => simp [List.filter_cons, hb]
    case isFalse hab =>
      have hac : ¬ a.confidence = c := by
        intro e
        exact hab (by rw [e, ← hb])
      simp only [List.filter_cons, decide_eq_true_eq, if_neg hac]
      exact ih hl

/-- Inserting a box whose confidence differs from `c` leaves the
confidence-`c` sublist unchanged. -/
theorem filter_insertByConfDesc_ne {b : BoundingBox} {l : List BoundingBox} {c : ℚ}
    (hb : ¬ b.confidence = c) :
    ((insertByConfDesc b l).filter fun x => decide (x.confidence = c)) =
      l.filter fun x => decide (x.confidence = c) := by
  induction l with
  | nil => simp [insertByConfDesc, hb]
  | cons a l ih =>
    simp only [insertByConfDesc]
    split
    · simp [List.filter_cons, hb]
    · simp only [List.filter_cons]
      rw [ih]

/-- Stability of the sort: for every confidence value `c`, the boxes of
confidence `c` appear in the sorted list exactly in their input order. -/
theorem sortByConfDesc_stable (l : List BoundingBox) (c : ℚ) :
    ((sortByConfDesc l).filter fun x => decide (x.confidence = c)) =
      l.filter fun x => decide (x.confidence = c) := by
  induction l with
  | nil => simp [sortByConfDesc]
  | cons a l ih =>
    rw [sortByConfDesc_cons]
    by_cases ha : a.confidence = c
    · rw [filter_insertByConfDesc_eq ha (sortByConfDesc_pairwise l), ih]
      simp [List.filter_cons, ha]
    · rw [filter_insertByConfDesc_ne ha, ih]
      simp [List.filter_cons, ha]

/-- Marking overlaps does not change the underlying boxes. -/
theorem suppressOverlaps_map_fst (t : ℚ) (b : BoundingBox) (l : List (BoundingBox × Bool)) :
    (suppressOverlaps t b l).map Prod.fst = l.map Prod.fst := by
  unfold suppressOverlaps
  rw [List.map_map]
  refine List.map_congr_left ?_
  intro p _
  by_cases hp : p.2 ∧ calculate_iou b p.1 > t <;> simp [hp]

/-- The walk does not change the underlying boxes either. -/
theorem nmsWalk_map_fst (t : ℚ) (l : List (BoundingBox × Bool)) :
    (nmsWalk t l).map Prod.fst = l.map Prod.fst := by
  induction l using nmsWalk.induct t with
  | case1 => simp [nmsWalk]
  | case2 b rest ih =>
    simp only [nmsWalk, if_pos]
    simp [ih, suppressOverlaps_map_fst]
  | case3 b k rest hk ih =>
    simp only [nmsWalk]
    rw [if_neg hk]
    simp [ih]

/-- A pair that is still kept after `suppressOverlaps` was in the input list
and does not overlap the current box beyond the threshold. -/
theorem suppressOverlaps_mem_true {t : ℚ} {b : BoundingBox}
    {l : List (BoundingBox × Bool)} {q : BoundingBox × Bool}
    (hq : q ∈ suppressOverlaps t b l) (h2 : q.2 = true) :
    q ∈ l ∧ calculate_iou b q.1 ≤ t := by
  obtain ⟨p, hp, he⟩ := List.mem_map.mp hq
  by_cases hc : p.2 ∧ calculate_iou b p.1 > t
  · rw [if_pos hc] at he
    rw [← he] at h2
    simp at h2
  · rw [if_neg hc] at he
    subst he
    refine ⟨hp, ?_⟩
    rcases not_and_or.mp hc with h | h
    · exact absurd h2 h
    · exact le_of_not_lt h

/-- A pair kept by the walk was already present (with its flag) in the input:
the walk only copies pairs, clearing flags of later overlapping boxes. -/
theorem nmsWalk_kept_mem {t : ℚ} {l : List (BoundingBox × Bool)}
    {q : BoundingBox × Bool} (hq : q ∈ nmsWalk t l) (h2 : q.2 = true) : q ∈ l := by
  induction l using nmsWalk.induct t with
  | case1 => simp [nmsWalk] at hq
  | case2 b rest ih =>
    simp only [nmsWalk, if_pos] at hq
    rcases List.mem_cons.mp hq with rfl | hq'
    · exact List.mem_cons_self _ _
    · exact List.mem_cons_of_mem _ (suppressOverlaps_mem_true (ih hq') h2).1
  | case3 b k rest hk ih =>
    rw [nmsWalk, if_neg hk] at hq
    rcases List.mem_cons.mp hq with rfl | hq'
    · exact List.mem_cons_self _ _
    · exact List.mem_cons_of_mem _ (ih hq')

/-- Any two pairs that are both still kept after the walk have IoU at most
the threshold: the earlier kept pair examined the later one and would have
cleared its flag otherwise. -/
theorem nmsWalk_pairwise (t : ℚ) (l : List (BoundingBox × Bool)) :
    (nmsWalk t l).Pairwise
      fun p q => p.2 = true → q.2 = true → calculate_iou p.1 q.1 ≤ t := by
  induction l using nmsWalk.induct t with
  | case1 => simp [nmsWalk]
  | case2 b rest ih =>
    simp only [nmsWalk, if_pos]
    refine List.pairwise_cons.mpr ⟨?_, ih⟩
    intro q hq _ hq2
    exact (suppressOverlaps_mem_true (nmsWalk_kept_mem hq hq2) hq2).2
  | case3 b k rest hk ih =>
    rw [nmsWalk, if_neg hk]
    refine List.pairwise_cons.mpr ⟨?_, ih⟩
    intro q hq h1
    exact absurd h1 hk

/-- Claim C2: any two distinct boxes both retained by `non_max_suppression`
with `IOU_THRESHOLD = 0.5` have pairwise IoU at most `0.5` (stated for every
pair of positions in the returned list; `calculate_iou` is symmetric in its
arguments). -/
theorem nms_pairwise_iou_le (boxes : List BoundingBox) :
    (non_max_suppression boxes IOU_THRESHOLD).Pairwise
      fun a b => calculate_iou a b ≤ IOU_THRESHOLD := by
  unfold non_max_suppression
  have h := nmsWalk_pairwise IOU_THRESHOLD ((sortByConfDesc boxes).map fun b => (b, true))
  refine List.pairwise_filterMap.mpr (h.imp ?_)
  intro p q hpq a ha b hb
  by_cases hp : p.2 = true
  · by_cases hq2 : q.2 = true
    · rw [if_pos hp] at ha
      rw [if_pos hq2] at hb
      obtain rfl := Option.mem_some_iff.mp ha
      obtain rfl := Option.mem_some_iff.mp hb
      exact hpq hp hq2
    · simp [hq2] at hb
  · simp [hp] at ha

/-- The kept boxes form a sublist of the underlying box sequence. -/
theorem filterMap_kept_sublist (l : List (BoundingBox × Bool)) :
    List.Sublist (l.filterMap fun p => if p.2 then some p.1 else none) (l.map Prod.fst) := by
  induction l with
  | nil => simp
  | cons p l ih =>
    obtain ⟨x, k⟩ := p
    cases k
    · simpa using ih.cons x
    · simpa using ih.cons₂ x

/-- The suppression output is a sublist of the sorted input. -/
theorem nms_sublist_sorted (boxes : List BoundingBox) (t : ℚ) :
    List.Sublist (non_max_suppression boxes t) (sortByConfDesc boxes) := by
  unfold non_max_suppression
  have h1 := filterMap_kept_sublist (nmsWalk t ((sortByConfDesc boxes).map fun b => (b, true)))
  rw [nmsWalk_map_fst] at h1
  simpa [Function.comp_def] using h1

/-- Claim C3: the list returned by `non_max_suppression` is sorted by
confidence in descending order, and for every confidence value `c` the
retained boxes of confidence `c` form a sublist (in order) of the input
boxes of confidence `c` — i.e. ties keep the order produced by `decode`
(the sort is stable). -/
theorem nms_sorted_and_stable (boxes : List BoundingBox) (t c : ℚ) :
    (non_max_suppression boxes t).Pairwise (fun a b => b.confidence ≤ a.confidence) ∧
      List.Sublist ((non_max_suppression boxes t).filter fun b => decide (b.confidence = c))
        (boxes.filter fun b => decide (b.confidence = c)) := by
  constructor
  · exact List.Pairwise.sublist (nms_sublist_sorted boxes t) (sortByConfDesc_pairwise boxes)
  · have h := List.Sublist.filter (fun b => decide (b.confidence = c))
      (nms_sublist_sorted boxes t)
    rw [sortByConfDesc_stable] at h
    exact h

/-- Insertion grows the length by one. -/
theorem length_insertByConfDesc (b : BoundingBox) (l : List BoundingBox) :
    (insertByConfDesc b l).length = l.length + 1 := by
  induction l with
  | nil => rfl
  | cons a l ih =>
    simp only [insertByConfDesc]
    split
    · rfl
    · simp [ih]

/-- Sorting preserves the length. -/
theorem length_sortByConfDesc (l : List BoundingBox) :
    (sortByConfDesc l).length = l.length := by
  induction l with
  | nil => rfl
  | cons a l ih => rw [sortByConfDesc_cons, length_insertByConfDesc, ih]; rfl

/-- Claim C10: for a non-empty input, the output of `non_max_suppression` is
non-empty, its first element is the first element of the descending sort,
and that element has maximal confidence among all input boxes: the greedy
loop never clears the keep flag of position 0. -/
theorem nms_keeps_top_box (boxes : List BoundingBox) (t : ℚ) (h : boxes ≠ []) :
    non_max_suppression boxes t ≠ [] ∧
      (non_max_suppression boxes t).head? = (sortByConfDesc boxes).head? ∧
      ∀ a ∈ boxes, ∀ b, (sortByConfDesc boxes).head? = some b →
        a.confidence ≤ b.confidence := by
  obtain ⟨b, rest, heq⟩ : ∃ b rest, sortByConfDesc boxes = b :: rest := by
    cases hs : sortByConfDesc boxes with
    | nil =>
      have hlen := length_sortByConfDesc boxes
      rw [hs] at hlen
      exact absurd (List.length_eq_zero.mp hlen.symm) h
    | cons b rest => exact ⟨b, rest, rfl⟩
  have hwalk : non_max_suppression boxes t =
      b :: ((nmsWalk t (suppressOverlaps t b (rest.map fun x => (x, true)))).filterMap
        fun p => if p.2 then some p.1 else none) := by
    unfold non_max_suppression
    rw [heq]
    simp [nmsWalk, List.filterMap_cons]
  refine ⟨by rw [hwalk]; simp, by rw [hwalk, heq]; simp, ?_⟩
  intro a ha bb hbb
  rw [heq] at hbb
  simp only [List.head?_cons, Option.some_inj] at hbb
  subst hbb
  have hmem : a ∈ sortByConfDesc boxes := mem_sortByConfDesc.mpr ha
  rw [heq] at hmem
  rcases List.mem_cons.mp hmem with rfl | hmem'
  · exact le_refl _
  · have hp := sortByConfDesc_pairwise boxes
    rw [heq] at hp
    exact (List.pairwise_cons.mp hp).1 a hmem'

/-- Claim C10, witness: on the two boxes of confidences `0.6` and `0.9`, the
suppression output is non-empty and starts with the `0.9` box (the head of
the descending sort). -/
theorem nms_keeps_top_box_witness :
    non_max_suppression
        [{ x_min := 0, y_min := 0, x_max := 4, y_max := 4, confidence := (3:ℚ)/5 },
         { x_min := 0, y_min := 0, x_max := 4, y_max := 4, confidence := (9:ℚ)/10 }]
        IOU_THRESHOLD ≠ [] ∧
      (non_max_suppression
          [{ x_min := 0, y_min := 0, x_max := 4, y_max := 4, confidence := (3:ℚ)/5 },
           { x_min := 0, y_min := 0, x_max := 4, y_max := 4, confidence := (9:ℚ)/10 }]
          IOU_THRESHOLD).head? =
        (sortByConfDesc
          [{ x_min := 0, y_min := 0, x_max := 4, y_max := 4, confidence := (3:ℚ)/5 },
           { x_min := 0, y_min := 0, x_max := 4, y_max := 4, confidence := (9:ℚ)/10 }]).head? :=
  ⟨(nms_keeps_top_box _ IOU_THRESHOLD (by simp)).1,
   (nms_keeps_top_box _ IOU_THRESHOLD (by simp)).2.1⟩

/-- Embeds `OcrError` (src/crates/plate-ocr/src/lib.rs lines 8-18).  The
`ValidationError` payload is modelled as the offending processed text (the
Rust code wraps it in the fixed format string
`Text ... does not match license plate pattern`). -/
inductive OcrError where
  | TesseractInitError : List Char → OcrError
  | ImageProcessError : List Char → OcrError
  | ProcessingError : List Char → OcrError
  | ValidationError : List Char → OcrError
deriving DecidableEq

/-- Embeds Rust `char::is_whitespace` (the Unicode `White_Space` property,
by scalar value), used by `str::trim`. -/
def isRustWhitespace (c : Char) : Bool :=
  decide (c.toNat = 9 ∨ c.toNat = 10 ∨ c.toNat = 11 ∨ c.toNat = 12 ∨ c.toNat = 13 ∨
    c.toNat = 32 ∨ c.toNat = 133 ∨ c.toNat = 160 ∨ c.toNat = 5760 ∨
    (8192 ≤ c.toNat ∧ c.toNat ≤ 8202) ∨ c.toNat = 8232 ∨ c.toNat = 8233 ∨
    c.toNat = 8239 ∨ c.toNat = 8287 ∨ c.toNat = 12288)

/-- Tests for the two characters removed by `.replace(['\n', ' '], "")`
(plate-ocr lib.rs line 138): newline (code 10) and space (code 32). -/
def isNewlineOrSpace (c : Char) : Bool :=
  decide (c.toNat = 10 ∨ c.toNat = 32)

/-- Embeds `str::trim` (plate-ocr lib.rs line 137): drop Unicode whitespace
from both ends of the character sequence. -/
def rustTrim (l : List Char) : List Char :=
  ((l.dropWhile isRustWhitespace).reverse.dropWhile isRustWhitespace).reverse

/-- Embeds `.replace(['\n', ' '], "")` (plate-ocr lib.rs line 138): delete
every newline and space character. -/
def removeNewlineSpace (l : List Char) : List Char :=
  l.filter fun c => !isNewlineOrSpace c

/-- A binary search tree keyed by characters; it represents the Unicode
uppercase-mapping table in a shape whose lookups are cheap enough for the
finite kernel checks below. -/
inductive CharMap where
  | leaf : CharMap
  | node : CharMap → Char → List Char → CharMap → CharMap

/-- Looks a character up in the tree, ordered by code point. -/
def CharMap.find : CharMap → Char → Option (List Char)
  | CharMap.leaf, _ => none
  | CharMap.node l k v r, c =>
    if c < k then l.find c else if k < c then r.find c else some v

/-- Checks that a predicate holds of every entry of the tree; its recursion
follows the tree shape, so evaluating it in the kernel only needs stack
proportional to the tree depth. -/
def CharMap.allB (p : Char → List Char → Bool) : CharMap → Bool
  | CharMap.leaf => true
  | CharMap.node l k v r => p k v && l.allB p && r.allB p

/-- Number of entries of the tree. -/
def CharMap.size : CharMap → Nat
  | CharMap.leaf => 0
  | CharMap.node l _ _ r => l.size + 1 + r.size

/-- The uppercase-mapping table applied by `str::to_uppercase` and
`char::to_uppercase` (plate-ocr lib.rs line 139): every character whose
full uppercase mapping (Unicode 14.0 `UnicodeData` simple mappings plus the
`SpecialCasing` multi-character expansions, such as `ß` to `SS`) differs
from the character itself, paired with that mapping, in code-point order.
Characters without an entry uppercase to themselves; the mapping is applied
per character with no context dependence. -/
def rustUpperTable : List (Char × List Char) := [
  ('a', ['A']), ('b', ['B']), ('c', ['C']), ('d', ['D']), ('e', ['E']), ('f', ['F']),
  ('g', ['G']), ('h', ['H']), ('i', ['I']), ('j', ['J']), ('k', ['K']), ('l', ['L']),
  ('m', ['M']), ('n', ['N']), ('o', ['O']), ('p', ['P']), ('q', ['Q']), ('r', ['R']),
  ('s', ['S']), ('t', ['T']), ('u', ['U']), ('v', ['V']), ('w', ['W']), ('x', ['X']),
  ('y', ['Y']), ('z', ['Z']), ('µ', ['Μ']), ('ß', ['S', 'S']), ('à', ['À']), ('á', ['Á']),
  ('â', ['Â']), ('ã', ['Ã']), ('ä', ['Ä']), ('å', ['Å']), ('æ', ['Æ']), ('ç', ['Ç']),
  ('è', ['È']), ('é', ['É']), ('ê', ['Ê']), ('ë', ['Ë']), ('ì', ['Ì']), ('í', ['Í']),
  ('î', ['Î']), ('ï', ['Ï']), ('ð', ['Ð']), ('ñ', ['Ñ']), ('ò', ['Ò']), ('ó', ['Ó']),
  ('ô', ['Ô']), ('õ', ['Õ']), ('ö', ['Ö']), ('ø', ['Ø']), ('ù', ['Ù']), ('ú', ['Ú']),
  ('û', ['Û']), ('ü', ['Ü']), ('ý', ['Ý']), ('þ', ['Þ']), ('ÿ', ['Ÿ']), ('ā', ['Ā']),
  ('ă', ['Ă']), ('ą', ['Ą']), ('ć', ['Ć']), ('ĉ', ['Ĉ']), ('ċ', ['Ċ']), ('č', ['Č']),
  ('ď', ['Ď']), ('đ', ['Đ']), ('ē', ['Ē']), ('ĕ', ['Ĕ']), ('ė', ['Ė']), ('ę', ['Ę']),
  ('ě', ['Ě']), ('ĝ', ['Ĝ']), ('ğ', ['Ğ']), ('ġ', ['Ġ']), ('ģ', ['Ģ']), ('ĥ', ['Ĥ']),
  ('ħ', ['Ħ']), ('ĩ', ['Ĩ']), ('ī', ['Ī']), ('ĭ', ['Ĭ']), ('į', ['Į']), ('ı', ['I']),
  ('ĳ', ['Ĳ']), ('ĵ', ['Ĵ']), ('ķ', ['Ķ']), ('ĺ', ['Ĺ']), ('ļ', ['Ļ']), ('ľ', ['Ľ']),
  ('ŀ', ['Ŀ']), ('ł', ['Ł']), ('ń', ['Ń']), ('ņ', ['Ņ']), ('ň', ['Ň']), ('ŉ', ['ʼ', 'N']),
  ('ŋ', ['Ŋ']), ('ō', ['Ō']), ('ŏ', ['Ŏ']), ('ő', ['Ő']), ('œ', ['Œ']), ('ŕ', ['Ŕ']),
  ('ŗ', ['Ŗ']), ('ř', ['Ř']), ('ś', ['Ś']), ('ŝ', ['Ŝ']), ('ş', ['Ş']), ('š', ['Š']),
  ('ţ', ['Ţ']), ('ť', ['Ť']), ('ŧ', ['Ŧ']), ('ũ', ['Ũ']), ('ū', ['Ū']), ('ŭ', ['Ŭ']),
  ('ů', ['Ů']), ('ű', ['Ű']), ('ų', ['Ų']), ('ŵ', ['Ŵ']), ('ŷ', ['Ŷ']), ('ź', ['Ź']),
  ('ż', ['Ż']), ('ž', ['Ž']), ('ſ', ['S']), ('ƀ', ['Ƀ']), ('ƃ', ['Ƃ']), ('ƅ', ['Ƅ']),
  ('ƈ', ['Ƈ']), ('ƌ', ['Ƌ']), ('ƒ', ['Ƒ']), ('ƕ', ['Ƕ']), ('ƙ', ['Ƙ']), ('ƚ', ['Ƚ']),
  ('ƞ', ['Ƞ']), ('ơ', ['Ơ']), ('ƣ', ['Ƣ']), ('ƥ', ['Ƥ']), ('ƨ', ['Ƨ']), ('ƭ', ['Ƭ']),
  ('ư', ['Ư']), ('ƴ', ['Ƴ']), ('ƶ', ['Ƶ']), ('ƹ', ['Ƹ']), ('ƽ', ['Ƽ']), ('ƿ', ['Ƿ']),
  ('ǅ', ['Ǆ']), ('ǆ', ['Ǆ']), ('ǈ', ['Ǉ']), ('ǉ', ['Ǉ']), ('ǋ', ['Ǌ']), ('ǌ', ['Ǌ']),
  ('ǎ', ['Ǎ']), ('ǐ', ['Ǐ']), ('ǒ', ['Ǒ']), ('ǔ', ['Ǔ']), ('ǖ', ['Ǖ']), ('ǘ', ['Ǘ']),
  ('ǚ', ['Ǚ']), ('ǜ', ['Ǜ']), ('ǝ', ['Ǝ']), ('ǟ', ['Ǟ']), ('ǡ', ['Ǡ']), ('ǣ', ['Ǣ']),
  ('ǥ', ['Ǥ']), ('ǧ', ['Ǧ']), ('ǩ', ['Ǩ']), ('ǫ', ['Ǫ']), ('ǭ', ['Ǭ']), ('ǯ', ['Ǯ']),
  ('ǰ', ['J', '̌']), ('ǲ', ['Ǳ']), ('ǳ', ['Ǳ']), ('ǵ', ['Ǵ']), ('ǹ', ['Ǹ']), ('ǻ', ['Ǻ']),
  ('ǽ', ['Ǽ']), ('ǿ', ['Ǿ']), ('ȁ', ['Ȁ']), ('ȃ', ['Ȃ']), ('ȅ', ['Ȅ']), ('ȇ', ['Ȇ']),
  ('ȉ', ['Ȉ']), ('ȋ', ['Ȋ']), ('ȍ', ['Ȍ']), ('ȏ', ['Ȏ']), ('ȑ', ['Ȑ']), ('ȓ', ['Ȓ']),
  ('ȕ', ['Ȕ']), ('ȗ', ['Ȗ']), ('ș', ['Ș']), ('ț', ['Ț']), ('ȝ', ['Ȝ']), ('ȟ', ['Ȟ']),
  ('ȣ', ['Ȣ']), ('ȥ', ['Ȥ']), ('ȧ', ['Ȧ']), ('ȩ', ['Ȩ']), ('ȫ', ['Ȫ']), ('ȭ', ['Ȭ']),
  ('ȯ', ['Ȯ']), ('ȱ', ['Ȱ']), ('ȳ', ['Ȳ']), ('ȼ', ['Ȼ']), ('ȿ', ['Ȿ']), ('ɀ', ['Ɀ']),
  ('ɂ', ['Ɂ']), ('ɇ', ['Ɇ']), ('ɉ', ['Ɉ']), ('ɋ', ['Ɋ']), ('ɍ', ['Ɍ']), ('ɏ', ['Ɏ']),
  ('ɐ', ['Ɐ']), ('ɑ', ['Ɑ']), ('ɒ', ['Ɒ']), ('ɓ', ['Ɓ']), ('ɔ', ['Ɔ']), ('ɖ', ['Ɖ']),
  ('ɗ', ['Ɗ']), ('ə', ['Ə']), ('ɛ', ['Ɛ']), ('ɜ', ['Ɜ']), ('ɠ', ['Ɠ']), ('ɡ', ['Ɡ']),
  ('ɣ', ['Ɣ']), ('ɥ', ['Ɥ']), ('ɦ', ['Ɦ']), ('ɨ', ['Ɨ']), ('ɩ', ['Ɩ']), ('ɪ', ['Ɪ']),
  ('ɫ', ['Ɫ']), ('ɬ', ['Ɬ']), ('ɯ', ['Ɯ']), ('ɱ', ['Ɱ']), ('ɲ', ['Ɲ']), ('ɵ', ['Ɵ']),
  ('ɽ', ['Ɽ']), ('ʀ', ['Ʀ']), ('ʂ', ['Ʂ']), ('ʃ', ['Ʃ']), ('ʇ', ['Ʇ']), ('ʈ', ['Ʈ']),
  ('ʉ', ['Ʉ']), ('ʊ', ['Ʊ']), ('ʋ', ['Ʋ']), ('ʌ', ['Ʌ']), ('ʒ', ['Ʒ']), ('ʝ', ['Ʝ']),
  ('ʞ', ['Ʞ']), ('ͅ', ['Ι']), ('ͱ', ['Ͱ']), ('ͳ', ['Ͳ']), ('ͷ', ['Ͷ']), ('ͻ', ['Ͻ']),
  ('ͼ', ['Ͼ']), ('ͽ', ['Ͽ']), ('ΐ', ['Ι', '̈', '́']), ('ά', ['Ά']), ('έ', ['Έ']), ('ή', ['Ή']),
  ('ί', ['Ί']), ('ΰ', ['Υ', '̈', '́']), ('α', ['Α']), ('β', ['Β']), ('γ', ['Γ']), ('δ', ['Δ']),
  ('ε', ['Ε']), ('ζ', ['Ζ']), ('η', ['Η']), ('θ', ['Θ']), ('ι', ['Ι']), ('κ', ['Κ']),
  ('λ', ['Λ']), ('μ', ['Μ']), ('ν', ['Ν']), ('ξ', ['Ξ']), ('ο', ['Ο']), ('π', ['Π']),
  ('ρ', ['Ρ']), ('ς', ['Σ']), ('σ', ['Σ']), ('τ', ['Τ']), ('υ', ['Υ']), ('φ', ['Φ']),
  ('χ', ['Χ']), ('ψ', ['Ψ']), ('ω', ['Ω']), ('ϊ', ['Ϊ']), ('ϋ', ['Ϋ']), ('ό', ['Ό']),
  ('ύ', ['Ύ']), ('ώ', ['Ώ']), ('ϐ', ['Β']), ('ϑ', ['Θ']), ('ϕ', ['Φ']), ('ϖ', ['Π']),
  ('ϗ', ['Ϗ']), ('ϙ', ['Ϙ']), ('ϛ', ['Ϛ']), ('ϝ', ['Ϝ']), ('ϟ', ['Ϟ']), ('ϡ', ['Ϡ']),
  ('ϣ', ['Ϣ']), ('ϥ', ['Ϥ']), ('ϧ', ['Ϧ']), ('ϩ', ['Ϩ']), ('ϫ', ['Ϫ']), ('ϭ', ['Ϭ']),
  ('ϯ', ['Ϯ']), ('ϰ', ['Κ']), ('ϱ', ['Ρ']), ('ϲ', ['Ϲ']), ('ϳ', ['Ϳ']), ('ϵ', ['Ε']),
  ('ϸ', ['Ϸ']), ('ϻ', ['Ϻ']), ('а', ['А']), ('б', ['Б']), ('в', ['В']), ('г', ['Г']),
  ('д', ['Д']), ('е', ['Е']), ('ж', ['Ж']), ('з', ['З']), ('и', ['И']), ('й', ['Й']),
  ('к', ['К']), ('л', ['Л']), ('м', ['М']), ('н', ['Н']), ('о', ['О']), ('п', ['П']),
  ('р', ['Р']), ('с', ['С']), ('т', ['Т']), ('у', ['У']), ('ф', ['Ф']), ('х', ['Х']),
  ('ц', ['Ц']), ('ч', ['Ч']), ('ш', ['Ш']), ('щ', ['Щ']), ('ъ', ['Ъ']), ('ы', ['Ы']),
  ('ь', ['Ь']), ('э', ['Э']), ('ю', ['Ю']), ('я', ['Я']), ('ѐ', ['Ѐ']), ('ё', ['Ё']),
  ('ђ', ['Ђ']), ('ѓ', ['Ѓ']), ('є', ['Є']), ('ѕ', ['Ѕ']), ('і', ['І']), ('ї', ['Ї']),
  ('ј', ['Ј']), ('љ', ['Љ']), ('њ', ['Њ']), ('ћ', ['Ћ']), ('ќ', ['Ќ']), ('ѝ', ['Ѝ']),
  ('ў', ['Ў']), ('џ', ['Џ']), ('ѡ', ['Ѡ']), ('ѣ', ['Ѣ']), ('ѥ', ['Ѥ']), ('ѧ', ['Ѧ']),
  ('ѩ', ['Ѩ']), ('ѫ', ['Ѫ']), ('ѭ', ['Ѭ']), ('ѯ', ['Ѯ']), ('ѱ', ['Ѱ']), ('ѳ', ['Ѳ']),
  ('ѵ', ['Ѵ']), ('ѷ', ['Ѷ']), ('ѹ', ['Ѹ']), ('ѻ', ['Ѻ']), ('ѽ', ['Ѽ']), ('ѿ', ['Ѿ']),
  ('ҁ', ['Ҁ']), ('ҋ', ['Ҋ']), ('ҍ', ['Ҍ']), ('ҏ', ['Ҏ']), ('ґ', ['Ґ']), ('ғ', ['Ғ']),
  ('ҕ', ['Ҕ']), ('җ', ['Җ']), ('ҙ', ['Ҙ']), ('қ', ['Қ']), ('ҝ', ['Ҝ']), ('ҟ', ['Ҟ']),
  ('ҡ', ['Ҡ']), ('ң', ['Ң']), ('ҥ', ['Ҥ']), ('ҧ', ['Ҧ']), ('ҩ', ['Ҩ']), ('ҫ', ['Ҫ']),
  ('ҭ', ['Ҭ']), ('ү', ['Ү']), ('ұ', ['Ұ']), ('ҳ', ['Ҳ']), ('ҵ', ['Ҵ']), ('ҷ', ['Ҷ']),
  ('ҹ', ['Ҹ']), ('һ', ['Һ']), ('ҽ', ['Ҽ']), ('ҿ', ['Ҿ']), ('ӂ', ['Ӂ']), ('ӄ', ['Ӄ']),
  ('ӆ', ['Ӆ']), ('ӈ', ['Ӈ']), ('ӊ', ['Ӊ']), ('ӌ', ['Ӌ']), ('ӎ', ['Ӎ']), ('ӏ', ['Ӏ']),
  ('ӑ', ['Ӑ']), ('ӓ', ['Ӓ']), ('ӕ', ['Ӕ']), ('ӗ', ['Ӗ']), ('ә', ['Ә']), ('ӛ', ['Ӛ']),
  ('ӝ', ['Ӝ']), ('ӟ', ['Ӟ']), ('ӡ', ['Ӡ']), ('ӣ', ['Ӣ']), ('ӥ', ['Ӥ']), ('ӧ', ['Ӧ']),
  ('ө', ['Ө']), ('ӫ', ['Ӫ']), ('ӭ', ['Ӭ']), ('ӯ', ['Ӯ']), ('ӱ', ['Ӱ']), ('ӳ', ['Ӳ']),
  ('ӵ', ['Ӵ']), ('ӷ', ['Ӷ']), ('ӹ', ['Ӹ']), ('ӻ', ['Ӻ']), ('ӽ', ['Ӽ']), ('ӿ', ['Ӿ']),
  ('ԁ', ['Ԁ']), ('ԃ', ['Ԃ']), ('ԅ', ['Ԅ']), ('ԇ', ['Ԇ']), ('ԉ', ['Ԉ']), ('ԋ', ['Ԋ']),
  ('ԍ', ['Ԍ']), ('ԏ', ['Ԏ']), ('ԑ', ['Ԑ']), ('ԓ', ['Ԓ']), ('ԕ', ['Ԕ']), ('ԗ', ['Ԗ']),
  ('ԙ', ['Ԙ']), ('ԛ', ['Ԛ']), ('ԝ', ['Ԝ']), ('ԟ', ['Ԟ']), ('ԡ', ['Ԡ']), ('ԣ', ['Ԣ']),
  ('ԥ', ['Ԥ']), ('ԧ', ['Ԧ']), ('ԩ', ['Ԩ']), ('ԫ', ['Ԫ']), ('ԭ', ['Ԭ']), ('ԯ', ['Ԯ']),
  ('ա', ['Ա']), ('բ', ['Բ']), ('գ', ['Գ']), ('դ', ['Դ']), ('ե', ['Ե']), ('զ', ['Զ']),
  ('է', ['Է']), ('ը', ['Ը']), ('թ', ['Թ']), ('ժ', ['Ժ']), ('ի', ['Ի']), ('լ', ['Լ']),
  ('խ', ['Խ']), ('ծ', ['Ծ']), ('կ', ['Կ']), ('հ', ['Հ']), ('ձ', ['Ձ']), ('ղ', ['Ղ']),
  ('ճ', ['Ճ']), ('մ', ['Մ']), ('յ', ['Յ']), ('ն', ['Ն']), ('շ', ['Շ']), ('ո', ['Ո']),
  ('չ', ['Չ']), ('պ', ['Պ']), ('ջ', ['Ջ']), ('ռ', ['Ռ']), ('ս', ['Ս']), ('վ', ['Վ']),
  ('տ', ['Տ']), ('ր', ['Ր']), ('ց', ['Ց']), ('ւ', ['Ւ']), ('փ', ['Փ']), ('ք', ['Ք']),
  ('օ', ['Օ']), ('ֆ', ['Ֆ']), ('և', ['Ե', 'Ւ']), ('ა', ['Ა']), ('ბ', ['Ბ']), ('გ', ['Გ']),
  ('დ', ['Დ']), ('ე', ['Ე']), ('ვ', ['Ვ']), ('ზ', ['Ზ']), ('თ', ['Თ']), ('ი', ['Ი']),
  ('კ', ['Კ']), ('ლ', ['Ლ']), ('მ', ['Მ']), ('ნ', ['Ნ']), ('ო', ['Ო']), ('პ', ['Პ']),
  ('ჟ', ['Ჟ']), ('რ', ['Რ']), ('ს', ['Ს']), ('ტ', ['Ტ']), ('უ', ['Უ']), ('ფ', ['Ფ']),
  ('ქ', ['Ქ']), ('ღ', ['Ღ']), ('ყ', ['Ყ']), ('შ', ['Შ']), ('ჩ', ['Ჩ']), ('ც', ['Ც']),
  ('ძ', ['Ძ']), ('წ', ['Წ']), ('ჭ', ['Ჭ']), ('ხ', ['Ხ']), ('ჯ', ['Ჯ']), ('ჰ', ['Ჰ']),
  ('ჱ', ['Ჱ']), ('ჲ', ['Ჲ']), ('ჳ', ['Ჳ']), ('ჴ', ['Ჴ']), ('ჵ', ['Ჵ']), ('ჶ', ['Ჶ']),
  ('ჷ', ['Ჷ']), ('ჸ', ['Ჸ']), ('ჹ', ['Ჹ']), ('ჺ', ['Ჺ']), ('ჽ', ['Ჽ']), ('ჾ', ['Ჾ']),
  ('ჿ', ['Ჿ']), ('ᏸ', ['Ᏸ']), ('ᏹ', ['Ᏹ']), ('ᏺ', ['Ᏺ']), ('ᏻ', ['Ᏻ']), ('ᏼ', ['Ᏼ']),
  ('ᏽ', ['Ᏽ']), ('ᲀ', ['В']), ('ᲁ', ['Д']), ('ᲂ', ['О']), ('ᲃ', ['С']), ('ᲄ', ['Т']),
  ('ᲅ', ['Т']), ('ᲆ', ['Ъ']), ('ᲇ', ['Ѣ']), ('ᲈ', ['Ꙋ']), ('ᵹ', ['Ᵹ']), ('ᵽ', ['Ᵽ']),
  ('ᶎ', ['Ᶎ']), ('ḁ', ['Ḁ']), ('ḃ', ['Ḃ']), ('ḅ', ['Ḅ']), ('ḇ', ['Ḇ']), ('ḉ', ['Ḉ']),
  ('ḋ', ['Ḋ']), ('ḍ', ['Ḍ']), ('ḏ', ['Ḏ']), ('ḑ', ['Ḑ']), ('ḓ', ['Ḓ']), ('ḕ', ['Ḕ']),
  ('ḗ', ['Ḗ']), ('ḙ', ['Ḙ']), ('ḛ', ['Ḛ']), ('ḝ', ['Ḝ']), ('ḟ', ['Ḟ']), ('ḡ', ['Ḡ']),
  ('ḣ', ['Ḣ']), ('ḥ', ['Ḥ']), ('ḧ', ['Ḧ']), ('ḩ', ['Ḩ']), ('ḫ', ['Ḫ']), ('ḭ', ['Ḭ']),
  ('ḯ', ['Ḯ']), ('ḱ', ['Ḱ']), ('ḳ', ['Ḳ']), ('ḵ', ['Ḵ']), ('ḷ', ['Ḷ']), ('ḹ', ['Ḹ']),
  ('ḻ', ['Ḻ']), ('ḽ', ['Ḽ']), ('ḿ', ['Ḿ']), ('ṁ', ['Ṁ']), ('ṃ', ['Ṃ']), ('ṅ', ['Ṅ']),
  ('ṇ', ['Ṇ']), ('ṉ', ['Ṉ']), ('ṋ', ['Ṋ']), ('ṍ', ['Ṍ']), ('ṏ', ['Ṏ']), ('ṑ', ['Ṑ']),
  ('ṓ', ['Ṓ']), ('ṕ', ['Ṕ']), ('ṗ', ['Ṗ']), ('ṙ', ['Ṙ']), ('ṛ', ['Ṛ']), ('ṝ', ['Ṝ']),
  ('ṟ', ['Ṟ']), ('ṡ', ['Ṡ']), ('ṣ', ['Ṣ']), ('ṥ', ['Ṥ']), ('ṧ', ['Ṧ']), ('ṩ', ['Ṩ']),
  ('ṫ', ['Ṫ']), ('ṭ', ['Ṭ']), ('ṯ', ['Ṯ']), ('ṱ', ['Ṱ']), ('ṳ', ['Ṳ']), ('ṵ', ['Ṵ']),
  ('ṷ', ['Ṷ']), ('ṹ', ['Ṹ']), ('ṻ', ['Ṻ']), ('ṽ', ['Ṽ']), ('ṿ', ['Ṿ']), ('ẁ', ['Ẁ']),
  ('ẃ', ['Ẃ']), ('ẅ', ['Ẅ']), ('ẇ', ['Ẇ']), ('ẉ', ['Ẉ']), ('ẋ', ['Ẋ']), ('ẍ', ['Ẍ']),
  ('ẏ', ['Ẏ']), ('ẑ', ['Ẑ']), ('ẓ', ['Ẓ']), ('ẕ', ['Ẕ']), ('ẖ', ['H', '̱']), ('ẗ', ['T', '̈']),
  ('ẘ', ['W', '̊']), ('ẙ', ['Y', '̊']), ('ẚ', ['A', 'ʾ']), ('ẛ', ['Ṡ']), ('ạ', ['Ạ']), ('ả', ['Ả']),
  ('ấ', ['Ấ']), ('ầ', ['Ầ']), ('ẩ', ['Ẩ']), ('ẫ', ['Ẫ']), ('ậ', ['Ậ']), ('ắ', ['Ắ']),
  ('ằ', ['Ằ']), ('ẳ', ['Ẳ']), ('ẵ', ['Ẵ']), ('ặ', ['Ặ']), ('ẹ', ['Ẹ']), ('ẻ', ['Ẻ']),
  ('ẽ', ['Ẽ']), ('ế', ['Ế']), ('ề', ['Ề']), ('ể', ['Ể']), ('ễ', ['Ễ']), ('ệ', ['Ệ']),
  ('ỉ', ['Ỉ']), ('ị', ['Ị']), ('ọ', ['Ọ']), ('ỏ', ['Ỏ']), ('ố', ['Ố']), ('ồ', ['Ồ']),
  ('ổ', ['Ổ']), ('ỗ', ['Ỗ']), ('ộ', ['Ộ']), ('ớ', ['Ớ']), ('ờ', ['Ờ']), ('ở', ['Ở']),
  ('ỡ', ['Ỡ']), ('ợ', ['Ợ']), ('ụ', ['Ụ']), ('ủ', ['Ủ']), ('ứ', ['Ứ']), ('ừ', ['Ừ']),
  ('ử', ['Ử']), ('ữ', ['Ữ']), ('ự', ['Ự']), ('ỳ', ['Ỳ']), ('ỵ', ['Ỵ']), ('ỷ', ['Ỷ']),
  ('ỹ', ['Ỹ']), ('ỻ', ['Ỻ']), ('ỽ', ['Ỽ']), ('ỿ', ['Ỿ']), ('ἀ', ['Ἀ']), ('ἁ', ['Ἁ']),
  ('ἂ', ['Ἂ']), ('ἃ', ['Ἃ']), ('ἄ', ['Ἄ']), ('ἅ', ['Ἅ']), ('ἆ', ['Ἆ']), ('ἇ', ['Ἇ']),
  ('ἐ', ['Ἐ']), ('ἑ', ['Ἑ']), ('ἒ', ['Ἒ']), ('ἓ', ['Ἓ']), ('ἔ', ['Ἔ']), ('ἕ', ['Ἕ']),
  ('ἠ', ['Ἠ']), ('ἡ', ['Ἡ']), ('ἢ', ['Ἢ']), ('ἣ', ['Ἣ']), ('ἤ', ['Ἤ']), ('ἥ', ['Ἥ']),
  ('ἦ', ['Ἦ']), ('ἧ', ['Ἧ']), ('ἰ', ['Ἰ']), ('ἱ', ['Ἱ']), ('ἲ', ['Ἲ']), ('ἳ', ['Ἳ']),
  ('ἴ', ['Ἴ']), ('ἵ', ['Ἵ']), ('ἶ', ['Ἶ']), ('ἷ', ['Ἷ']), ('ὀ', ['Ὀ']), ('ὁ', ['Ὁ']),
  ('ὂ', ['Ὂ']), ('ὃ', ['Ὃ']), ('ὄ', ['Ὄ']), ('ὅ', ['Ὅ']), ('ὐ', ['Υ', '̓']), ('ὑ', ['Ὑ']),
  ('ὒ', ['Υ', '̓', '̀']), ('ὓ', ['Ὓ']), ('ὔ', ['Υ', '̓', '́']), ('ὕ', ['Ὕ']), ('ὖ', ['Υ', '̓', '͂']), ('ὗ', ['Ὗ']),
  ('ὠ', ['Ὠ']), ('ὡ', ['Ὡ']), ('ὢ', ['Ὢ']), ('ὣ', ['Ὣ']), ('ὤ', ['Ὤ']), ('ὥ', ['Ὥ']),
  ('ὦ', ['Ὦ']), ('ὧ', ['Ὧ']), ('ὰ', ['Ὰ']), ('ά', ['Ά']), ('ὲ', ['Ὲ']), ('έ', ['Έ']),
  ('ὴ', ['Ὴ']), ('ή', ['Ή']), ('ὶ', ['Ὶ']), ('ί', ['Ί']), ('ὸ', ['Ὸ']), ('ό', ['Ό']),
  ('ὺ', ['Ὺ']), ('ύ', ['Ύ']), ('ὼ', ['Ὼ']), ('ώ', ['Ώ']), ('ᾀ', ['Ἀ', 'Ι']), ('ᾁ', ['Ἁ', 'Ι']),
  ('ᾂ', ['Ἂ', 'Ι']), ('ᾃ', ['Ἃ', 'Ι']), ('ᾄ', ['Ἄ', 'Ι']), ('ᾅ', ['Ἅ', 'Ι']), ('ᾆ', ['Ἆ', 'Ι']), ('ᾇ', ['Ἇ', 'Ι']),
  ('ᾈ', ['Ἀ', 'Ι']), ('ᾉ', ['Ἁ', 'Ι']), ('ᾊ', ['Ἂ', 'Ι']), ('ᾋ', ['Ἃ', 'Ι']), ('ᾌ', ['Ἄ', 'Ι']), ('ᾍ', ['Ἅ', 'Ι']),
  ('ᾎ', ['Ἆ', 'Ι']), ('ᾏ', ['Ἇ', 'Ι']), ('ᾐ', ['Ἠ', 'Ι']), ('ᾑ', ['Ἡ', 'Ι']), ('ᾒ', ['Ἢ', 'Ι']), ('ᾓ', ['Ἣ', 'Ι']),
  ('ᾔ', ['Ἤ', 'Ι']), ('ᾕ', ['Ἥ', 'Ι']), ('ᾖ', ['Ἦ', 'Ι']), ('ᾗ', ['Ἧ', 'Ι']), ('ᾘ', ['Ἠ', 'Ι']), ('ᾙ', ['Ἡ', 'Ι']),
  ('ᾚ', ['Ἢ', 'Ι']), ('ᾛ', ['Ἣ', 'Ι']), ('ᾜ', ['Ἤ', 'Ι']), ('ᾝ', ['Ἥ', 'Ι']), ('ᾞ', ['Ἦ', 'Ι']), ('ᾟ', ['Ἧ', 'Ι']),
  ('ᾠ', ['Ὠ', 'Ι']), ('ᾡ', ['Ὡ', 'Ι']), ('ᾢ', ['Ὢ', 'Ι']), ('ᾣ', ['Ὣ', 'Ι']), ('ᾤ', ['Ὤ', 'Ι']), ('ᾥ', ['Ὥ', 'Ι']),
  ('ᾦ', ['Ὦ', 'Ι']), ('ᾧ', ['Ὧ', 'Ι']), ('ᾨ', ['Ὠ', 'Ι']), ('ᾩ', ['Ὡ', 'Ι']), ('ᾪ', ['Ὢ', 'Ι']), ('ᾫ', ['Ὣ', 'Ι']),
  ('ᾬ', ['Ὤ', 'Ι']), ('ᾭ', ['Ὥ', 'Ι']), ('ᾮ', ['Ὦ', 'Ι']), ('ᾯ', ['Ὧ', 'Ι']), ('ᾰ', ['Ᾰ']), ('ᾱ', ['Ᾱ']),
  ('ᾲ', ['Ὰ', 'Ι']), ('ᾳ', ['Α', 'Ι']), ('ᾴ', ['Ά', 'Ι']), ('ᾶ', ['Α', '͂']), ('ᾷ', ['Α', '͂', 'Ι']), ('ᾼ', ['Α', 'Ι']),
  ('ι', ['Ι']), ('ῂ', ['Ὴ', 'Ι']), ('ῃ', ['Η', 'Ι']), ('ῄ', ['Ή', 'Ι']), ('ῆ', ['Η', '͂']), ('ῇ', ['Η', '͂', 'Ι']),
  ('ῌ', ['Η', 'Ι']), ('ῐ', ['Ῐ']), ('ῑ', ['Ῑ']), ('ῒ', ['Ι', '̈', '̀']), ('ΐ', ['Ι', '̈', '́']), ('ῖ', ['Ι', '͂']),
  ('ῗ', ['Ι', '̈', '͂']), ('ῠ', ['Ῠ']), ('ῡ', ['Ῡ']), ('ῢ', ['Υ', '̈', '̀']), ('ΰ', ['Υ', '̈', '́']), ('ῤ', ['Ρ', '̓']),
  ('ῥ', ['Ῥ']), ('ῦ', ['Υ', '͂']), ('ῧ', ['Υ', '̈', '͂']), ('ῲ', ['Ὼ', 'Ι']), ('ῳ', ['Ω', 'Ι']), ('ῴ', ['Ώ', 'Ι']),
  ('ῶ', ['Ω', '͂']), ('ῷ', ['Ω', '͂', 'Ι']), ('ῼ', ['Ω', 'Ι']), ('ⅎ', ['Ⅎ']), ('ⅰ', ['Ⅰ']), ('ⅱ', ['Ⅱ']),
  ('ⅲ', ['Ⅲ']), ('ⅳ', ['Ⅳ']), ('ⅴ', ['Ⅴ']), ('ⅵ', ['Ⅵ']), ('ⅶ', ['Ⅶ']), ('ⅷ', ['Ⅷ']),
  ('ⅸ', ['Ⅸ']), ('ⅹ', ['Ⅹ']), ('ⅺ', ['Ⅺ']), ('ⅻ', ['Ⅻ']), ('ⅼ', ['Ⅼ']), ('ⅽ', ['Ⅽ']),
  ('ⅾ', ['Ⅾ']), ('ⅿ', ['Ⅿ']), ('ↄ', ['Ↄ']), ('ⓐ', ['Ⓐ']), ('ⓑ', ['Ⓑ']), ('ⓒ', ['Ⓒ']),
  ('ⓓ', ['Ⓓ']), ('ⓔ', ['Ⓔ']), ('ⓕ', ['Ⓕ']), ('ⓖ', ['Ⓖ']), ('ⓗ', ['Ⓗ']), ('ⓘ', ['Ⓘ']),
  ('ⓙ', ['Ⓙ']), ('ⓚ', ['Ⓚ']), ('ⓛ', ['Ⓛ']), ('ⓜ', ['Ⓜ']), ('ⓝ', ['Ⓝ']), ('ⓞ', ['Ⓞ']),
  ('ⓟ', ['Ⓟ']), ('ⓠ', ['Ⓠ']), ('ⓡ', ['Ⓡ']), ('ⓢ', ['Ⓢ']), ('ⓣ', ['Ⓣ']), ('ⓤ', ['Ⓤ']),
  ('ⓥ', ['Ⓥ']), ('ⓦ', ['Ⓦ']), ('ⓧ', ['Ⓧ']), ('ⓨ', ['Ⓨ']), ('ⓩ', ['Ⓩ']), ('ⰰ', ['Ⰰ']),
  ('ⰱ', ['Ⰱ']), ('ⰲ', ['Ⰲ']), ('ⰳ', ['Ⰳ']), ('ⰴ', ['Ⰴ']), ('ⰵ', ['Ⰵ']), ('ⰶ', ['Ⰶ']),
  ('ⰷ', ['Ⰷ']), ('ⰸ', ['Ⰸ']), ('ⰹ', ['Ⰹ']), ('ⰺ', ['Ⰺ']), ('ⰻ', ['Ⰻ']), ('ⰼ', ['Ⰼ']),
  ('ⰽ', ['Ⰽ']), ('ⰾ', ['Ⰾ']), ('ⰿ', ['Ⰿ']), ('ⱀ', ['Ⱀ']), ('ⱁ', ['Ⱁ']), ('ⱂ', ['Ⱂ']),
  ('ⱃ', ['Ⱃ']), ('ⱄ', ['Ⱄ']), ('ⱅ', ['Ⱅ']), ('ⱆ', ['Ⱆ']), ('ⱇ', ['Ⱇ']), ('ⱈ', ['Ⱈ']),
  ('ⱉ', ['Ⱉ']), ('ⱊ', ['Ⱊ']), ('ⱋ', ['Ⱋ']), ('ⱌ', ['Ⱌ']), ('ⱍ', ['Ⱍ']), ('ⱎ', ['Ⱎ']),
  ('ⱏ', ['Ⱏ']), ('ⱐ', ['Ⱐ']), ('ⱑ', ['Ⱑ']), ('ⱒ', ['Ⱒ']), ('ⱓ', ['Ⱓ']), ('ⱔ', ['Ⱔ']),
  ('ⱕ', ['Ⱕ']), ('ⱖ', ['Ⱖ']), ('ⱗ', ['Ⱗ']), ('ⱘ', ['Ⱘ']), ('ⱙ', ['Ⱙ']), ('ⱚ', ['Ⱚ']),
  ('ⱛ', ['Ⱛ']), ('ⱜ', ['Ⱜ']), ('ⱝ', ['Ⱝ']), ('ⱞ', ['Ⱞ']), ('ⱟ', ['Ⱟ']), ('ⱡ', ['Ⱡ']),
  ('ⱥ', ['Ⱥ']), ('ⱦ', ['Ⱦ']), ('ⱨ', ['Ⱨ']), ('ⱪ', ['Ⱪ']), ('ⱬ', ['Ⱬ']), ('ⱳ', ['Ⱳ']),
  ('ⱶ', ['Ⱶ']), ('ⲁ', ['Ⲁ']), ('ⲃ', ['Ⲃ']), ('ⲅ', ['Ⲅ']), ('ⲇ', ['Ⲇ']), ('ⲉ', ['Ⲉ']),
  ('ⲋ', ['Ⲋ']), ('ⲍ', ['Ⲍ']), ('ⲏ', ['Ⲏ']), ('ⲑ', ['Ⲑ']), ('ⲓ', ['Ⲓ']), ('ⲕ', ['Ⲕ']),
  ('ⲗ', ['Ⲗ']), ('ⲙ', ['Ⲙ']), ('ⲛ', ['Ⲛ']), ('ⲝ', ['Ⲝ']), ('ⲟ', ['Ⲟ']), ('ⲡ', ['Ⲡ']),
  ('ⲣ', ['Ⲣ']), ('ⲥ', ['Ⲥ']), ('ⲧ', ['Ⲧ']), ('ⲩ', ['Ⲩ']), ('ⲫ', ['Ⲫ']), ('ⲭ', ['Ⲭ']),
  ('ⲯ', ['Ⲯ']), ('ⲱ', ['Ⲱ']), ('ⲳ', ['Ⲳ']), ('ⲵ', ['Ⲵ']), ('ⲷ', ['Ⲷ']), ('ⲹ', ['Ⲹ']),
  ('ⲻ', ['Ⲻ']), ('ⲽ', ['Ⲽ']), ('ⲿ', ['Ⲿ']), ('ⳁ', ['Ⳁ']), ('ⳃ', ['Ⳃ']), ('ⳅ', ['Ⳅ']),
  ('ⳇ', ['Ⳇ']), ('ⳉ', ['Ⳉ']), ('ⳋ', ['Ⳋ']), ('ⳍ', ['Ⳍ']), ('ⳏ', ['Ⳏ']), ('ⳑ', ['Ⳑ']),
  ('ⳓ', ['Ⳓ']), ('ⳕ', ['Ⳕ']), ('ⳗ', ['Ⳗ']), ('ⳙ', ['Ⳙ']), ('ⳛ', ['Ⳛ']), ('ⳝ', ['Ⳝ']),
  ('ⳟ', ['Ⳟ']), ('ⳡ', ['Ⳡ']), ('ⳣ', ['Ⳣ']), ('ⳬ', ['Ⳬ']), ('ⳮ', ['Ⳮ']), ('ⳳ', ['Ⳳ']),
  ('ⴀ', ['Ⴀ']), ('ⴁ', ['Ⴁ']), ('ⴂ', ['Ⴂ']), ('ⴃ', ['Ⴃ']), ('ⴄ', ['Ⴄ']), ('ⴅ', ['Ⴅ']),
  ('ⴆ', ['Ⴆ']), ('ⴇ', ['Ⴇ']), ('ⴈ', ['Ⴈ']), ('ⴉ', ['Ⴉ']), ('ⴊ', ['Ⴊ']), ('ⴋ', ['Ⴋ']),
  ('ⴌ', ['Ⴌ']), ('ⴍ', ['Ⴍ']), ('ⴎ', ['Ⴎ']), ('ⴏ', ['Ⴏ']), ('ⴐ', ['Ⴐ']), ('ⴑ', ['Ⴑ']),
  ('ⴒ', ['Ⴒ']), ('ⴓ', ['Ⴓ']), ('ⴔ', ['Ⴔ']), ('ⴕ', ['Ⴕ']), ('ⴖ', ['Ⴖ']), ('ⴗ', ['Ⴗ']),
  ('ⴘ', ['Ⴘ']), ('ⴙ', ['Ⴙ']), ('ⴚ', ['Ⴚ']), ('ⴛ', ['Ⴛ']), ('ⴜ', ['Ⴜ']), ('ⴝ', ['Ⴝ']),
  ('ⴞ', ['Ⴞ']), ('ⴟ', ['Ⴟ']), ('ⴠ', ['Ⴠ']), ('ⴡ', ['Ⴡ']), ('ⴢ', ['Ⴢ']), ('ⴣ', ['Ⴣ']),
  ('ⴤ', ['Ⴤ']), ('ⴥ', ['Ⴥ']), ('ⴧ', ['Ⴧ']), ('ⴭ', ['Ⴭ']), ('ꙁ', ['Ꙁ']), ('ꙃ', ['Ꙃ']),
  ('ꙅ', ['Ꙅ']), ('ꙇ', ['Ꙇ']), ('ꙉ', ['Ꙉ']), ('ꙋ', ['Ꙋ']), ('ꙍ', ['Ꙍ']), ('ꙏ', ['Ꙏ']),
  ('ꙑ', ['Ꙑ']), ('ꙓ', ['Ꙓ']), ('ꙕ', ['Ꙕ']), ('ꙗ', ['Ꙗ']), ('ꙙ', ['Ꙙ']), ('ꙛ', ['Ꙛ']),
  ('ꙝ', ['Ꙝ']), ('ꙟ', ['Ꙟ']), ('ꙡ', ['Ꙡ']), ('ꙣ', ['Ꙣ']), ('ꙥ', ['Ꙥ']), ('ꙧ', ['Ꙧ']),
  ('ꙩ', ['Ꙩ']), ('ꙫ', ['Ꙫ']), ('ꙭ', ['Ꙭ']), ('ꚁ', ['Ꚁ']), ('ꚃ', ['Ꚃ']), ('ꚅ', ['Ꚅ']),
  ('ꚇ', ['Ꚇ']), ('ꚉ', ['Ꚉ']), ('ꚋ', ['Ꚋ']), ('ꚍ', ['Ꚍ']), ('ꚏ', ['Ꚏ']), ('ꚑ', ['Ꚑ']),
  ('ꚓ', ['Ꚓ']), ('ꚕ', ['Ꚕ']), ('ꚗ', ['Ꚗ']), ('ꚙ', ['Ꚙ']), ('ꚛ', ['Ꚛ']), ('ꜣ', ['Ꜣ']),
  ('ꜥ', ['Ꜥ']), ('ꜧ', ['Ꜧ']), ('ꜩ', ['Ꜩ']), ('ꜫ', ['Ꜫ']), ('ꜭ', ['Ꜭ']), ('ꜯ', ['Ꜯ']),
  ('ꜳ', ['Ꜳ']), ('ꜵ', ['Ꜵ']), ('ꜷ', ['Ꜷ']), ('ꜹ', ['Ꜹ']), ('ꜻ', ['Ꜻ']), ('ꜽ', ['Ꜽ']),
  ('ꜿ', ['Ꜿ']), ('ꝁ', ['Ꝁ']), ('ꝃ', ['Ꝃ']), ('ꝅ', ['Ꝅ']), ('ꝇ', ['Ꝇ']), ('ꝉ', ['Ꝉ']),
  ('ꝋ', ['Ꝋ']), ('ꝍ', ['Ꝍ']), ('ꝏ', ['Ꝏ']), ('ꝑ', ['Ꝑ']), ('ꝓ', ['Ꝓ']), ('ꝕ', ['Ꝕ']),
  ('ꝗ', ['Ꝗ']), ('ꝙ', ['Ꝙ']), ('ꝛ', ['Ꝛ']), ('ꝝ', ['Ꝝ']), ('ꝟ', ['Ꝟ']), ('ꝡ', ['Ꝡ']),
  ('ꝣ', ['Ꝣ']), ('ꝥ', ['Ꝥ']), ('ꝧ', ['Ꝧ']), ('ꝩ', ['Ꝩ']), ('ꝫ', ['Ꝫ']), ('ꝭ', ['Ꝭ']),
  ('ꝯ', ['Ꝯ']), ('ꝺ', ['Ꝺ']), ('ꝼ', ['Ꝼ']), ('ꝿ', ['Ꝿ']), ('ꞁ', ['Ꞁ']), ('ꞃ', ['Ꞃ']),
  ('ꞅ', ['Ꞅ']), ('ꞇ', ['Ꞇ']), ('ꞌ', ['Ꞌ']), ('ꞑ', ['Ꞑ']), ('ꞓ', ['Ꞓ']), ('ꞔ', ['Ꞔ']),
  ('ꞗ', ['Ꞗ']), ('ꞙ', ['Ꞙ']), ('ꞛ', ['Ꞛ']), ('ꞝ', ['Ꞝ']), ('ꞟ', ['Ꞟ']), ('ꞡ', ['Ꞡ']),
  ('ꞣ', ['Ꞣ']), ('ꞥ', ['Ꞥ']), ('ꞧ', ['Ꞧ']), ('ꞩ', ['Ꞩ']), ('ꞵ', ['Ꞵ']), ('ꞷ', ['Ꞷ']),
  ('ꞹ', ['Ꞹ']), ('ꞻ', ['Ꞻ']), ('ꞽ', ['Ꞽ']), ('ꞿ', ['Ꞿ']), ('ꟁ', ['Ꟁ']), ('ꟃ', ['Ꟃ']),
  ('ꟈ', ['Ꟈ']), ('ꟊ', ['Ꟊ']), ('ꟑ', ['Ꟑ']), ('ꟗ', ['Ꟗ']), ('ꟙ', ['Ꟙ']), ('ꟶ', ['Ꟶ']),
  ('ꭓ', ['Ꭓ']), ('ꭰ', ['Ꭰ']), ('ꭱ', ['Ꭱ']), ('ꭲ', ['Ꭲ']), ('ꭳ', ['Ꭳ']), ('ꭴ', ['Ꭴ']),
  ('ꭵ', ['Ꭵ']), ('ꭶ', ['Ꭶ']), ('ꭷ', ['Ꭷ']), ('ꭸ', ['Ꭸ']), ('ꭹ', ['Ꭹ']), ('ꭺ', ['Ꭺ']),
  ('ꭻ', ['Ꭻ']), ('ꭼ', ['Ꭼ']), ('ꭽ', ['Ꭽ']), ('ꭾ', ['Ꭾ']), ('ꭿ', ['Ꭿ']), ('ꮀ', ['Ꮀ']),
  ('ꮁ', ['Ꮁ']), ('ꮂ', ['Ꮂ']), ('ꮃ', ['Ꮃ']), ('ꮄ', ['Ꮄ']), ('ꮅ', ['Ꮅ']), ('ꮆ', ['Ꮆ']),
  ('ꮇ', ['Ꮇ']), ('ꮈ', ['Ꮈ']), ('ꮉ', ['Ꮉ']), ('ꮊ', ['Ꮊ']), ('ꮋ', ['Ꮋ']), ('ꮌ', ['Ꮌ']),
  ('ꮍ', ['Ꮍ']), ('ꮎ', ['Ꮎ']), ('ꮏ', ['Ꮏ']), ('ꮐ', ['Ꮐ']), ('ꮑ', ['Ꮑ']), ('ꮒ', ['Ꮒ']),
  ('ꮓ', ['Ꮓ']), ('ꮔ', ['Ꮔ']), ('ꮕ', ['Ꮕ']), ('ꮖ', ['Ꮖ']), ('ꮗ', ['Ꮗ']), ('ꮘ', ['Ꮘ']),
  ('ꮙ', ['Ꮙ']), ('ꮚ', ['Ꮚ']), ('ꮛ', ['Ꮛ']), ('ꮜ', ['Ꮜ']), ('ꮝ', ['Ꮝ']), ('ꮞ', ['Ꮞ']),
  ('ꮟ', ['Ꮟ']), ('ꮠ', ['Ꮠ']), ('ꮡ', ['Ꮡ']), ('ꮢ', ['Ꮢ']), ('ꮣ', ['Ꮣ']), ('ꮤ', ['Ꮤ']),
  ('ꮥ', ['Ꮥ']), ('ꮦ', ['Ꮦ']), ('ꮧ', ['Ꮧ']), ('ꮨ', ['Ꮨ']), ('ꮩ', ['Ꮩ']), ('ꮪ', ['Ꮪ']),
  ('ꮫ', ['Ꮫ']), ('ꮬ', ['Ꮬ']), ('ꮭ', ['Ꮭ']), ('ꮮ', ['Ꮮ']), ('ꮯ', ['Ꮯ']), ('ꮰ', ['Ꮰ']),
  ('ꮱ', ['Ꮱ']), ('ꮲ', ['Ꮲ']), ('ꮳ', ['Ꮳ']), ('ꮴ', ['Ꮴ']), ('ꮵ', ['Ꮵ']), ('ꮶ', ['Ꮶ']),
  ('ꮷ', ['Ꮷ']), ('ꮸ', ['Ꮸ']), ('ꮹ', ['Ꮹ']), ('ꮺ', ['Ꮺ']), ('ꮻ', ['Ꮻ']), ('ꮼ', ['Ꮼ']),
  ('ꮽ', ['Ꮽ']), ('ꮾ', ['Ꮾ']), ('ꮿ', ['Ꮿ']), ('ﬀ', ['F', 'F']), ('ﬁ', ['F', 'I']), ('ﬂ', ['F', 'L']),
  ('ﬃ', ['F', 'F', 'I']), ('ﬄ', ['F', 'F', 'L']), ('ﬅ', ['S', 'T']), ('ﬆ', ['S', 'T']), ('ﬓ', ['Մ', 'Ն']), ('ﬔ', ['Մ', 'Ե']),
  ('ﬕ', ['Մ', 'Ի']), ('ﬖ', ['Վ', 'Ն']), ('ﬗ', ['Մ', 'Խ']), ('ａ', ['Ａ']), ('ｂ', ['Ｂ']), ('ｃ', ['Ｃ']),
  ('ｄ', ['Ｄ']), ('ｅ', ['Ｅ']), ('ｆ', ['Ｆ']), ('ｇ', ['Ｇ']), ('ｈ', ['Ｈ']), ('ｉ', ['Ｉ']),
  ('ｊ', ['Ｊ']), ('ｋ', ['Ｋ']), ('ｌ', ['Ｌ']), ('ｍ', ['Ｍ']), ('ｎ', ['Ｎ']), ('ｏ', ['Ｏ']),
  ('ｐ', ['Ｐ']), ('ｑ', ['Ｑ']), ('ｒ', ['Ｒ']), ('ｓ', ['Ｓ']), ('ｔ', ['Ｔ']), ('ｕ', ['Ｕ']),
  ('ｖ', ['Ｖ']), ('ｗ', ['Ｗ']), ('ｘ', ['Ｘ']), ('ｙ', ['Ｙ']), ('ｚ', ['Ｚ']), ('𐐨', ['𐐀']),
  ('𐐩', ['𐐁']), ('𐐪', ['𐐂']), ('𐐫', ['𐐃']), ('𐐬', ['𐐄']), ('𐐭', ['𐐅']), ('𐐮', ['𐐆']),
  ('𐐯', ['𐐇']), ('𐐰', ['𐐈']), ('𐐱', ['𐐉']), ('𐐲', ['𐐊']), ('𐐳', ['𐐋']), ('𐐴', ['𐐌']),
  ('𐐵', ['𐐍']), ('𐐶', ['𐐎']), ('𐐷', ['𐐏']), ('𐐸', ['𐐐']), ('𐐹', ['𐐑']), ('𐐺', ['𐐒']),
  ('𐐻', ['𐐓']), ('𐐼', ['𐐔']), ('𐐽', ['𐐕']), ('𐐾', ['𐐖']), ('𐐿', ['𐐗']), ('𐑀', ['𐐘']),
  ('𐑁', ['𐐙']), ('𐑂', ['𐐚']), ('𐑃', ['𐐛']), ('𐑄', ['𐐜']), ('𐑅', ['𐐝']), ('𐑆', ['𐐞']),
  ('𐑇', ['𐐟']), ('𐑈', ['𐐠']), ('𐑉', ['𐐡']), ('𐑊', ['𐐢']), ('𐑋', ['𐐣']), ('𐑌', ['𐐤']),
  ('𐑍', ['𐐥']), ('𐑎', ['𐐦']), ('𐑏', ['𐐧']), ('𐓘', ['𐒰']), ('𐓙', ['𐒱']), ('𐓚', ['𐒲']),
  ('𐓛', ['𐒳']), ('𐓜', ['𐒴']), ('𐓝', ['𐒵']), ('𐓞', ['𐒶']), ('𐓟', ['𐒷']), ('𐓠', ['𐒸']),
  ('𐓡', ['𐒹']), ('𐓢', ['𐒺']), ('𐓣', ['𐒻']), ('𐓤', ['𐒼']), ('𐓥', ['𐒽']), ('𐓦', ['𐒾']),
  ('𐓧', ['𐒿']), ('𐓨', ['𐓀']), ('𐓩', ['𐓁']), ('𐓪', ['𐓂']), ('𐓫', ['𐓃']), ('𐓬', ['𐓄']),
  ('𐓭', ['𐓅']), ('𐓮', ['𐓆']), ('𐓯', ['𐓇']), ('𐓰', ['𐓈']), ('𐓱', ['𐓉']), ('𐓲', ['𐓊']),
  ('𐓳', ['𐓋']), ('𐓴', ['𐓌']), ('𐓵', ['𐓍']), ('𐓶', ['𐓎']), ('𐓷', ['𐓏']), ('𐓸', ['𐓐']),
  ('𐓹', ['𐓑']), ('𐓺', ['𐓒']), ('𐓻', ['𐓓']), ('𐖗', ['𐕰']), ('𐖘', ['𐕱']), ('𐖙', ['𐕲']),
  ('𐖚', ['𐕳']), ('𐖛', ['𐕴']), ('𐖜', ['𐕵']), ('𐖝', ['𐕶']), ('𐖞', ['𐕷']), ('𐖟', ['𐕸']),
  ('𐖠', ['𐕹']), ('𐖡', ['𐕺']), ('𐖣', ['𐕼']), ('𐖤', ['𐕽']), ('𐖥', ['𐕾']), ('𐖦', ['𐕿']),
  ('𐖧', ['𐖀']), ('𐖨', ['𐖁']), ('𐖩', ['𐖂']), ('𐖪', ['𐖃']), ('𐖫', ['𐖄']), ('𐖬', ['𐖅']),
  ('𐖭', ['𐖆']), ('𐖮', ['𐖇']), ('𐖯', ['𐖈']), ('𐖰', ['𐖉']), ('𐖱', ['𐖊']), ('𐖳', ['𐖌']),
  ('𐖴', ['𐖍']), ('𐖵', ['𐖎']), ('𐖶', ['𐖏']), ('𐖷', ['𐖐']), ('𐖸', ['𐖑']), ('𐖹', ['𐖒']),
  ('𐖻', ['𐖔']), ('𐖼', ['𐖕']), ('𐳀', ['𐲀']), ('𐳁', ['𐲁']), ('𐳂', ['𐲂']), ('𐳃', ['𐲃']),
  ('𐳄', ['𐲄']), ('𐳅', ['𐲅']), ('𐳆', ['𐲆']), ('𐳇', ['𐲇']), ('𐳈', ['𐲈']), ('𐳉', ['𐲉']),
  ('𐳊', ['𐲊']), ('𐳋', ['𐲋']), ('𐳌', ['𐲌']), ('𐳍', ['𐲍']), ('𐳎', ['𐲎']), ('𐳏', ['𐲏']),
  ('𐳐', ['𐲐']), ('𐳑', ['𐲑']), ('𐳒', ['𐲒']), ('𐳓', ['𐲓']), ('𐳔', ['𐲔']), ('𐳕', ['𐲕']),
  ('𐳖', ['𐲖']), ('𐳗', ['𐲗']), ('𐳘', ['𐲘']), ('𐳙', ['𐲙']), ('𐳚', ['𐲚']), ('𐳛', ['𐲛']),
  ('𐳜', ['𐲜']), ('𐳝', ['𐲝']), ('𐳞', ['𐲞']), ('𐳟', ['𐲟']), ('𐳠', ['𐲠']), ('𐳡', ['𐲡']),
  ('𐳢', ['𐲢']), ('𐳣', ['𐲣']), ('𐳤', ['𐲤']), ('𐳥', ['𐲥']), ('𐳦', ['𐲦']), ('𐳧', ['𐲧']),
  ('𐳨', ['𐲨']), ('𐳩', ['𐲩']), ('𐳪', ['𐲪']), ('𐳫', ['𐲫']), ('𐳬', ['𐲬']), ('𐳭', ['𐲭']),
  ('𐳮', ['𐲮']), ('𐳯', ['𐲯']), ('𐳰', ['𐲰']), ('𐳱', ['𐲱']), ('𐳲', ['𐲲']), ('𑣀', ['𑢠']),
  ('𑣁', ['𑢡']), ('𑣂', ['𑢢']), ('𑣃', ['𑢣']), ('𑣄', ['𑢤']), ('𑣅', ['𑢥']), ('𑣆', ['𑢦']),
  ('𑣇', ['𑢧']), ('𑣈', ['𑢨']), ('𑣉', ['𑢩']), ('𑣊', ['𑢪']), ('𑣋', ['𑢫']), ('𑣌', ['𑢬']),
  ('𑣍', ['𑢭']), ('𑣎', ['𑢮']), ('𑣏', ['𑢯']), ('𑣐', ['𑢰']), ('𑣑', ['𑢱']), ('𑣒', ['𑢲']),
  ('𑣓', ['𑢳']), ('𑣔', ['𑢴']), ('𑣕', ['𑢵']), ('𑣖', ['𑢶']), ('𑣗', ['𑢷']), ('𑣘', ['𑢸']),
  ('𑣙', ['𑢹']), ('𑣚', ['𑢺']), ('𑣛', ['𑢻']), ('𑣜', ['𑢼']), ('𑣝', ['𑢽']), ('𑣞', ['𑢾']),
  ('𑣟', ['𑢿']), ('𖹠', ['𖹀']), ('𖹡', ['𖹁']), ('𖹢', ['𖹂']), ('𖹣', ['𖹃']), ('𖹤', ['𖹄']),
  ('𖹥', ['𖹅']), ('𖹦', ['𖹆']), ('𖹧', ['𖹇']), ('𖹨', ['𖹈']), ('𖹩', ['𖹉']), ('𖹪', ['𖹊']),
  ('𖹫', ['𖹋']), ('𖹬', ['𖹌']), ('𖹭', ['𖹍']), ('𖹮', ['𖹎']), ('𖹯', ['𖹏']), ('𖹰', ['𖹐']),
  ('𖹱', ['𖹑']), ('𖹲', ['𖹒']), ('𖹳', ['𖹓']), ('𖹴', ['𖹔']), ('𖹵', ['𖹕']), ('𖹶', ['𖹖']),
  ('𖹷', ['𖹗']), ('𖹸', ['𖹘']), ('𖹹', ['𖹙']), ('𖹺', ['𖹚']), ('𖹻', ['𖹛']), ('𖹼', ['𖹜']),
  ('𖹽', ['𖹝']), ('𖹾', ['𖹞']), ('𖹿', ['𖹟']), ('𞤢', ['𞤀']), ('𞤣', ['𞤁']), ('𞤤', ['𞤂']),
  ('𞤥', ['𞤃']), ('𞤦', ['𞤄']), ('𞤧', ['𞤅']), ('𞤨', ['𞤆']), ('𞤩', ['𞤇']), ('𞤪', ['𞤈']),
  ('𞤫', ['𞤉']), ('𞤬', ['𞤊']), ('𞤭', ['𞤋']), ('𞤮', ['𞤌']), ('𞤯', ['𞤍']), ('𞤰', ['𞤎']),
  ('𞤱', ['𞤏']), ('𞤲', ['𞤐']), ('𞤳', ['𞤑']), ('𞤴', ['𞤒']), ('𞤵', ['𞤓']), ('𞤶', ['𞤔']),
  ('𞤷', ['𞤕']), ('𞤸', ['𞤖']), ('𞤹', ['𞤗']), ('𞤺', ['𞤘']), ('𞤻', ['𞤙']), ('𞤼', ['𞤚']),
  ('𞤽', ['𞤛']), ('𞤾', ['𞤜']), ('𞤿', ['𞤝']), ('𞥀', ['𞤞']), ('𞥁', ['𞤟']), ('𞥂', ['𞤠']),
  ('𞥃', ['𞤡'])]

/-- The same uppercase-mapping table as a balanced search tree; the
theorems `rustUpperMap_complete` and `rustUpperMap_size` check that it
holds exactly the entries of `rustUpperTable`. -/
def rustUpperMap : CharMap :=
  (CharMap.node (CharMap.node (CharMap.node (CharMap.node (CharMap.node (CharMap.node (CharMap.node
   (CharMap.node (CharMap.node (CharMap.node (CharMap.node CharMap.leaf 'a' ['A'] CharMap.leaf) 'b' ['B']
   CharMap.leaf) 'c' ['C'] (CharMap.node (CharMap.node CharMap.leaf 'd' ['D'] CharMap.leaf) 'e' ['E']
   CharMap.leaf)) 'f' ['F'] (CharMap.node (CharMap.node (CharMap.node CharMap.leaf 'g' ['G'] CharMap.leaf) 'h'
   ['H'] CharMap.leaf) 'i' ['I'] (CharMap.node (CharMap.node CharMap.leaf 'j' ['J'] CharMap.leaf) 'k' ['K']
   CharMap.leaf))) 'l' ['L'] (CharMap.node (CharMap.node (CharMap.node (CharMap.node CharMap.leaf 'm' ['M']
   CharMap.leaf) 'n' ['N'] CharMap.leaf) 'o' ['O'] (CharMap.node (CharMap.node CharMap.leaf 'p' ['P']
   CharMap.leaf) 'q' ['Q'] CharMap.leaf)) 'r' ['R'] (CharMap.node (CharMap.node (CharMap.node CharMap.leaf 's'
   ['S'] CharMap.leaf) 't' ['T'] CharMap.leaf) 'u' ['U'] (CharMap.node (CharMap.node CharMap.leaf 'v' ['V']
   CharMap.leaf) 'w' ['W'] CharMap.leaf)))) 'x' ['X'] (CharMap.node (CharMap.node (CharMap.node (CharMap.node
   (CharMap.node CharMap.leaf 'y' ['Y'] CharMap.leaf) 'z' ['Z'] CharMap.leaf) 'µ' ['Μ'] (CharMap.node
   (CharMap.node CharMap.leaf 'ß' ['S', 'S'] CharMap.leaf) 'à' ['À'] CharMap.leaf)) 'á' ['Á'] (CharMap.node
   (CharMap.node (CharMap.node CharMap.leaf 'â' ['Â'] CharMap.leaf) 'ã' ['Ã'] CharMap.leaf) 'ä' ['Ä']
   (CharMap.node (CharMap.node CharMap.leaf 'å' ['Å'] CharMap.leaf) 'æ' ['Æ'] CharMap.leaf))) 'ç' ['Ç']
   (CharMap.node (CharMap.node (CharMap.node (CharMap.node CharMap.leaf 'è' ['È'] CharMap.leaf) 'é' ['É']
   CharMap.leaf) 'ê' ['Ê'] (CharMap.node (CharMap.node CharMap.leaf 'ë' ['Ë'] CharMap.leaf) 'ì' ['Ì']
   CharMap.leaf)) 'í' ['Í'] (CharMap.node (CharMap.node (CharMap.node CharMap.leaf 'î' ['Î'] CharMap.leaf) 'ï'
   ['Ï'] CharMap.leaf) 'ð' ['Ð'] (CharMap.node (CharMap.node CharMap.leaf 'ñ' ['Ñ'] CharMap.leaf) 'ò' ['Ò']
   CharMap.leaf))))) 'ó' ['Ó'] (CharMap.node (CharMap.node (CharMap.node (CharMap.node (CharMap.node
   (CharMap.node CharMap.leaf 'ô' ['Ô'] CharMap.leaf) 'õ' ['Õ'] CharMap.leaf) 'ö' ['Ö'] (CharMap.node
   (CharMap.node CharMap.leaf 'ø' ['Ø'] CharMap.leaf) 'ù' ['Ù'] CharMap.leaf)) 'ú' ['Ú'] (CharMap.node
   (CharMap.node (CharMap.node CharMap.leaf 'û' ['Û'] CharMap.leaf) 'ü' ['Ü'] CharMap.leaf) 'ý' ['Ý']
   (CharMap.node (CharMap.node CharMap.leaf 'þ' ['Þ'] CharMap.leaf) 'ÿ' ['Ÿ'] CharMap.leaf))) 'ā' ['Ā']
   (CharMap.node (CharMap.node (CharMap.node (CharMap.node CharMap.leaf 'ă' ['Ă'] CharMap.leaf) 'ą' ['Ą']
   CharMap.leaf) 'ć' ['Ć'] (CharMap.node (CharMap.node CharMap.leaf 'ĉ' ['Ĉ'] CharMap.leaf) 'ċ' ['Ċ']
   CharMap.leaf)) 'č' ['Č'] (CharMap.node (CharMap.node (CharMap.node CharMap.leaf 'ď' ['Ď'] CharMap.leaf) 'đ'
   ['Đ'] CharMap.leaf) 'ē' ['Ē'] (CharMap.node (CharMap.node CharMap.leaf 'ĕ' ['Ĕ'] CharMap.leaf) 'ė' ['Ė']
   CharMap.leaf)))) 'ę' ['Ę'] (CharMap.node (CharMap.node (CharMap.node (CharMap.node (CharMap.node
   CharMap.leaf 'ě' ['Ě'] CharMap.leaf) 'ĝ' ['Ĝ'] CharMap.leaf) 'ğ' ['Ğ'] (CharMap.node (CharMap.node
   CharMap.leaf 'ġ' ['Ġ'] CharMap.leaf) 'ģ' ['Ģ'] CharMap.leaf)) 'ĥ' ['Ĥ'] (CharMap.node (CharMap.node
   (CharMap.node CharMap.leaf 'ħ' ['Ħ'] CharMap.leaf) 'ĩ' ['Ĩ'] CharMap.leaf) 'ī' ['Ī'] (CharMap.node
   (CharMap.node CharMap.leaf 'ĭ' ['Ĭ'] CharMap.leaf) 'į' ['Į'] CharMap.leaf))) 'ı' ['I'] (CharMap.node
   (CharMap.node (CharMap.node (CharMap.node CharMap.leaf 'ĳ' ['Ĳ'] CharMap.leaf) 'ĵ' ['Ĵ'] CharMap.leaf) 'ķ'
   ['Ķ'] (CharMap.node (CharMap.node CharMap.leaf 'ĺ' ['Ĺ'] CharMap.leaf) 'ļ' ['Ļ'] CharMap.leaf)) 'ľ' ['Ľ']
   (CharMap.node (CharMap.node (CharMap.node CharMap.leaf 'ŀ' ['Ŀ'] CharMap.leaf) 'ł' ['Ł'] CharMap.leaf) 'ń'
   ['Ń'] (CharMap.node (CharMap.node CharMap.leaf 'ņ' ['Ņ'] CharMap.leaf) 'ň' ['Ň'] CharMap.leaf)))))) 'ŉ'
   ['ʼ', 'N'] (CharMap.node (CharMap.node (CharMap.node (CharMap.node (CharMap.node (CharMap.node
   (CharMap.node CharMap.leaf 'ŋ' ['Ŋ'] CharMap.leaf) 'ō' ['Ō'] CharMap.leaf) 'ŏ' ['Ŏ'] (CharMap.node
   (CharMap.node CharMap.leaf 'ő' ['Ő'] CharMap.leaf) 'œ' ['Œ'] CharMap.leaf)) 'ŕ' ['Ŕ'] (CharMap.node
   (CharMap.node (CharMap.node CharMap.leaf 'ŗ' ['Ŗ'] CharMap.leaf) 'ř' ['Ř'] CharMap.leaf) 'ś' ['Ś']
   (CharMap.node (CharMap.node CharMap.leaf 'ŝ' ['Ŝ'] CharMap.leaf) 'ş' ['Ş'] CharMap.leaf))) 'š' ['Š']
   (CharMap.node (CharMap.node (CharMap.node (CharMap.node CharMap.leaf 'ţ' ['Ţ'] CharMap.leaf) 'ť' ['Ť']
   CharMap.leaf) 'ŧ' ['Ŧ'] (CharMap.node (CharMap.node CharMap.leaf 'ũ' ['Ũ'] CharMap.leaf) 'ū' ['Ū']
   CharMap.leaf)) 'ŭ' ['Ŭ'] (CharMap.node (CharMap.node (CharMap.node CharMap.leaf 'ů' ['Ů'] CharMap.leaf) 'ű'
   ['Ű'] CharMap.leaf) 'ų' ['Ų'] (CharMap.node (CharMap.node CharMap.leaf 'ŵ' ['Ŵ'] CharMap.leaf) 'ŷ' ['Ŷ']
   CharMap.leaf)))) 'ź' ['Ź'] (CharMap.node (CharMap.node (CharMap.node (CharMap.node (CharMap.node
   CharMap.leaf 'ż' ['Ż'] CharMap.leaf) 'ž' ['Ž'] CharMap.leaf) 'ſ' ['S'] (CharMap.node (CharMap.node
   CharMap.leaf 'ƀ' ['Ƀ'] CharMap.leaf) 'ƃ' ['Ƃ'] CharMap.leaf)) 'ƅ' ['Ƅ'] (CharMap.node (CharMap.node
   (CharMap.node CharMap.leaf 'ƈ' ['Ƈ'] CharMap.leaf) 'ƌ' ['Ƌ'] CharMap.leaf) 'ƒ' ['Ƒ'] (CharMap.node
   (CharMap.node CharMap.leaf 'ƕ' ['Ƕ'] CharMap.leaf) 'ƙ' ['Ƙ'] CharMap.leaf))) 'ƚ' ['Ƚ'] (CharMap.node
   (CharMap.node (CharMap.node (CharMap.node CharMap.leaf 'ƞ' ['Ƞ'] CharMap.leaf) 'ơ' ['Ơ'] CharMap.leaf) 'ƣ'
   ['Ƣ'] (CharMap.node (CharMap.node CharMap.leaf 'ƥ' ['Ƥ'] CharMap.leaf) 'ƨ' ['Ƨ'] CharMap.leaf)) 'ƭ' ['Ƭ']
   (CharMap.node (CharMap.node (CharMap.node CharMap.leaf 'ư' ['Ư'] CharMap.leaf) 'ƴ' ['Ƴ'] CharMap.leaf) 'ƶ'
   ['Ƶ'] (CharMap.node (CharMap.node CharMap.leaf 'ƹ' ['Ƹ'] CharMap.leaf) 'ƽ' ['Ƽ'] CharMap.leaf))))) 'ƿ'
   ['Ƿ'] (CharMap.node (CharMap.node (CharMap.node (CharMap.node (CharMap.node (CharMap.node CharMap.leaf 'ǅ'
   ['Ǆ'] CharMap.leaf) 'ǆ' ['Ǆ'] CharMap.leaf) 'ǈ' ['Ǉ'] (CharMap.node (CharMap.node CharMap.leaf 'ǉ' ['Ǉ']
   CharMap.leaf) 'ǋ' ['Ǌ'] CharMap.leaf)) 'ǌ' ['Ǌ'] (CharMap.node (CharMap.node (CharMap.node CharMap.leaf 'ǎ'
   ['Ǎ'] CharMap.leaf) 'ǐ' ['Ǐ'] CharMap.leaf) 'ǒ' ['Ǒ'] (CharMap.node (CharMap.node CharMap.leaf 'ǔ' ['Ǔ']
   CharMap.leaf) 'ǖ' ['Ǖ'] CharMap.leaf))) 'ǘ' ['Ǘ'] (CharMap.node (CharMap.node (CharMap.node (CharMap.node
   CharMap.leaf 'ǚ' ['Ǚ'] CharMap.leaf) 'ǜ' ['Ǜ'] CharMap.leaf) 'ǝ' ['Ǝ'] (CharMap.node (CharMap.node
   CharMap.leaf 'ǟ' ['Ǟ'] CharMap.leaf) 'ǡ' ['Ǡ'] CharMap.leaf)) 'ǣ' ['Ǣ'] (CharMap.node (CharMap.node
   (CharMap.node CharMap.leaf 'ǥ' ['Ǥ'] CharMap.leaf) 'ǧ' ['Ǧ'] CharMap.leaf) 'ǩ' ['Ǩ'] (CharMap.node
   (CharMap.node CharMap.leaf 'ǫ' ['Ǫ'] CharMap.leaf) 'ǭ' ['Ǭ'] CharMap.leaf)))) 'ǯ' ['Ǯ'] (CharMap.node
   (CharMap.node (CharMap.node (CharMap.node (CharMap.node CharMap.leaf 'ǰ' ['J', '̌'] CharMap.leaf) 'ǲ' ['Ǳ']
   CharMap.leaf) 'ǳ' ['Ǳ'] (CharMap.node (CharMap.node CharMap.leaf 'ǵ' ['Ǵ'] CharMap.leaf) 'ǹ' ['Ǹ']
   CharMap.leaf)) 'ǻ' ['Ǻ'] (CharMap.node (CharMap.node (CharMap.node CharMap.leaf 'ǽ' ['Ǽ'] CharMap.leaf) 'ǿ'
   ['Ǿ'] CharMap.leaf) 'ȁ' ['Ȁ'] (CharMap.node (CharMap.node CharMap.leaf 'ȃ' ['Ȃ'] CharMap.leaf) 'ȅ' ['Ȅ']
   CharMap.leaf))) 'ȇ' ['Ȇ'] (CharMap.node (CharMap.node (CharMap.node (CharMap.node CharMap.leaf 'ȉ' ['Ȉ']
   CharMap.leaf) 'ȋ' ['Ȋ'] CharMap.leaf) 'ȍ' ['Ȍ'] (CharMap.node (CharMap.node CharMap.leaf 'ȏ' ['Ȏ']
   CharMap.leaf) 'ȑ' ['Ȑ'] CharMap.leaf)) 'ȓ' ['Ȓ'] (CharMap.node (CharMap.node (CharMap.node CharMap.leaf 'ȕ'
   ['Ȕ'] CharMap.leaf) 'ȗ' ['Ȗ'] CharMap.leaf) 'ș' ['Ș'] (CharMap.node CharMap.leaf 'ț' ['Ț']
   CharMap.leaf))))))) 'ȝ' ['Ȝ'] (CharMap.node (CharMap.node (CharMap.node (CharMap.node (CharMap.node
   (CharMap.node (CharMap.node (CharMap.node CharMap.leaf 'ȟ' ['Ȟ'] CharMap.leaf) 'ȣ' ['Ȣ'] CharMap.leaf) 'ȥ'
   ['Ȥ'] (CharMap.node (CharMap.node CharMap.leaf 'ȧ' ['Ȧ'] CharMap.leaf) 'ȩ' ['Ȩ'] CharMap.leaf)) 'ȫ' ['Ȫ']
   (CharMap.node (CharMap.node (CharMap.node CharMap.leaf 'ȭ' ['Ȭ'] CharMap.leaf) 'ȯ' ['Ȯ'] CharMap.leaf) 'ȱ'
   ['Ȱ'] (CharMap.node (CharMap.node CharMap.leaf 'ȳ' ['Ȳ'] CharMap.leaf) 'ȼ' ['Ȼ'] CharMap.leaf))) 'ȿ' ['Ȿ']
   (CharMap.node (CharMap.node (CharMap.node (CharMap.node CharMap.leaf 'ɀ' ['Ɀ'] CharMap.leaf) 'ɂ' ['Ɂ']
   CharMap.leaf) 'ɇ' ['Ɇ'] (CharMap.node (CharMap.node CharMap.leaf 'ɉ' ['Ɉ'] CharMap.leaf) 'ɋ' ['Ɋ']
   CharMap.leaf)) 'ɍ' ['Ɍ'] (CharMap.node (CharMap.node (CharMap.node CharMap.leaf 'ɏ' ['Ɏ'] CharMap.leaf) 'ɐ'
   ['Ɐ'] CharMap.leaf) 'ɑ' ['Ɑ'] (CharMap.node (CharMap.node CharMap.leaf 'ɒ' ['Ɒ'] CharMap.leaf) 'ɓ' ['Ɓ']
   CharMap.leaf)))) 'ɔ' ['Ɔ'] (CharMap.node (CharMap.node (CharMap.node (CharMap.node (CharMap.node
   CharMap.leaf 'ɖ' ['Ɖ'] CharMap.leaf) 'ɗ' ['Ɗ'] CharMap.leaf) 'ə' ['Ə'] (CharMap.node (CharMap.node
   CharMap.leaf 'ɛ' ['Ɛ'] CharMap.leaf) 'ɜ' ['Ɜ'] CharMap.leaf)) 'ɠ' ['Ɠ'] (CharMap.node (CharMap.node
   (CharMap.node CharMap.leaf 'ɡ' ['Ɡ'] CharMap.leaf) 'ɣ' ['Ɣ'] CharMap.leaf) 'ɥ' ['Ɥ'] (CharMap.node
   (CharMap.node CharMap.leaf 'ɦ' ['Ɦ'] CharMap.leaf) 'ɨ' ['Ɨ'] CharMap.leaf))) 'ɩ' ['Ɩ'] (CharMap.node
   (CharMap.node (CharMap.node (CharMap.node CharMap.leaf 'ɪ' ['Ɪ'] CharMap.leaf) 'ɫ' ['Ɫ'] CharMap.leaf) 'ɬ'
   ['Ɬ'] (CharMap.node (CharMap.node CharMap.leaf 'ɯ' ['Ɯ'] CharMap.leaf) 'ɱ' ['Ɱ'] CharMap.leaf)) 'ɲ' ['Ɲ']
   (CharMap.node (CharMap.node (CharMap.node CharMap.leaf 'ɵ' ['Ɵ'] CharMap.leaf) 'ɽ' ['Ɽ'] CharMap.leaf) 'ʀ'
   ['Ʀ'] (CharMap.node (CharMap.node CharMap.leaf 'ʂ' ['Ʂ'] CharMap.leaf) 'ʃ' ['Ʃ'] CharMap.leaf))))) 'ʇ'
   ['Ʇ'] (CharMap.node (CharMap.node (CharMap.node (CharMap.node (CharMap.node (CharMap.node CharMap.leaf 'ʈ'
   ['Ʈ'] CharMap.leaf) 'ʉ' ['Ʉ'] CharMap.leaf) 'ʊ' ['Ʊ'] (CharMap.node (CharMap.node CharMap.leaf 'ʋ' ['Ʋ']
   CharMap.leaf) 'ʌ' ['Ʌ'] CharMap.leaf)) 'ʒ' ['Ʒ'] (CharMap.node (CharMap.node (CharMap.node CharMap.leaf 'ʝ'
   ['Ʝ'] CharMap.leaf) 'ʞ' ['Ʞ'] CharMap.leaf) 'ͅ' ['Ι'] (CharMap.node (CharMap.node CharMap.leaf 'ͱ' ['Ͱ']
   CharMap.leaf) 'ͳ' ['Ͳ'] CharMap.leaf))) 'ͷ' ['Ͷ'] (CharMap.node (CharMap.node (CharMap.node (CharMap.node
   CharMap.leaf 'ͻ' ['Ͻ'] CharMap.leaf) 'ͼ' ['Ͼ'] CharMap.leaf) 'ͽ' ['Ͽ'] (CharMap.node (CharMap.node
   CharMap.leaf 'ΐ' ['Ι', '̈', '́'] CharMap.leaf) 'ά' ['Ά'] CharMap.leaf)) 'έ' ['Έ'] (CharMap.node
   (CharMap.node (CharMap.node CharMap.leaf 'ή' ['Ή'] CharMap.leaf) 'ί' ['Ί'] CharMap.leaf) 'ΰ' ['Υ', '̈',
   '́'] (CharMap.node (CharMap.node CharMap.leaf 'α' ['Α'] CharMap.leaf) 'β' ['Β'] CharMap.leaf)))) 'γ' ['Γ']
   (CharMap.node (CharMap.node (CharMap.node (CharMap.node (CharMap.node CharMap.leaf 'δ' ['Δ'] CharMap.leaf)
   'ε' ['Ε'] CharMap.leaf) 'ζ' ['Ζ'] (CharMap.node (CharMap.node CharMap.leaf 'η' ['Η'] CharMap.leaf) 'θ'
   ['Θ'] CharMap.leaf)) 'ι' ['Ι'] (CharMap.node (CharMap.node (CharMap.node CharMap.leaf 'κ' ['Κ']
   CharMap.leaf) 'λ' ['Λ'] CharMap.leaf) 'μ' ['Μ'] (CharMap.node (CharMap.node CharMap.leaf 'ν' ['Ν']
   CharMap.leaf) 'ξ' ['Ξ'] CharMap.leaf))) 'ο' ['Ο'] (CharMap.node (CharMap.node (CharMap.node (CharMap.node
   CharMap.leaf 'π' ['Π'] CharMap.leaf) 'ρ' ['Ρ'] CharMap.leaf) 'ς' ['Σ'] (CharMap.node (CharMap.node
   CharMap.leaf 'σ' ['Σ'] CharMap.leaf) 'τ' ['Τ'] CharMap.leaf)) 'υ' ['Υ'] (CharMap.node (CharMap.node
   (CharMap.node CharMap.leaf 'φ' ['Φ'] CharMap.leaf) 'χ' ['Χ'] CharMap.leaf) 'ψ' ['Ψ'] (CharMap.node
   (CharMap.node CharMap.leaf 'ω' ['Ω'] CharMap.leaf) 'ϊ' ['Ϊ'] CharMap.leaf)))))) 'ϋ' ['Ϋ'] (CharMap.node
   (CharMap.node (CharMap.node (CharMap.node (CharMap.node (CharMap.node (CharMap.node CharMap.leaf 'ό' ['Ό']
   CharMap.leaf) 'ύ' ['Ύ'] CharMap.leaf) 'ώ' ['Ώ'] (CharMap.node (CharMap.node CharMap.leaf 'ϐ' ['Β']
   CharMap.leaf) 'ϑ' ['Θ'] CharMap.leaf)) 'ϕ' ['Φ'] (CharMap.node (CharMap.node (CharMap.node CharMap.leaf 'ϖ'
   ['Π'] CharMap.leaf) 'ϗ' ['Ϗ'] CharMap.leaf) 'ϙ' ['Ϙ'] (CharMap.node (CharMap.node CharMap.leaf 'ϛ' ['Ϛ']
   CharMap.leaf) 'ϝ' ['Ϝ'] CharMap.leaf))) 'ϟ' ['Ϟ'] (CharMap.node (CharMap.node (CharMap.node (CharMap.node
   CharMap.leaf 'ϡ' ['Ϡ'] CharMap.leaf) 'ϣ' ['Ϣ'] CharMap.leaf) 'ϥ' ['Ϥ'] (CharMap.node (CharMap.node
   CharMap.leaf 'ϧ' ['Ϧ'] CharMap.leaf) 'ϩ' ['Ϩ'] CharMap.leaf)) 'ϫ' ['Ϫ'] (CharMap.node (CharMap.node
   (CharMap.node CharMap.leaf 'ϭ' ['Ϭ'] CharMap.leaf) 'ϯ' ['Ϯ'] CharMap.leaf) 'ϰ' ['Κ'] (CharMap.node
   (CharMap.node CharMap.leaf 'ϱ' ['Ρ'] CharMap.leaf) 'ϲ' ['Ϲ'] CharMap.leaf)))) 'ϳ' ['Ϳ'] (CharMap.node
   (CharMap.node (CharMap.node (CharMap.node (CharMap.node CharMap.leaf 'ϵ' ['Ε'] CharMap.leaf) 'ϸ' ['Ϸ']
   CharMap.leaf) 'ϻ' ['Ϻ'] (CharMap.node (CharMap.node CharMap.leaf 'а' ['А'] CharMap.leaf) 'б' ['Б']
   CharMap.leaf)) 'в' ['В'] (CharMap.node (CharMap.node (CharMap.node CharMap.leaf 'г' ['Г'] CharMap.leaf) 'д'
   ['Д'] CharMap.leaf) 'е' ['Е'] (CharMap.node (CharMap.node CharMap.leaf 'ж' ['Ж'] CharMap.leaf) 'з' ['З']
   CharMap.leaf))) 'и' ['И'] (CharMap.node (CharMap.node (CharMap.node (CharMap.node CharMap.leaf 'й' ['Й']
   CharMap.leaf) 'к' ['К'] CharMap.leaf) 'л' ['Л'] (CharMap.node (CharMap.node CharMap.leaf 'м' ['М']
   CharMap.leaf) 'н' ['Н'] CharMap.leaf)) 'о' ['О'] (CharMap.node (CharMap.node (CharMap.node CharMap.leaf 'п'
   ['П'] CharMap.leaf) 'р' ['Р'] CharMap.leaf) 'с' ['С'] (CharMap.node (CharMap.node CharMap.leaf 'т' ['Т']
   CharMap.leaf) 'у' ['У'] CharMap.leaf))))) 'ф' ['Ф'] (CharMap.node (CharMap.node (CharMap.node (CharMap.node
   (CharMap.node (CharMap.node CharMap.leaf 'х' ['Х'] CharMap.leaf) 'ц' ['Ц'] CharMap.leaf) 'ч' ['Ч']
   (CharMap.node (CharMap.node CharMap.leaf 'ш' ['Ш'] CharMap.leaf) 'щ' ['Щ'] CharMap.leaf)) 'ъ' ['Ъ']
   (CharMap.node (CharMap.node (CharMap.node CharMap.leaf 'ы' ['Ы'] CharMap.leaf) 'ь' ['Ь'] CharMap.leaf) 'э'
   ['Э'] (CharMap.node (CharMap.node CharMap.leaf 'ю' ['Ю'] CharMap.leaf) 'я' ['Я'] CharMap.leaf))) 'ѐ' ['Ѐ']
   (CharMap.node (CharMap.node (CharMap.node (CharMap.node CharMap.leaf 'ё' ['Ё'] CharMap.leaf) 'ђ' ['Ђ']
   CharMap.leaf) 'ѓ' ['Ѓ'] (CharMap.node (CharMap.node CharMap.leaf 'є' ['Є'] CharMap.leaf) 'ѕ' ['Ѕ']
   CharMap.leaf)) 'і' ['І'] (CharMap.node (CharMap.node (CharMap.node CharMap.leaf 'ї' ['Ї'] CharMap.leaf) 'ј'
   ['Ј'] CharMap.leaf) 'љ' ['Љ'] (CharMap.node (CharMap.node CharMap.leaf 'њ' ['Њ'] CharMap.leaf) 'ћ' ['Ћ']
   CharMap.leaf)))) 'ќ' ['Ќ'] (CharMap.node (CharMap.node (CharMap.node (CharMap.node (CharMap.node
   CharMap.leaf 'ѝ' ['Ѝ'] CharMap.leaf) 'ў' ['Ў'] CharMap.leaf) 'џ' ['Џ'] (CharMap.node (CharMap.node
   CharMap.leaf 'ѡ' ['Ѡ'] CharMap.leaf) 'ѣ' ['Ѣ'] CharMap.leaf)) 'ѥ' ['Ѥ'] (CharMap.node (CharMap.node
   (CharMap.node CharMap.leaf 'ѧ' ['Ѧ'] CharMap.leaf) 'ѩ' ['Ѩ'] CharMap.leaf) 'ѫ' ['Ѫ'] (CharMap.node
   (CharMap.node CharMap.leaf 'ѭ' ['Ѭ'] CharMap.leaf) 'ѯ' ['Ѯ'] CharMap.leaf))) 'ѱ' ['Ѱ'] (CharMap.node
   (CharMap.node (CharMap.node (CharMap.node CharMap.leaf 'ѳ' ['Ѳ'] CharMap.leaf) 'ѵ' ['Ѵ'] CharMap.leaf) 'ѷ'
   ['Ѷ'] (CharMap.node (CharMap.node CharMap.leaf 'ѹ' ['Ѹ'] CharMap.leaf) 'ѻ' ['Ѻ'] CharMap.leaf)) 'ѽ' ['Ѽ']
   (CharMap.node (CharMap.node (CharMap.node CharMap.leaf 'ѿ' ['Ѿ'] CharMap.leaf) 'ҁ' ['Ҁ'] CharMap.leaf) 'ҋ'
   ['Ҋ'] (CharMap.node CharMap.leaf 'ҍ' ['Ҍ'] CharMap.leaf)))))))) 'ҏ' ['Ҏ'] (CharMap.node (CharMap.node
   (CharMap.node (CharMap.node (CharMap.node (CharMap.node (CharMap.node (CharMap.node (CharMap.node
   CharMap.leaf 'ґ' ['Ґ'] CharMap.leaf) 'ғ' ['Ғ'] CharMap.leaf) 'ҕ' ['Ҕ'] (CharMap.node (CharMap.node
   CharMap.leaf 'җ' ['Җ'] CharMap.leaf) 'ҙ' ['Ҙ'] CharMap.leaf)) 'қ' ['Қ'] (CharMap.node (CharMap.node
   (CharMap.node CharMap.leaf 'ҝ' ['Ҝ'] CharMap.leaf) 'ҟ' ['Ҟ'] CharMap.leaf) 'ҡ' ['Ҡ'] (CharMap.node
   (CharMap.node CharMap.leaf 'ң' ['Ң'] CharMap.leaf) 'ҥ' ['Ҥ'] CharMap.leaf))) 'ҧ' ['Ҧ'] (CharMap.node
   (CharMap.node (CharMap.node (CharMap.node CharMap.leaf 'ҩ' ['Ҩ'] CharMap.leaf) 'ҫ' ['Ҫ'] CharMap.leaf) 'ҭ'
   ['Ҭ'] (CharMap.node (CharMap.node CharMap.leaf 'ү' ['Ү'] CharMap.leaf) 'ұ' ['Ұ'] CharMap.leaf)) 'ҳ' ['Ҳ']
   (CharMap.node (CharMap.node (CharMap.node CharMap.leaf 'ҵ' ['Ҵ'] CharMap.leaf) 'ҷ' ['Ҷ'] CharMap.leaf) 'ҹ'
   ['Ҹ'] (CharMap.node (CharMap.node CharMap.leaf 'һ' ['Һ'] CharMap.leaf) 'ҽ' ['Ҽ'] CharMap.leaf)))) 'ҿ' ['Ҿ']
   (CharMap.node (CharMap.node (CharMap.node (CharMap.node (CharMap.node CharMap.leaf 'ӂ' ['Ӂ'] CharMap.leaf)
   'ӄ' ['Ӄ'] CharMap.leaf) 'ӆ' ['Ӆ'] (CharMap.node (CharMap.node CharMap.leaf 'ӈ' ['Ӈ'] CharMap.leaf) 'ӊ'
   ['Ӊ'] CharMap.leaf)) 'ӌ' ['Ӌ'] (CharMap.node (CharMap.node (CharMap.node CharMap.leaf 'ӎ' ['Ӎ']
   CharMap.leaf) 'ӏ' ['Ӏ'] CharMap.leaf) 'ӑ' ['Ӑ'] (CharMap.node (CharMap.node CharMap.leaf 'ӓ' ['Ӓ']
   CharMap.leaf) 'ӕ' ['Ӕ'] CharMap.leaf))) 'ӗ' ['Ӗ'] (CharMap.node (CharMap.node (CharMap.node (CharMap.node
   CharMap.leaf 'ә' ['Ә'] CharMap.leaf) 'ӛ' ['Ӛ'] CharMap.leaf) 'ӝ' ['Ӝ'] (CharMap.node (CharMap.node
   CharMap.leaf 'ӟ' ['Ӟ'] CharMap.leaf) 'ӡ' ['Ӡ'] CharMap.leaf)) 'ӣ' ['Ӣ'] (CharMap.node (CharMap.node
   (CharMap.node CharMap.leaf 'ӥ' ['Ӥ'] CharMap.leaf) 'ӧ' ['Ӧ'] CharMap.leaf) 'ө' ['Ө'] (CharMap.node
   (CharMap.node CharMap.leaf 'ӫ' ['Ӫ'] CharMap.leaf) 'ӭ' ['Ӭ'] CharMap.leaf))))) 'ӯ' ['Ӯ'] (CharMap.node
   (CharMap.node (CharMap.node (CharMap.node (CharMap.node (CharMap.node CharMap.leaf 'ӱ' ['Ӱ'] CharMap.leaf)
   'ӳ' ['Ӳ'] CharMap.leaf) 'ӵ' ['Ӵ'] (CharMap.node (CharMap.node CharMap.leaf 'ӷ' ['Ӷ'] CharMap.leaf) 'ӹ'
   ['Ӹ'] CharMap.leaf)) 'ӻ' ['Ӻ'] (CharMap.node (CharMap.node (CharMap.node CharMap.leaf 'ӽ' ['Ӽ']
   CharMap.leaf) 'ӿ' ['Ӿ'] CharMap.leaf) 'ԁ' ['Ԁ'] (CharMap.node (CharMap.node CharMap.leaf 'ԃ' ['Ԃ']
   CharMap.leaf) 'ԅ' ['Ԅ'] CharMap.leaf))) 'ԇ' ['Ԇ'] (CharMap.node (CharMap.node (CharMap.node (CharMap.node
   CharMap.leaf 'ԉ' ['Ԉ'] CharMap.leaf) 'ԋ' ['Ԋ'] CharMap.leaf) 'ԍ' ['Ԍ'] (CharMap.node (CharMap.node
   CharMap.leaf 'ԏ' ['Ԏ'] CharMap.leaf) 'ԑ' ['Ԑ'] CharMap.leaf)) 'ԓ' ['Ԓ'] (CharMap.node (CharMap.node
   (CharMap.node CharMap.leaf 'ԕ' ['Ԕ'] CharMap.leaf) 'ԗ' ['Ԗ'] CharMap.leaf) 'ԙ' ['Ԙ'] (CharMap.node
   (CharMap.node CharMap.leaf 'ԛ' ['Ԛ'] CharMap.leaf) 'ԝ' ['Ԝ'] CharMap.leaf)))) 'ԟ' ['Ԟ'] (CharMap.node
   (CharMap.node (CharMap.node (CharMap.node (CharMap.node CharMap.leaf 'ԡ' ['Ԡ'] CharMap.leaf) 'ԣ' ['Ԣ']
   CharMap.leaf) 'ԥ' ['Ԥ'] (CharMap.node (CharMap.node CharMap.leaf 'ԧ' ['Ԧ'] CharMap.leaf) 'ԩ' ['Ԩ']
   CharMap.leaf)) 'ԫ' ['Ԫ'] (CharMap.node (CharMap.node (CharMap.node CharMap.leaf 'ԭ' ['Ԭ'] CharMap.leaf) 'ԯ'
   ['Ԯ'] CharMap.leaf) 'ա' ['Ա'] (CharMap.node (CharMap.node CharMap.leaf 'բ' ['Բ'] CharMap.leaf) 'գ' ['Գ']
   CharMap.leaf))) 'դ' ['Դ'] (CharMap.node (CharMap.node (CharMap.node (CharMap.node CharMap.leaf 'ե' ['Ե']
   CharMap.leaf) 'զ' ['Զ'] CharMap.leaf) 'է' ['Է'] (CharMap.node (CharMap.node CharMap.leaf 'ը' ['Ը']
   CharMap.leaf) 'թ' ['Թ'] CharMap.leaf)) 'ժ' ['Ժ'] (CharMap.node (CharMap.node (CharMap.node CharMap.leaf 'ի'
   ['Ի'] CharMap.leaf) 'լ' ['Լ'] CharMap.leaf) 'խ' ['Խ'] (CharMap.node (CharMap.node CharMap.leaf 'ծ' ['Ծ']
   CharMap.leaf) 'կ' ['Կ'] CharMap.leaf)))))) 'հ' ['Հ'] (CharMap.node (CharMap.node (CharMap.node
   (CharMap.node (CharMap.node (CharMap.node (CharMap.node CharMap.leaf 'ձ' ['Ձ'] CharMap.leaf) 'ղ' ['Ղ']
   CharMap.leaf) 'ճ' ['Ճ'] (CharMap.node (CharMap.node CharMap.leaf 'մ' ['Մ'] CharMap.leaf) 'յ' ['Յ']
   CharMap.leaf)) 'ն' ['Ն'] (CharMap.node (CharMap.node (CharMap.node CharMap.leaf 'շ' ['Շ'] CharMap.leaf) 'ո'
   ['Ո'] CharMap.leaf) 'չ' ['Չ'] (CharMap.node (CharMap.node CharMap.leaf 'պ' ['Պ'] CharMap.leaf) 'ջ' ['Ջ']
   CharMap.leaf))) 'ռ' ['Ռ'] (CharMap.node (CharMap.node (CharMap.node (CharMap.node CharMap.leaf 'ս' ['Ս']
   CharMap.leaf) 'վ' ['Վ'] CharMap.leaf) 'տ' ['Տ'] (CharMap.node (CharMap.node CharMap.leaf 'ր' ['Ր']
   CharMap.leaf) 'ց' ['Ց'] CharMap.leaf)) 'ւ' ['Ւ'] (CharMap.node (CharMap.node (CharMap.node CharMap.leaf 'փ'
   ['Փ'] CharMap.leaf) 'ք' ['Ք'] CharMap.leaf) 'օ' ['Օ'] (CharMap.node (CharMap.node CharMap.leaf 'ֆ' ['Ֆ']
   CharMap.leaf) 'և' ['Ե', 'Ւ'] CharMap.leaf)))) 'ა' ['Ა'] (CharMap.node (CharMap.node (CharMap.node
   (CharMap.node (CharMap.node CharMap.leaf 'ბ' ['Ბ'] CharMap.leaf) 'გ' ['Გ'] CharMap.leaf) 'დ' ['Დ']
   (CharMap.node (CharMap.node CharMap.leaf 'ე' ['Ე'] CharMap.leaf) 'ვ' ['Ვ'] CharMap.leaf)) 'ზ' ['Ზ']
   (CharMap.node (CharMap.node (CharMap.node CharMap.leaf 'თ' ['Თ'] CharMap.leaf) 'ი' ['Ი'] CharMap.leaf) 'კ'
   ['Კ'] (CharMap.node (CharMap.node CharMap.leaf 'ლ' ['Ლ'] CharMap.leaf) 'მ' ['Მ'] CharMap.leaf))) 'ნ' ['Ნ']
   (CharMap.node (CharMap.node (CharMap.node (CharMap.node CharMap.leaf 'ო' ['Ო'] CharMap.leaf) 'პ' ['Პ']
   CharMap.leaf) 'ჟ' ['Ჟ'] (CharMap.node (CharMap.node CharMap.leaf 'რ' ['Რ'] CharMap.leaf) 'ს' ['Ს']
   CharMap.leaf)) 'ტ' ['Ტ'] (CharMap.node (CharMap.node (CharMap.node CharMap.leaf 'უ' ['Უ'] CharMap.leaf) 'ფ'
   ['Ფ'] CharMap.leaf) 'ქ' ['Ქ'] (CharMap.node (CharMap.node CharMap.leaf 'ღ' ['Ღ'] CharMap.leaf) 'ყ' ['Ყ']
   CharMap.leaf))))) 'შ' ['Შ'] (CharMap.node (CharMap.node (CharMap.node (CharMap.node (CharMap.node
   (CharMap.node CharMap.leaf 'ჩ' ['Ჩ'] CharMap.leaf) 'ც' ['Ც'] CharMap.leaf) 'ძ' ['Ძ'] (CharMap.node
   (CharMap.node CharMap.leaf 'წ' ['Წ'] CharMap.leaf) 'ჭ' ['Ჭ'] CharMap.leaf)) 'ხ' ['Ხ'] (CharMap.node
   (CharMap.node (CharMap.node CharMap.leaf 'ჯ' ['Ჯ'] CharMap.leaf) 'ჰ' ['Ჰ'] CharMap.leaf) 'ჱ' ['Ჱ']
   (CharMap.node (CharMap.node CharMap.leaf 'ჲ' ['Ჲ'] CharMap.leaf) 'ჳ' ['Ჳ'] CharMap.leaf))) 'ჴ' ['Ჴ']
   (CharMap.node (CharMap.node (CharMap.node (CharMap.node CharMap.leaf 'ჵ' ['Ჵ'] CharMap.leaf) 'ჶ' ['Ჶ']
   CharMap.leaf) 'ჷ' ['Ჷ'] (CharMap.node (CharMap.node CharMap.leaf 'ჸ' ['Ჸ'] CharMap.leaf) 'ჹ' ['Ჹ']
   CharMap.leaf)) 'ჺ' ['Ჺ'] (CharMap.node (CharMap.node (CharMap.node CharMap.leaf 'ჽ' ['Ჽ'] CharMap.leaf) 'ჾ'
   ['Ჾ'] CharMap.leaf) 'ჿ' ['Ჿ'] (CharMap.node (CharMap.node CharMap.leaf 'ᏸ' ['Ᏸ'] CharMap.leaf) 'ᏹ' ['Ᏹ']
   CharMap.leaf)))) 'ᏺ' ['Ᏺ'] (CharMap.node (CharMap.node (CharMap.node (CharMap.node (CharMap.node
   CharMap.leaf 'ᏻ' ['Ᏻ'] CharMap.leaf) 'ᏼ' ['Ᏼ'] CharMap.leaf) 'ᏽ' ['Ᏽ'] (CharMap.node (CharMap.node
   CharMap.leaf 'ᲀ' ['В'] CharMap.leaf) 'ᲁ' ['Д'] CharMap.leaf)) 'ᲂ' ['О'] (CharMap.node (CharMap.node
   (CharMap.node CharMap.leaf 'ᲃ' ['С'] CharMap.leaf) 'ᲄ' ['Т'] CharMap.leaf) 'ᲅ' ['Т'] (CharMap.node
   (CharMap.node CharMap.leaf 'ᲆ' ['Ъ'] CharMap.leaf) 'ᲇ' ['Ѣ'] CharMap.leaf))) 'ᲈ' ['Ꙋ'] (CharMap.node
   (CharMap.node (CharMap.node (CharMap.node CharMap.leaf 'ᵹ' ['Ᵹ'] CharMap.leaf) 'ᵽ' ['Ᵽ'] CharMap.leaf) 'ᶎ'
   ['Ᶎ'] (CharMap.node (CharMap.node CharMap.leaf 'ḁ' ['Ḁ'] CharMap.leaf) 'ḃ' ['Ḃ'] CharMap.leaf)) 'ḅ' ['Ḅ']
   (CharMap.node (CharMap.node (CharMap.node CharMap.leaf 'ḇ' ['Ḇ'] CharMap.leaf) 'ḉ' ['Ḉ'] CharMap.leaf) 'ḋ'
   ['Ḋ'] (CharMap.node CharMap.leaf 'ḍ' ['Ḍ'] CharMap.leaf))))))) 'ḏ' ['Ḏ'] (CharMap.node (CharMap.node
   (CharMap.node (CharMap.node (CharMap.node (CharMap.node (CharMap.node (CharMap.node CharMap.leaf 'ḑ' ['Ḑ']
   CharMap.leaf) 'ḓ' ['Ḓ'] CharMap.leaf) 'ḕ' ['Ḕ'] (CharMap.node (CharMap.node CharMap.leaf 'ḗ' ['Ḗ']
   CharMap.leaf) 'ḙ' ['Ḙ'] CharMap.leaf)) 'ḛ' ['Ḛ'] (CharMap.node (CharMap.node (CharMap.node CharMap.leaf 'ḝ'
   ['Ḝ'] CharMap.leaf) 'ḟ' ['Ḟ'] CharMap.leaf) 'ḡ' ['Ḡ'] (CharMap.node (CharMap.node CharMap.leaf 'ḣ' ['Ḣ']
   CharMap.leaf) 'ḥ' ['Ḥ'] CharMap.leaf))) 'ḧ' ['Ḧ'] (CharMap.node (CharMap.node (CharMap.node (CharMap.node
   CharMap.leaf 'ḩ' ['Ḩ'] CharMap.leaf) 'ḫ' ['Ḫ'] CharMap.leaf) 'ḭ' ['Ḭ'] (CharMap.node (CharMap.node
   CharMap.leaf 'ḯ' ['Ḯ'] CharMap.leaf) 'ḱ' ['Ḱ'] CharMap.leaf)) 'ḳ' ['Ḳ'] (CharMap.node (CharMap.node
   (CharMap.node CharMap.leaf 'ḵ' ['Ḵ'] CharMap.leaf) 'ḷ' ['Ḷ'] CharMap.leaf) 'ḹ' ['Ḹ'] (CharMap.node
   (CharMap.node CharMap.leaf 'ḻ' ['Ḻ'] CharMap.leaf) 'ḽ' ['Ḽ'] CharMap.leaf)))) 'ḿ' ['Ḿ'] (CharMap.node
   (CharMap.node (CharMap.node (CharMap.node (CharMap.node CharMap.leaf 'ṁ' ['Ṁ'] CharMap.leaf) 'ṃ' ['Ṃ']
   CharMap.leaf) 'ṅ' ['Ṅ'] (CharMap.node (CharMap.node CharMap.leaf 'ṇ' ['Ṇ'] CharMap.leaf) 'ṉ' ['Ṉ']
   CharMap.leaf)) 'ṋ' ['Ṋ'] (CharMap.node (CharMap.node (CharMap.node CharMap.leaf 'ṍ' ['Ṍ'] CharMap.leaf) 'ṏ'
   ['Ṏ'] CharMap.leaf) 'ṑ' ['Ṑ'] (CharMap.node (CharMap.node CharMap.leaf 'ṓ' ['Ṓ'] CharMap.leaf) 'ṕ' ['Ṕ']
   CharMap.leaf))) 'ṗ' ['Ṗ'] (CharMap.node (CharMap.node (CharMap.node (CharMap.node CharMap.leaf 'ṙ' ['Ṙ']
   CharMap.leaf) 'ṛ' ['Ṛ'] CharMap.leaf) 'ṝ' ['Ṝ'] (CharMap.node (CharMap.node CharMap.leaf 'ṟ' ['Ṟ']
   CharMap.leaf) 'ṡ' ['Ṡ'] CharMap.leaf)) 'ṣ' ['Ṣ'] (CharMap.node (CharMap.node (CharMap.node CharMap.leaf 'ṥ'
   ['Ṥ'] CharMap.leaf) 'ṧ' ['Ṧ'] CharMap.leaf) 'ṩ' ['Ṩ'] (CharMap.node (CharMap.node CharMap.leaf 'ṫ' ['Ṫ']
   CharMap.leaf) 'ṭ' ['Ṭ'] CharMap.leaf))))) 'ṯ' ['Ṯ'] (CharMap.node (CharMap.node (CharMap.node (CharMap.node
   (CharMap.node (CharMap.node CharMap.leaf 'ṱ' ['Ṱ'] CharMap.leaf) 'ṳ' ['Ṳ'] CharMap.leaf) 'ṵ' ['Ṵ']
   (CharMap.node (CharMap.node CharMap.leaf 'ṷ' ['Ṷ'] CharMap.leaf) 'ṹ' ['Ṹ'] CharMap.leaf)) 'ṻ' ['Ṻ']
   (CharMap.node (CharMap.node (CharMap.node CharMap.leaf 'ṽ' ['Ṽ'] CharMap.leaf) 'ṿ' ['Ṿ'] CharMap.leaf) 'ẁ'
   ['Ẁ'] (CharMap.node (CharMap.node CharMap.leaf 'ẃ' ['Ẃ'] CharMap.leaf) 'ẅ' ['Ẅ'] CharMap.leaf))) 'ẇ' ['Ẇ']
   (CharMap.node (CharMap.node (CharMap.node (CharMap.node CharMap.leaf 'ẉ' ['Ẉ'] CharMap.leaf) 'ẋ' ['Ẋ']
   CharMap.leaf) 'ẍ' ['Ẍ'] (CharMap.node (CharMap.node CharMap.leaf 'ẏ' ['Ẏ'] CharMap.leaf) 'ẑ' ['Ẑ']
   CharMap.leaf)) 'ẓ' ['Ẓ'] (CharMap.node (CharMap.node (CharMap.node CharMap.leaf 'ẕ' ['Ẕ'] CharMap.leaf) 'ẖ'
   ['H', '̱'] CharMap.leaf) 'ẗ' ['T', '̈'] (CharMap.node (CharMap.node CharMap.leaf 'ẘ' ['W', '̊']
   CharMap.leaf) 'ẙ' ['Y', '̊'] CharMap.leaf)))) 'ẚ' ['A', 'ʾ'] (CharMap.node (CharMap.node (CharMap.node
   (CharMap.node (CharMap.node CharMap.leaf 'ẛ' ['Ṡ'] CharMap.leaf) 'ạ' ['Ạ'] CharMap.leaf) 'ả' ['Ả']
   (CharMap.node (CharMap.node CharMap.leaf 'ấ' ['Ấ'] CharMap.leaf) 'ầ' ['Ầ'] CharMap.leaf)) 'ẩ' ['Ẩ']
   (CharMap.node (CharMap.node (CharMap.node CharMap.leaf 'ẫ' ['Ẫ'] CharMap.leaf) 'ậ' ['Ậ'] CharMap.leaf) 'ắ'
   ['Ắ'] (CharMap.node (CharMap.node CharMap.leaf 'ằ' ['Ằ'] CharMap.leaf) 'ẳ' ['Ẳ'] CharMap.leaf))) 'ẵ' ['Ẵ']
   (CharMap.node (CharMap.node (CharMap.node (CharMap.node CharMap.leaf 'ặ' ['Ặ'] CharMap.leaf) 'ẹ' ['Ẹ']
   CharMap.leaf) 'ẻ' ['Ẻ'] (CharMap.node (CharMap.node CharMap.leaf 'ẽ' ['Ẽ'] CharMap.leaf) 'ế' ['Ế']
   CharMap.leaf)) 'ề' ['Ề'] (CharMap.node (CharMap.node (CharMap.node CharMap.leaf 'ể' ['Ể'] CharMap.leaf) 'ễ'
   ['Ễ'] CharMap.leaf) 'ệ' ['Ệ'] (CharMap.node CharMap.leaf 'ỉ' ['Ỉ'] CharMap.leaf)))))) 'ị' ['Ị']
   (CharMap.node (CharMap.node (CharMap.node (CharMap.node (CharMap.node (CharMap.node (CharMap.node
   CharMap.leaf 'ọ' ['Ọ'] CharMap.leaf) 'ỏ' ['Ỏ'] CharMap.leaf) 'ố' ['Ố'] (CharMap.node (CharMap.node
   CharMap.leaf 'ồ' ['Ồ'] CharMap.leaf) 'ổ' ['Ổ'] CharMap.leaf)) 'ỗ' ['Ỗ'] (CharMap.node (CharMap.node
   (CharMap.node CharMap.leaf 'ộ' ['Ộ'] CharMap.leaf) 'ớ' ['Ớ'] CharMap.leaf) 'ờ' ['Ờ'] (CharMap.node
   (CharMap.node CharMap.leaf 'ở' ['Ở'] CharMap.leaf) 'ỡ' ['Ỡ'] CharMap.leaf))) 'ợ' ['Ợ'] (CharMap.node
   (CharMap.node (CharMap.node (CharMap.node CharMap.leaf 'ụ' ['Ụ'] CharMap.leaf) 'ủ' ['Ủ'] CharMap.leaf) 'ứ'
   ['Ứ'] (CharMap.node (CharMap.node CharMap.leaf 'ừ' ['Ừ'] CharMap.leaf) 'ử' ['Ử'] CharMap.leaf)) 'ữ' ['Ữ']
   (CharMap.node (CharMap.node (CharMap.node CharMap.leaf 'ự' ['Ự'] CharMap.leaf) 'ỳ' ['Ỳ'] CharMap.leaf) 'ỵ'
   ['Ỵ'] (CharMap.node (CharMap.node CharMap.leaf 'ỷ' ['Ỷ'] CharMap.leaf) 'ỹ' ['Ỹ'] CharMap.leaf)))) 'ỻ' ['Ỻ']
   (CharMap.node (CharMap.node (CharMap.node (CharMap.node (CharMap.node CharMap.leaf 'ỽ' ['Ỽ'] CharMap.leaf)
   'ỿ' ['Ỿ'] CharMap.leaf) 'ἀ' ['Ἀ'] (CharMap.node (CharMap.node CharMap.leaf 'ἁ' ['Ἁ'] CharMap.leaf) 'ἂ'
   ['Ἂ'] CharMap.leaf)) 'ἃ' ['Ἃ'] (CharMap.node (CharMap.node (CharMap.node CharMap.leaf 'ἄ' ['Ἄ']
   CharMap.leaf) 'ἅ' ['Ἅ'] CharMap.leaf) 'ἆ' ['Ἆ'] (CharMap.node (CharMap.node CharMap.leaf 'ἇ' ['Ἇ']
   CharMap.leaf) 'ἐ' ['Ἐ'] CharMap.leaf))) 'ἑ' ['Ἑ'] (CharMap.node (CharMap.node (CharMap.node (CharMap.node
   CharMap.leaf 'ἒ' ['Ἒ'] CharMap.leaf) 'ἓ' ['Ἓ'] CharMap.leaf) 'ἔ' ['Ἔ'] (CharMap.node (CharMap.node
   CharMap.leaf 'ἕ' ['Ἕ'] CharMap.leaf) 'ἠ' ['Ἠ'] CharMap.leaf)) 'ἡ' ['Ἡ'] (CharMap.node (CharMap.node
   (CharMap.node CharMap.leaf 'ἢ' ['Ἢ'] CharMap.leaf) 'ἣ' ['Ἣ'] CharMap.leaf) 'ἤ' ['Ἤ'] (CharMap.node
   (CharMap.node CharMap.leaf 'ἥ' ['Ἥ'] CharMap.leaf) 'ἦ' ['Ἦ'] CharMap.leaf))))) 'ἧ' ['Ἧ'] (CharMap.node
   (CharMap.node (CharMap.node (CharMap.node (CharMap.node (CharMap.node CharMap.leaf 'ἰ' ['Ἰ'] CharMap.leaf)
   'ἱ' ['Ἱ'] CharMap.leaf) 'ἲ' ['Ἲ'] (CharMap.node (CharMap.node CharMap.leaf 'ἳ' ['Ἳ'] CharMap.leaf) 'ἴ'
   ['Ἴ'] CharMap.leaf)) 'ἵ' ['Ἵ'] (CharMap.node (CharMap.node (CharMap.node CharMap.leaf 'ἶ' ['Ἶ']
   CharMap.leaf) 'ἷ' ['Ἷ'] CharMap.leaf) 'ὀ' ['Ὀ'] (CharMap.node (CharMap.node CharMap.leaf 'ὁ' ['Ὁ']
   CharMap.leaf) 'ὂ' ['Ὂ'] CharMap.leaf))) 'ὃ' ['Ὃ'] (CharMap.node (CharMap.node (CharMap.node (CharMap.node
   CharMap.leaf 'ὄ' ['Ὄ'] CharMap.leaf) 'ὅ' ['Ὅ'] CharMap.leaf) 'ὐ' ['Υ', '̓'] (CharMap.node (CharMap.node
   CharMap.leaf 'ὑ' ['Ὑ'] CharMap.leaf) 'ὒ' ['Υ', '̓', '̀'] CharMap.leaf)) 'ὓ' ['Ὓ'] (CharMap.node
   (CharMap.node (CharMap.node CharMap.leaf 'ὔ' ['Υ', '̓', '́'] CharMap.leaf) 'ὕ' ['Ὕ'] CharMap.leaf) 'ὖ'
   ['Υ', '̓', '͂'] (CharMap.node (CharMap.node CharMap.leaf 'ὗ' ['Ὗ'] CharMap.leaf) 'ὠ' ['Ὠ'] CharMap.leaf))))
   'ὡ' ['Ὡ'] (CharMap.node (CharMap.node (CharMap.node (CharMap.node (CharMap.node CharMap.leaf 'ὢ' ['Ὢ']
   CharMap.leaf) 'ὣ' ['Ὣ'] CharMap.leaf) 'ὤ' ['Ὤ'] (CharMap.node (CharMap.node CharMap.leaf 'ὥ' ['Ὥ']
   CharMap.leaf) 'ὦ' ['Ὦ'] CharMap.leaf)) 'ὧ' ['Ὧ'] (CharMap.node (CharMap.node (CharMap.node CharMap.leaf 'ὰ'
   ['Ὰ'] CharMap.leaf) 'ά' ['Ά'] CharMap.leaf) 'ὲ' ['Ὲ'] (CharMap.node (CharMap.node CharMap.leaf 'έ' ['Έ']
   CharMap.leaf) 'ὴ' ['Ὴ'] CharMap.leaf))) 'ή' ['Ή'] (CharMap.node (CharMap.node (CharMap.node (CharMap.node
   CharMap.leaf 'ὶ' ['Ὶ'] CharMap.leaf) 'ί' ['Ί'] CharMap.leaf) 'ὸ' ['Ὸ'] (CharMap.node (CharMap.node
   CharMap.leaf 'ό' ['Ό'] CharMap.leaf) 'ὺ' ['Ὺ'] CharMap.leaf)) 'ύ' ['Ύ'] (CharMap.node (CharMap.node
   (CharMap.node CharMap.leaf 'ὼ' ['Ὼ'] CharMap.leaf) 'ώ' ['Ώ'] CharMap.leaf) 'ᾀ' ['Ἀ', 'Ι'] (CharMap.node
   CharMap.leaf 'ᾁ' ['Ἁ', 'Ι'] CharMap.leaf))))))))) 'ᾂ' ['Ἂ', 'Ι'] (CharMap.node (CharMap.node (CharMap.node
   (CharMap.node (CharMap.node (CharMap.node (CharMap.node (CharMap.node (CharMap.node (CharMap.node
   CharMap.leaf 'ᾃ' ['Ἃ', 'Ι'] CharMap.leaf) 'ᾄ' ['Ἄ', 'Ι'] CharMap.leaf) 'ᾅ' ['Ἅ', 'Ι'] (CharMap.node
   (CharMap.node CharMap.leaf 'ᾆ' ['Ἆ', 'Ι'] CharMap.leaf) 'ᾇ' ['Ἇ', 'Ι'] CharMap.leaf)) 'ᾈ' ['Ἀ', 'Ι']
   (CharMap.node (CharMap.node (CharMap.node CharMap.leaf 'ᾉ' ['Ἁ', 'Ι'] CharMap.leaf) 'ᾊ' ['Ἂ', 'Ι']
   CharMap.leaf) 'ᾋ' ['Ἃ', 'Ι'] (CharMap.node (CharMap.node CharMap.leaf 'ᾌ' ['Ἄ', 'Ι'] CharMap.leaf) 'ᾍ'
   ['Ἅ', 'Ι'] CharMap.leaf))) 'ᾎ' ['Ἆ', 'Ι'] (CharMap.node (CharMap.node (CharMap.node (CharMap.node
   CharMap.leaf 'ᾏ' ['Ἇ', 'Ι'] CharMap.leaf) 'ᾐ' ['Ἠ', 'Ι'] CharMap.leaf) 'ᾑ' ['Ἡ', 'Ι'] (CharMap.node
   (CharMap.node CharMap.leaf 'ᾒ' ['Ἢ', 'Ι'] CharMap.leaf) 'ᾓ' ['Ἣ', 'Ι'] CharMap.leaf)) 'ᾔ' ['Ἤ', 'Ι']
   (CharMap.node (CharMap.node (CharMap.node CharMap.leaf 'ᾕ' ['Ἥ', 'Ι'] CharMap.leaf) 'ᾖ' ['Ἦ', 'Ι']
   CharMap.leaf) 'ᾗ' ['Ἧ', 'Ι'] (CharMap.node (CharMap.node CharMap.leaf 'ᾘ' ['Ἠ', 'Ι'] CharMap.leaf) 'ᾙ'
   ['Ἡ', 'Ι'] CharMap.leaf)))) 'ᾚ' ['Ἢ', 'Ι'] (CharMap.node (CharMap.node (CharMap.node (CharMap.node
   (CharMap.node CharMap.leaf 'ᾛ' ['Ἣ', 'Ι'] CharMap.leaf) 'ᾜ' ['Ἤ', 'Ι'] CharMap.leaf) 'ᾝ' ['Ἥ', 'Ι']
   (CharMap.node (CharMap.node CharMap.leaf 'ᾞ' ['Ἦ', 'Ι'] CharMap.leaf) 'ᾟ' ['Ἧ', 'Ι'] CharMap.leaf)) 'ᾠ'
   ['Ὠ', 'Ι'] (CharMap.node (CharMap.node (CharMap.node CharMap.leaf 'ᾡ' ['Ὡ', 'Ι'] CharMap.leaf) 'ᾢ' ['Ὢ',
   'Ι'] CharMap.leaf) 'ᾣ' ['Ὣ', 'Ι'] (CharMap.node (CharMap.node CharMap.leaf 'ᾤ' ['Ὤ', 'Ι'] CharMap.leaf) 'ᾥ'
   ['Ὥ', 'Ι'] CharMap.leaf))) 'ᾦ' ['Ὦ', 'Ι'] (CharMap.node (CharMap.node (CharMap.node (CharMap.node
   CharMap.leaf 'ᾧ' ['Ὧ', 'Ι'] CharMap.leaf) 'ᾨ' ['Ὠ', 'Ι'] CharMap.leaf) 'ᾩ' ['Ὡ', 'Ι'] (CharMap.node
   (CharMap.node CharMap.leaf 'ᾪ' ['Ὢ', 'Ι'] CharMap.leaf) 'ᾫ' ['Ὣ', 'Ι'] CharMap.leaf)) 'ᾬ' ['Ὤ', 'Ι']
   (CharMap.node (CharMap.node (CharMap.node CharMap.leaf 'ᾭ' ['Ὥ', 'Ι'] CharMap.leaf) 'ᾮ' ['Ὦ', 'Ι']
   CharMap.leaf) 'ᾯ' ['Ὧ', 'Ι'] (CharMap.node (CharMap.node CharMap.leaf 'ᾰ' ['Ᾰ'] CharMap.leaf) 'ᾱ' ['Ᾱ']
   CharMap.leaf))))) 'ᾲ' ['Ὰ', 'Ι'] (CharMap.node (CharMap.node (CharMap.node (CharMap.node (CharMap.node
   (CharMap.node CharMap.leaf 'ᾳ' ['Α', 'Ι'] CharMap.leaf) 'ᾴ' ['Ά', 'Ι'] CharMap.leaf) 'ᾶ' ['Α', '͂']
   (CharMap.node (CharMap.node CharMap.leaf 'ᾷ' ['Α', '͂', 'Ι'] CharMap.leaf) 'ᾼ' ['Α', 'Ι'] CharMap.leaf))
   'ι' ['Ι'] (CharMap.node (CharMap.node (CharMap.node CharMap.leaf 'ῂ' ['Ὴ', 'Ι'] CharMap.leaf) 'ῃ' ['Η',
   'Ι'] CharMap.leaf) 'ῄ' ['Ή', 'Ι'] (CharMap.node (CharMap.node CharMap.leaf 'ῆ' ['Η', '͂'] CharMap.leaf) 'ῇ'
   ['Η', '͂', 'Ι'] CharMap.leaf))) 'ῌ' ['Η', 'Ι'] (CharMap.node (CharMap.node (CharMap.node (CharMap.node
   CharMap.leaf 'ῐ' ['Ῐ'] CharMap.leaf) 'ῑ' ['Ῑ'] CharMap.leaf) 'ῒ' ['Ι', '̈', '̀'] (CharMap.node
   (CharMap.node CharMap.leaf 'ΐ' ['Ι', '̈', '́'] CharMap.leaf) 'ῖ' ['Ι', '͂'] CharMap.leaf)) 'ῗ' ['Ι', '̈',
   '͂'] (CharMap.node (CharMap.node (CharMap.node CharMap.leaf 'ῠ' ['Ῠ'] CharMap.leaf) 'ῡ' ['Ῡ'] CharMap.leaf)
   'ῢ' ['Υ', '̈', '̀'] (CharMap.node (CharMap.node CharMap.leaf 'ΰ' ['Υ', '̈', '́'] CharMap.leaf) 'ῤ' ['Ρ',
   '̓'] CharMap.leaf)))) 'ῥ' ['Ῥ'] (CharMap.node (CharMap.node (CharMap.node (CharMap.node (CharMap.node
   CharMap.leaf 'ῦ' ['Υ', '͂'] CharMap.leaf) 'ῧ' ['Υ', '̈', '͂'] CharMap.leaf) 'ῲ' ['Ὼ', 'Ι'] (CharMap.node
   (CharMap.node CharMap.leaf 'ῳ' ['Ω', 'Ι'] CharMap.leaf) 'ῴ' ['Ώ', 'Ι'] CharMap.leaf)) 'ῶ' ['Ω', '͂']
   (CharMap.node (CharMap.node (CharMap.node CharMap.leaf 'ῷ' ['Ω', '͂', 'Ι'] CharMap.leaf) 'ῼ' ['Ω', 'Ι']
   CharMap.leaf) 'ⅎ' ['Ⅎ'] (CharMap.node (CharMap.node CharMap.leaf 'ⅰ' ['Ⅰ'] CharMap.leaf) 'ⅱ' ['Ⅱ']
   CharMap.leaf))) 'ⅲ' ['Ⅲ'] (CharMap.node (CharMap.node (CharMap.node (CharMap.node CharMap.leaf 'ⅳ' ['Ⅳ']
   CharMap.leaf) 'ⅴ' ['Ⅴ'] CharMap.leaf) 'ⅵ' ['Ⅵ'] (CharMap.node (CharMap.node CharMap.leaf 'ⅶ' ['Ⅶ']
   CharMap.leaf) 'ⅷ' ['Ⅷ'] CharMap.leaf)) 'ⅸ' ['Ⅸ'] (CharMap.node (CharMap.node (CharMap.node CharMap.leaf 'ⅹ'
   ['Ⅹ'] CharMap.leaf) 'ⅺ' ['Ⅺ'] CharMap.leaf) 'ⅻ' ['Ⅻ'] (CharMap.node (CharMap.node CharMap.leaf 'ⅼ' ['Ⅼ']
   CharMap.leaf) 'ⅽ' ['Ⅽ'] CharMap.leaf)))))) 'ⅾ' ['Ⅾ'] (CharMap.node (CharMap.node (CharMap.node
   (CharMap.node (CharMap.node (CharMap.node (CharMap.node CharMap.leaf 'ⅿ' ['Ⅿ'] CharMap.leaf) 'ↄ' ['Ↄ']
   CharMap.leaf) 'ⓐ' ['Ⓐ'] (CharMap.node (CharMap.node CharMap.leaf 'ⓑ' ['Ⓑ'] CharMap.leaf) 'ⓒ' ['Ⓒ']
   CharMap.leaf)) 'ⓓ' ['Ⓓ'] (CharMap.node (CharMap.node (CharMap.node CharMap.leaf 'ⓔ' ['Ⓔ'] CharMap.leaf) 'ⓕ'
   ['Ⓕ'] CharMap.leaf) 'ⓖ' ['Ⓖ'] (CharMap.node (CharMap.node CharMap.leaf 'ⓗ' ['Ⓗ'] CharMap.leaf) 'ⓘ' ['Ⓘ']
   CharMap.leaf))) 'ⓙ' ['Ⓙ'] (CharMap.node (CharMap.node (CharMap.node (CharMap.node CharMap.leaf 'ⓚ' ['Ⓚ']
   CharMap.leaf) 'ⓛ' ['Ⓛ'] CharMap.leaf) 'ⓜ' ['Ⓜ'] (CharMap.node (CharMap.node CharMap.leaf 'ⓝ' ['Ⓝ']
   CharMap.leaf) 'ⓞ' ['Ⓞ'] CharMap.leaf)) 'ⓟ' ['Ⓟ'] (CharMap.node (CharMap.node (CharMap.node CharMap.leaf 'ⓠ'
   ['Ⓠ'] CharMap.leaf) 'ⓡ' ['Ⓡ'] CharMap.leaf) 'ⓢ' ['Ⓢ'] (CharMap.node (CharMap.node CharMap.leaf 'ⓣ' ['Ⓣ']
   CharMap.leaf) 'ⓤ' ['Ⓤ'] CharMap.leaf)))) 'ⓥ' ['Ⓥ'] (CharMap.node (CharMap.node (CharMap.node (CharMap.node
   (CharMap.node CharMap.leaf 'ⓦ' ['Ⓦ'] CharMap.leaf) 'ⓧ' ['Ⓧ'] CharMap.leaf) 'ⓨ' ['Ⓨ'] (CharMap.node
   (CharMap.node CharMap.leaf 'ⓩ' ['Ⓩ'] CharMap.leaf) 'ⰰ' ['Ⰰ'] CharMap.leaf)) 'ⰱ' ['Ⰱ'] (CharMap.node
   (CharMap.node (CharMap.node CharMap.leaf 'ⰲ' ['Ⰲ'] CharMap.leaf) 'ⰳ' ['Ⰳ'] CharMap.leaf) 'ⰴ' ['Ⰴ']
   (CharMap.node (CharMap.node CharMap.leaf 'ⰵ' ['Ⰵ'] CharMap.leaf) 'ⰶ' ['Ⰶ'] CharMap.leaf))) 'ⰷ' ['Ⰷ']
   (CharMap.node (CharMap.node (CharMap.node (CharMap.node CharMap.leaf 'ⰸ' ['Ⰸ'] CharMap.leaf) 'ⰹ' ['Ⰹ']
   CharMap.leaf) 'ⰺ' ['Ⰺ'] (CharMap.node (CharMap.node CharMap.leaf 'ⰻ' ['Ⰻ'] CharMap.leaf) 'ⰼ' ['Ⰼ']
   CharMap.leaf)) 'ⰽ' ['Ⰽ'] (CharMap.node (CharMap.node (CharMap.node CharMap.leaf 'ⰾ' ['Ⰾ'] CharMap.leaf) 'ⰿ'
   ['Ⰿ'] CharMap.leaf) 'ⱀ' ['Ⱀ'] (CharMap.node (CharMap.node CharMap.leaf 'ⱁ' ['Ⱁ'] CharMap.leaf) 'ⱂ' ['Ⱂ']
   CharMap.leaf))))) 'ⱃ' ['Ⱃ'] (CharMap.node (CharMap.node (CharMap.node (CharMap.node (CharMap.node
   (CharMap.node CharMap.leaf 'ⱄ' ['Ⱄ'] CharMap.leaf) 'ⱅ' ['Ⱅ'] CharMap.leaf) 'ⱆ' ['Ⱆ'] (CharMap.node
   (CharMap.node CharMap.leaf 'ⱇ' ['Ⱇ'] CharMap.leaf) 'ⱈ' ['Ⱈ'] CharMap.leaf)) 'ⱉ' ['Ⱉ'] (CharMap.node
   (CharMap.node (CharMap.node CharMap.leaf 'ⱊ' ['Ⱊ'] CharMap.leaf) 'ⱋ' ['Ⱋ'] CharMap.leaf) 'ⱌ' ['Ⱌ']
   (CharMap.node (CharMap.node CharMap.leaf 'ⱍ' ['Ⱍ'] CharMap.leaf) 'ⱎ' ['Ⱎ'] CharMap.leaf))) 'ⱏ' ['Ⱏ']
   (CharMap.node (CharMap.node (CharMap.node (CharMap.node CharMap.leaf 'ⱐ' ['Ⱐ'] CharMap.leaf) 'ⱑ' ['Ⱑ']
   CharMap.leaf) 'ⱒ' ['Ⱒ'] (CharMap.node (CharMap.node CharMap.leaf 'ⱓ' ['Ⱓ'] CharMap.leaf) 'ⱔ' ['Ⱔ']
   CharMap.leaf)) 'ⱕ' ['Ⱕ'] (CharMap.node (CharMap.node (CharMap.node CharMap.leaf 'ⱖ' ['Ⱖ'] CharMap.leaf) 'ⱗ'
   ['Ⱗ'] CharMap.leaf) 'ⱘ' ['Ⱘ'] (CharMap.node (CharMap.node CharMap.leaf 'ⱙ' ['Ⱙ'] CharMap.leaf) 'ⱚ' ['Ⱚ']
   CharMap.leaf)))) 'ⱛ' ['Ⱛ'] (CharMap.node (CharMap.node (CharMap.node (CharMap.node (CharMap.node
   CharMap.leaf 'ⱜ' ['Ⱜ'] CharMap.leaf) 'ⱝ' ['Ⱝ'] CharMap.leaf) 'ⱞ' ['Ⱞ'] (CharMap.node (CharMap.node
   CharMap.leaf 'ⱟ' ['Ⱟ'] CharMap.leaf) 'ⱡ' ['Ⱡ'] CharMap.leaf)) 'ⱥ' ['Ⱥ'] (CharMap.node (CharMap.node
   (CharMap.node CharMap.leaf 'ⱦ' ['Ⱦ'] CharMap.leaf) 'ⱨ' ['Ⱨ'] CharMap.leaf) 'ⱪ' ['Ⱪ'] (CharMap.node
   (CharMap.node CharMap.leaf 'ⱬ' ['Ⱬ'] CharMap.leaf) 'ⱳ' ['Ⱳ'] CharMap.leaf))) 'ⱶ' ['Ⱶ'] (CharMap.node
   (CharMap.node (CharMap.node (CharMap.node CharMap.leaf 'ⲁ' ['Ⲁ'] CharMap.leaf) 'ⲃ' ['Ⲃ'] CharMap.leaf) 'ⲅ'
   ['Ⲅ'] (CharMap.node (CharMap.node CharMap.leaf 'ⲇ' ['Ⲇ'] CharMap.leaf) 'ⲉ' ['Ⲉ'] CharMap.leaf)) 'ⲋ' ['Ⲋ']
   (CharMap.node (CharMap.node (CharMap.node CharMap.leaf 'ⲍ' ['Ⲍ'] CharMap.leaf) 'ⲏ' ['Ⲏ'] CharMap.leaf) 'ⲑ'
   ['Ⲑ'] (CharMap.node CharMap.leaf 'ⲓ' ['Ⲓ'] CharMap.leaf))))))) 'ⲕ' ['Ⲕ'] (CharMap.node (CharMap.node
   (CharMap.node (CharMap.node (CharMap.node (CharMap.node (CharMap.node (CharMap.node CharMap.leaf 'ⲗ' ['Ⲗ']
   CharMap.leaf) 'ⲙ' ['Ⲙ'] CharMap.leaf) 'ⲛ' ['Ⲛ'] (CharMap.node (CharMap.node CharMap.leaf 'ⲝ' ['Ⲝ']
   CharMap.leaf) 'ⲟ' ['Ⲟ'] CharMap.leaf)) 'ⲡ' ['Ⲡ'] (CharMap.node (CharMap.node (CharMap.node CharMap.leaf 'ⲣ'
   ['Ⲣ'] CharMap.leaf) 'ⲥ' ['Ⲥ'] CharMap.leaf) 'ⲧ' ['Ⲧ'] (CharMap.node (CharMap.node CharMap.leaf 'ⲩ' ['Ⲩ']
   CharMap.leaf) 'ⲫ' ['Ⲫ'] CharMap.leaf))) 'ⲭ' ['Ⲭ'] (CharMap.node (CharMap.node (CharMap.node (CharMap.node
   CharMap.leaf 'ⲯ' ['Ⲯ'] CharMap.leaf) 'ⲱ' ['Ⲱ'] CharMap.leaf) 'ⲳ' ['Ⲳ'] (CharMap.node (CharMap.node
   CharMap.leaf 'ⲵ' ['Ⲵ'] CharMap.leaf) 'ⲷ' ['Ⲷ'] CharMap.leaf)) 'ⲹ' ['Ⲹ'] (CharMap.node (CharMap.node
   (CharMap.node CharMap.leaf 'ⲻ' ['Ⲻ'] CharMap.leaf) 'ⲽ' ['Ⲽ'] CharMap.leaf) 'ⲿ' ['Ⲿ'] (CharMap.node
   (CharMap.node CharMap.leaf 'ⳁ' ['Ⳁ'] CharMap.leaf) 'ⳃ' ['Ⳃ'] CharMap.leaf)))) 'ⳅ' ['Ⳅ'] (CharMap.node
   (CharMap.node (CharMap.node (CharMap.node (CharMap.node CharMap.leaf 'ⳇ' ['Ⳇ'] CharMap.leaf) 'ⳉ' ['Ⳉ']
   CharMap.leaf) 'ⳋ' ['Ⳋ'] (CharMap.node (CharMap.node CharMap.leaf 'ⳍ' ['Ⳍ'] CharMap.leaf) 'ⳏ' ['Ⳏ']
   CharMap.leaf)) 'ⳑ' ['Ⳑ'] (CharMap.node (CharMap.node (CharMap.node CharMap.leaf 'ⳓ' ['Ⳓ'] CharMap.leaf) 'ⳕ'
   ['Ⳕ'] CharMap.leaf) 'ⳗ' ['Ⳗ'] (CharMap.node (CharMap.node CharMap.leaf 'ⳙ' ['Ⳙ'] CharMap.leaf) 'ⳛ' ['Ⳛ']
   CharMap.leaf))) 'ⳝ' ['Ⳝ'] (CharMap.node (CharMap.node (CharMap.node (CharMap.node CharMap.leaf 'ⳟ' ['Ⳟ']
   CharMap.leaf) 'ⳡ' ['Ⳡ'] CharMap.leaf) 'ⳣ' ['Ⳣ'] (CharMap.node (CharMap.node CharMap.leaf 'ⳬ' ['Ⳬ']
   CharMap.leaf) 'ⳮ' ['Ⳮ'] CharMap.leaf)) 'ⳳ' ['Ⳳ'] (CharMap.node (CharMap.node (CharMap.node CharMap.leaf 'ⴀ'
   ['Ⴀ'] CharMap.leaf) 'ⴁ' ['Ⴁ'] CharMap.leaf) 'ⴂ' ['Ⴂ'] (CharMap.node (CharMap.node CharMap.leaf 'ⴃ' ['Ⴃ']
   CharMap.leaf) 'ⴄ' ['Ⴄ'] CharMap.leaf))))) 'ⴅ' ['Ⴅ'] (CharMap.node (CharMap.node (CharMap.node (CharMap.node
   (CharMap.node (CharMap.node CharMap.leaf 'ⴆ' ['Ⴆ'] CharMap.leaf) 'ⴇ' ['Ⴇ'] CharMap.leaf) 'ⴈ' ['Ⴈ']
   (CharMap.node (CharMap.node CharMap.leaf 'ⴉ' ['Ⴉ'] CharMap.leaf) 'ⴊ' ['Ⴊ'] CharMap.leaf)) 'ⴋ' ['Ⴋ']
   (CharMap.node (CharMap.node (CharMap.node CharMap.leaf 'ⴌ' ['Ⴌ'] CharMap.leaf) 'ⴍ' ['Ⴍ'] CharMap.leaf) 'ⴎ'
   ['Ⴎ'] (CharMap.node (CharMap.node CharMap.leaf 'ⴏ' ['Ⴏ'] CharMap.leaf) 'ⴐ' ['Ⴐ'] CharMap.leaf))) 'ⴑ' ['Ⴑ']
   (CharMap.node (CharMap.node (CharMap.node (CharMap.node CharMap.leaf 'ⴒ' ['Ⴒ'] CharMap.leaf) 'ⴓ' ['Ⴓ']
   CharMap.leaf) 'ⴔ' ['Ⴔ'] (CharMap.node (CharMap.node CharMap.leaf 'ⴕ' ['Ⴕ'] CharMap.leaf) 'ⴖ' ['Ⴖ']
   CharMap.leaf)) 'ⴗ' ['Ⴗ'] (CharMap.node (CharMap.node (CharMap.node CharMap.leaf 'ⴘ' ['Ⴘ'] CharMap.leaf) 'ⴙ'
   ['Ⴙ'] CharMap.leaf) 'ⴚ' ['Ⴚ'] (CharMap.node (CharMap.node CharMap.leaf 'ⴛ' ['Ⴛ'] CharMap.leaf) 'ⴜ' ['Ⴜ']
   CharMap.leaf)))) 'ⴝ' ['Ⴝ'] (CharMap.node (CharMap.node (CharMap.node (CharMap.node (CharMap.node
   CharMap.leaf 'ⴞ' ['Ⴞ'] CharMap.leaf) 'ⴟ' ['Ⴟ'] CharMap.leaf) 'ⴠ' ['Ⴠ'] (CharMap.node (CharMap.node
   CharMap.leaf 'ⴡ' ['Ⴡ'] CharMap.leaf) 'ⴢ' ['Ⴢ'] CharMap.leaf)) 'ⴣ' ['Ⴣ'] (CharMap.node (CharMap.node
   (CharMap.node CharMap.leaf 'ⴤ' ['Ⴤ'] CharMap.leaf) 'ⴥ' ['Ⴥ'] CharMap.leaf) 'ⴧ' ['Ⴧ'] (CharMap.node
   (CharMap.node CharMap.leaf 'ⴭ' ['Ⴭ'] CharMap.leaf) 'ꙁ' ['Ꙁ'] CharMap.leaf))) 'ꙃ' ['Ꙃ'] (CharMap.node
   (CharMap.node (CharMap.node (CharMap.node CharMap.leaf 'ꙅ' ['Ꙅ'] CharMap.leaf) 'ꙇ' ['Ꙇ'] CharMap.leaf) 'ꙉ'
   ['Ꙉ'] (CharMap.node (CharMap.node CharMap.leaf 'ꙋ' ['Ꙋ'] CharMap.leaf) 'ꙍ' ['Ꙍ'] CharMap.leaf)) 'ꙏ' ['Ꙏ']
   (CharMap.node (CharMap.node (CharMap.node CharMap.leaf 'ꙑ' ['Ꙑ'] CharMap.leaf) 'ꙓ' ['Ꙓ'] CharMap.leaf) 'ꙕ'
   ['Ꙕ'] (CharMap.node (CharMap.node CharMap.leaf 'ꙗ' ['Ꙗ'] CharMap.leaf) 'ꙙ' ['Ꙙ'] CharMap.leaf)))))) 'ꙛ'
   ['Ꙛ'] (CharMap.node (CharMap.node (CharMap.node (CharMap.node (CharMap.node (CharMap.node (CharMap.node
   CharMap.leaf 'ꙝ' ['Ꙝ'] CharMap.leaf) 'ꙟ' ['Ꙟ'] CharMap.leaf) 'ꙡ' ['Ꙡ'] (CharMap.node (CharMap.node
   CharMap.leaf 'ꙣ' ['Ꙣ'] CharMap.leaf) 'ꙥ' ['Ꙥ'] CharMap.leaf)) 'ꙧ' ['Ꙧ'] (CharMap.node (CharMap.node
   (CharMap.node CharMap.leaf 'ꙩ' ['Ꙩ'] CharMap.leaf) 'ꙫ' ['Ꙫ'] CharMap.leaf) 'ꙭ' ['Ꙭ'] (CharMap.node
   (CharMap.node CharMap.leaf 'ꚁ' ['Ꚁ'] CharMap.leaf) 'ꚃ' ['Ꚃ'] CharMap.leaf))) 'ꚅ' ['Ꚅ'] (CharMap.node
   (CharMap.node (CharMap.node (CharMap.node CharMap.leaf 'ꚇ' ['Ꚇ'] CharMap.leaf) 'ꚉ' ['Ꚉ'] CharMap.leaf) 'ꚋ'
   ['Ꚋ'] (CharMap.node (CharMap.node CharMap.leaf 'ꚍ' ['Ꚍ'] CharMap.leaf) 'ꚏ' ['Ꚏ'] CharMap.leaf)) 'ꚑ' ['Ꚑ']
   (CharMap.node (CharMap.node (CharMap.node CharMap.leaf 'ꚓ' ['Ꚓ'] CharMap.leaf) 'ꚕ' ['Ꚕ'] CharMap.leaf) 'ꚗ'
   ['Ꚗ'] (CharMap.node (CharMap.node CharMap.leaf 'ꚙ' ['Ꚙ'] CharMap.leaf) 'ꚛ' ['Ꚛ'] CharMap.leaf)))) 'ꜣ' ['Ꜣ']
   (CharMap.node (CharMap.node (CharMap.node (CharMap.node (CharMap.node CharMap.leaf 'ꜥ' ['Ꜥ'] CharMap.leaf)
   'ꜧ' ['Ꜧ'] CharMap.leaf) 'ꜩ' ['Ꜩ'] (CharMap.node (CharMap.node CharMap.leaf 'ꜫ' ['Ꜫ'] CharMap.leaf) 'ꜭ'
   ['Ꜭ'] CharMap.leaf)) 'ꜯ' ['Ꜯ'] (CharMap.node (CharMap.node (CharMap.node CharMap.leaf 'ꜳ' ['Ꜳ']
   CharMap.leaf) 'ꜵ' ['Ꜵ'] CharMap.leaf) 'ꜷ' ['Ꜷ'] (CharMap.node (CharMap.node CharMap.leaf 'ꜹ' ['Ꜹ']
   CharMap.leaf) 'ꜻ' ['Ꜻ'] CharMap.leaf))) 'ꜽ' ['Ꜽ'] (CharMap.node (CharMap.node (CharMap.node (CharMap.node
   CharMap.leaf 'ꜿ' ['Ꜿ'] CharMap.leaf) 'ꝁ' ['Ꝁ'] CharMap.leaf) 'ꝃ' ['Ꝃ'] (CharMap.node (CharMap.node
   CharMap.leaf 'ꝅ' ['Ꝅ'] CharMap.leaf) 'ꝇ' ['Ꝇ'] CharMap.leaf)) 'ꝉ' ['Ꝉ'] (CharMap.node (CharMap.node
   (CharMap.node CharMap.leaf 'ꝋ' ['Ꝋ'] CharMap.leaf) 'ꝍ' ['Ꝍ'] CharMap.leaf) 'ꝏ' ['Ꝏ'] (CharMap.node
   (CharMap.node CharMap.leaf 'ꝑ' ['Ꝑ'] CharMap.leaf) 'ꝓ' ['Ꝓ'] CharMap.leaf))))) 'ꝕ' ['Ꝕ'] (CharMap.node
   (CharMap.node (CharMap.node (CharMap.node (CharMap.node (CharMap.node CharMap.leaf 'ꝗ' ['Ꝗ'] CharMap.leaf)
   'ꝙ' ['Ꝙ'] CharMap.leaf) 'ꝛ' ['Ꝛ'] (CharMap.node (CharMap.node CharMap.leaf 'ꝝ' ['Ꝝ'] CharMap.leaf) 'ꝟ'
   ['Ꝟ'] CharMap.leaf)) 'ꝡ' ['Ꝡ'] (CharMap.node (CharMap.node (CharMap.node CharMap.leaf 'ꝣ' ['Ꝣ']
   CharMap.leaf) 'ꝥ' ['Ꝥ'] CharMap.leaf) 'ꝧ' ['Ꝧ'] (CharMap.node (CharMap.node CharMap.leaf 'ꝩ' ['Ꝩ']
   CharMap.leaf) 'ꝫ' ['Ꝫ'] CharMap.leaf))) 'ꝭ' ['Ꝭ'] (CharMap.node (CharMap.node (CharMap.node (CharMap.node
   CharMap.leaf 'ꝯ' ['Ꝯ'] CharMap.leaf) 'ꝺ' ['Ꝺ'] CharMap.leaf) 'ꝼ' ['Ꝼ'] (CharMap.node (CharMap.node
   CharMap.leaf 'ꝿ' ['Ꝿ'] CharMap.leaf) 'ꞁ' ['Ꞁ'] CharMap.leaf)) 'ꞃ' ['Ꞃ'] (CharMap.node (CharMap.node
   (CharMap.node CharMap.leaf 'ꞅ' ['Ꞅ'] CharMap.leaf) 'ꞇ' ['Ꞇ'] CharMap.leaf) 'ꞌ' ['Ꞌ'] (CharMap.node
   (CharMap.node CharMap.leaf 'ꞑ' ['Ꞑ'] CharMap.leaf) 'ꞓ' ['Ꞓ'] CharMap.leaf)))) 'ꞔ' ['Ꞔ'] (CharMap.node
   (CharMap.node (CharMap.node (CharMap.node (CharMap.node CharMap.leaf 'ꞗ' ['Ꞗ'] CharMap.leaf) 'ꞙ' ['Ꞙ']
   CharMap.leaf) 'ꞛ' ['Ꞛ'] (CharMap.node (CharMap.node CharMap.leaf 'ꞝ' ['Ꞝ'] CharMap.leaf) 'ꞟ' ['Ꞟ']
   CharMap.leaf)) 'ꞡ' ['Ꞡ'] (CharMap.node (CharMap.node (CharMap.node CharMap.leaf 'ꞣ' ['Ꞣ'] CharMap.leaf) 'ꞥ'
   ['Ꞥ'] CharMap.leaf) 'ꞧ' ['Ꞧ'] (CharMap.node (CharMap.node CharMap.leaf 'ꞩ' ['Ꞩ'] CharMap.leaf) 'ꞵ' ['Ꞵ']
   CharMap.leaf))) 'ꞷ' ['Ꞷ'] (CharMap.node (CharMap.node (CharMap.node (CharMap.node CharMap.leaf 'ꞹ' ['Ꞹ']
   CharMap.leaf) 'ꞻ' ['Ꞻ'] CharMap.leaf) 'ꞽ' ['Ꞽ'] (CharMap.node (CharMap.node CharMap.leaf 'ꞿ' ['Ꞿ']
   CharMap.leaf) 'ꟁ' ['Ꟁ'] CharMap.leaf)) 'ꟃ' ['Ꟃ'] (CharMap.node (CharMap.node (CharMap.node CharMap.leaf 'ꟈ'
   ['Ꟈ'] CharMap.leaf) 'ꟊ' ['Ꟊ'] CharMap.leaf) 'ꟑ' ['Ꟑ'] (CharMap.node CharMap.leaf 'ꟗ' ['Ꟗ']
   CharMap.leaf)))))))) 'ꟙ' ['Ꟙ'] (CharMap.node (CharMap.node (CharMap.node (CharMap.node (CharMap.node
   (CharMap.node (CharMap.node (CharMap.node (CharMap.node CharMap.leaf 'ꟶ' ['Ꟶ'] CharMap.leaf) 'ꭓ' ['Ꭓ']
   CharMap.leaf) 'ꭰ' ['Ꭰ'] (CharMap.node (CharMap.node CharMap.leaf 'ꭱ' ['Ꭱ'] CharMap.leaf) 'ꭲ' ['Ꭲ']
   CharMap.leaf)) 'ꭳ' ['Ꭳ'] (CharMap.node (CharMap.node (CharMap.node CharMap.leaf 'ꭴ' ['Ꭴ'] CharMap.leaf) 'ꭵ'
   ['Ꭵ'] CharMap.leaf) 'ꭶ' ['Ꭶ'] (CharMap.node (CharMap.node CharMap.leaf 'ꭷ' ['Ꭷ'] CharMap.leaf) 'ꭸ' ['Ꭸ']
   CharMap.leaf))) 'ꭹ' ['Ꭹ'] (CharMap.node (CharMap.node (CharMap.node (CharMap.node CharMap.leaf 'ꭺ' ['Ꭺ']
   CharMap.leaf) 'ꭻ' ['Ꭻ'] CharMap.leaf) 'ꭼ' ['Ꭼ'] (CharMap.node (CharMap.node CharMap.leaf 'ꭽ' ['Ꭽ']
   CharMap.leaf) 'ꭾ' ['Ꭾ'] CharMap.leaf)) 'ꭿ' ['Ꭿ'] (CharMap.node (CharMap.node (CharMap.node CharMap.leaf 'ꮀ'
   ['Ꮀ'] CharMap.leaf) 'ꮁ' ['Ꮁ'] CharMap.leaf) 'ꮂ' ['Ꮂ'] (CharMap.node (CharMap.node CharMap.leaf 'ꮃ' ['Ꮃ']
   CharMap.leaf) 'ꮄ' ['Ꮄ'] CharMap.leaf)))) 'ꮅ' ['Ꮅ'] (CharMap.node (CharMap.node (CharMap.node (CharMap.node
   (CharMap.node CharMap.leaf 'ꮆ' ['Ꮆ'] CharMap.leaf) 'ꮇ' ['Ꮇ'] CharMap.leaf) 'ꮈ' ['Ꮈ'] (CharMap.node
   (CharMap.node CharMap.leaf 'ꮉ' ['Ꮉ'] CharMap.leaf) 'ꮊ' ['Ꮊ'] CharMap.leaf)) 'ꮋ' ['Ꮋ'] (CharMap.node
   (CharMap.node (CharMap.node CharMap.leaf 'ꮌ' ['Ꮌ'] CharMap.leaf) 'ꮍ' ['Ꮍ'] CharMap.leaf) 'ꮎ' ['Ꮎ']
   (CharMap.node (CharMap.node CharMap.leaf 'ꮏ' ['Ꮏ'] CharMap.leaf) 'ꮐ' ['Ꮐ'] CharMap.leaf))) 'ꮑ' ['Ꮑ']
   (CharMap.node (CharMap.node (CharMap.node (CharMap.node CharMap.leaf 'ꮒ' ['Ꮒ'] CharMap.leaf) 'ꮓ' ['Ꮓ']
   CharMap.leaf) 'ꮔ' ['Ꮔ'] (CharMap.node (CharMap.node CharMap.leaf 'ꮕ' ['Ꮕ'] CharMap.leaf) 'ꮖ' ['Ꮖ']
   CharMap.leaf)) 'ꮗ' ['Ꮗ'] (CharMap.node (CharMap.node (CharMap.node CharMap.leaf 'ꮘ' ['Ꮘ'] CharMap.leaf) 'ꮙ'
   ['Ꮙ'] CharMap.leaf) 'ꮚ' ['Ꮚ'] (CharMap.node (CharMap.node CharMap.leaf 'ꮛ' ['Ꮛ'] CharMap.leaf) 'ꮜ' ['Ꮜ']
   CharMap.leaf))))) 'ꮝ' ['Ꮝ'] (CharMap.node (CharMap.node (CharMap.node (CharMap.node (CharMap.node
   (CharMap.node CharMap.leaf 'ꮞ' ['Ꮞ'] CharMap.leaf) 'ꮟ' ['Ꮟ'] CharMap.leaf) 'ꮠ' ['Ꮠ'] (CharMap.node
   (CharMap.node CharMap.leaf 'ꮡ' ['Ꮡ'] CharMap.leaf) 'ꮢ' ['Ꮢ'] CharMap.leaf)) 'ꮣ' ['Ꮣ'] (CharMap.node
   (CharMap.node (CharMap.node CharMap.leaf 'ꮤ' ['Ꮤ'] CharMap.leaf) 'ꮥ' ['Ꮥ'] CharMap.leaf) 'ꮦ' ['Ꮦ']
   (CharMap.node (CharMap.node CharMap.leaf 'ꮧ' ['Ꮧ'] CharMap.leaf) 'ꮨ' ['Ꮨ'] CharMap.leaf))) 'ꮩ' ['Ꮩ']
   (CharMap.node (CharMap.node (CharMap.node (CharMap.node CharMap.leaf 'ꮪ' ['Ꮪ'] CharMap.leaf) 'ꮫ' ['Ꮫ']
   CharMap.leaf) 'ꮬ' ['Ꮬ'] (CharMap.node (CharMap.node CharMap.leaf 'ꮭ' ['Ꮭ'] CharMap.leaf) 'ꮮ' ['Ꮮ']
   CharMap.leaf)) 'ꮯ' ['Ꮯ'] (CharMap.node (CharMap.node (CharMap.node CharMap.leaf 'ꮰ' ['Ꮰ'] CharMap.leaf) 'ꮱ'
   ['Ꮱ'] CharMap.leaf) 'ꮲ' ['Ꮲ'] (CharMap.node (CharMap.node CharMap.leaf 'ꮳ' ['Ꮳ'] CharMap.leaf) 'ꮴ' ['Ꮴ']
   CharMap.leaf)))) 'ꮵ' ['Ꮵ'] (CharMap.node (CharMap.node (CharMap.node (CharMap.node (CharMap.node
   CharMap.leaf 'ꮶ' ['Ꮶ'] CharMap.leaf) 'ꮷ' ['Ꮷ'] CharMap.leaf) 'ꮸ' ['Ꮸ'] (CharMap.node (CharMap.node
   CharMap.leaf 'ꮹ' ['Ꮹ'] CharMap.leaf) 'ꮺ' ['Ꮺ'] CharMap.leaf)) 'ꮻ' ['Ꮻ'] (CharMap.node (CharMap.node
   (CharMap.node CharMap.leaf 'ꮼ' ['Ꮼ'] CharMap.leaf) 'ꮽ' ['Ꮽ'] CharMap.leaf) 'ꮾ' ['Ꮾ'] (CharMap.node
   (CharMap.node CharMap.leaf 'ꮿ' ['Ꮿ'] CharMap.leaf) 'ﬀ' ['F', 'F'] CharMap.leaf))) 'ﬁ' ['F', 'I']
   (CharMap.node (CharMap.node (CharMap.node (CharMap.node CharMap.leaf 'ﬂ' ['F', 'L'] CharMap.leaf) 'ﬃ' ['F',
   'F', 'I'] CharMap.leaf) 'ﬄ' ['F', 'F', 'L'] (CharMap.node (CharMap.node CharMap.leaf 'ﬅ' ['S', 'T']
   CharMap.leaf) 'ﬆ' ['S', 'T'] CharMap.leaf)) 'ﬓ' ['Մ', 'Ն'] (CharMap.node (CharMap.node (CharMap.node
   CharMap.leaf 'ﬔ' ['Մ', 'Ե'] CharMap.leaf) 'ﬕ' ['Մ', 'Ի'] CharMap.leaf) 'ﬖ' ['Վ', 'Ն'] (CharMap.node
   (CharMap.node CharMap.leaf 'ﬗ' ['Մ', 'Խ'] CharMap.leaf) 'ａ' ['Ａ'] CharMap.leaf)))))) 'ｂ' ['Ｂ']
   (CharMap.node (CharMap.node (CharMap.node (CharMap.node (CharMap.node (CharMap.node (CharMap.node
   CharMap.leaf 'ｃ' ['Ｃ'] CharMap.leaf) 'ｄ' ['Ｄ'] CharMap.leaf) 'ｅ' ['Ｅ'] (CharMap.node (CharMap.node
   CharMap.leaf 'ｆ' ['Ｆ'] CharMap.leaf) 'ｇ' ['Ｇ'] CharMap.leaf)) 'ｈ' ['Ｈ'] (CharMap.node (CharMap.node
   (CharMap.node CharMap.leaf 'ｉ' ['Ｉ'] CharMap.leaf) 'ｊ' ['Ｊ'] CharMap.leaf) 'ｋ' ['Ｋ'] (CharMap.node
   (CharMap.node CharMap.leaf 'ｌ' ['Ｌ'] CharMap.leaf) 'ｍ' ['Ｍ'] CharMap.leaf))) 'ｎ' ['Ｎ'] (CharMap.node
   (CharMap.node (CharMap.node (CharMap.node CharMap.leaf 'ｏ' ['Ｏ'] CharMap.leaf) 'ｐ' ['Ｐ'] CharMap.leaf) 'ｑ'
   ['Ｑ'] (CharMap.node (CharMap.node CharMap.leaf 'ｒ' ['Ｒ'] CharMap.leaf) 'ｓ' ['Ｓ'] CharMap.leaf)) 'ｔ' ['Ｔ']
   (CharMap.node (CharMap.node (CharMap.node CharMap.leaf 'ｕ' ['Ｕ'] CharMap.leaf) 'ｖ' ['Ｖ'] CharMap.leaf) 'ｗ'
   ['Ｗ'] (CharMap.node (CharMap.node CharMap.leaf 'ｘ' ['Ｘ'] CharMap.leaf) 'ｙ' ['Ｙ'] CharMap.leaf)))) 'ｚ' ['Ｚ']
   (CharMap.node (CharMap.node (CharMap.node (CharMap.node (CharMap.node CharMap.leaf '𐐨' ['𐐀'] CharMap.leaf)
   '𐐩' ['𐐁'] CharMap.leaf) '𐐪' ['𐐂'] (CharMap.node (CharMap.node CharMap.leaf '𐐫' ['𐐃'] CharMap.leaf) '𐐬'
   ['𐐄'] CharMap.leaf)) '𐐭' ['𐐅'] (CharMap.node (CharMap.node (CharMap.node CharMap.leaf '𐐮' ['𐐆']
   CharMap.leaf) '𐐯' ['𐐇'] CharMap.leaf) '𐐰' ['𐐈'] (CharMap.node (CharMap.node CharMap.leaf '𐐱' ['𐐉']
   CharMap.leaf) '𐐲' ['𐐊'] CharMap.leaf))) '𐐳' ['𐐋'] (CharMap.node (CharMap.node (CharMap.node (CharMap.node
   CharMap.leaf '𐐴' ['𐐌'] CharMap.leaf) '𐐵' ['𐐍'] CharMap.leaf) '𐐶' ['𐐎'] (CharMap.node (CharMap.node
   CharMap.leaf '𐐷' ['𐐏'] CharMap.leaf) '𐐸' ['𐐐'] CharMap.leaf)) '𐐹' ['𐐑'] (CharMap.node (CharMap.node
   (CharMap.node CharMap.leaf '𐐺' ['𐐒'] CharMap.leaf) '𐐻' ['𐐓'] CharMap.leaf) '𐐼' ['𐐔'] (CharMap.node
   (CharMap.node CharMap.leaf '𐐽' ['𐐕'] CharMap.leaf) '𐐾' ['𐐖'] CharMap.leaf))))) '𐐿' ['𐐗'] (CharMap.node
   (CharMap.node (CharMap.node (CharMap.node (CharMap.node (CharMap.node CharMap.leaf '𐑀' ['𐐘'] CharMap.leaf)
   '𐑁' ['𐐙'] CharMap.leaf) '𐑂' ['𐐚'] (CharMap.node (CharMap.node CharMap.leaf '𐑃' ['𐐛'] CharMap.leaf) '𐑄'
   ['𐐜'] CharMap.leaf)) '𐑅' ['𐐝'] (CharMap.node (CharMap.node (CharMap.node CharMap.leaf '𐑆' ['𐐞']
   CharMap.leaf) '𐑇' ['𐐟'] CharMap.leaf) '𐑈' ['𐐠'] (CharMap.node (CharMap.node CharMap.leaf '𐑉' ['𐐡']
   CharMap.leaf) '𐑊' ['𐐢'] CharMap.leaf))) '𐑋' ['𐐣'] (CharMap.node (CharMap.node (CharMap.node (CharMap.node
   CharMap.leaf '𐑌' ['𐐤'] CharMap.leaf) '𐑍' ['𐐥'] CharMap.leaf) '𐑎' ['𐐦'] (CharMap.node (CharMap.node
   CharMap.leaf '𐑏' ['𐐧'] CharMap.leaf) '𐓘' ['𐒰'] CharMap.leaf)) '𐓙' ['𐒱'] (CharMap.node (CharMap.node
   (CharMap.node CharMap.leaf '𐓚' ['𐒲'] CharMap.leaf) '𐓛' ['𐒳'] CharMap.leaf) '𐓜' ['𐒴'] (CharMap.node
   (CharMap.node CharMap.leaf '𐓝' ['𐒵'] CharMap.leaf) '𐓞' ['𐒶'] CharMap.leaf)))) '𐓟' ['𐒷'] (CharMap.node
   (CharMap.node (CharMap.node (CharMap.node (CharMap.node CharMap.leaf '𐓠' ['𐒸'] CharMap.leaf) '𐓡' ['𐒹']
   CharMap.leaf) '𐓢' ['𐒺'] (CharMap.node (CharMap.node CharMap.leaf '𐓣' ['𐒻'] CharMap.leaf) '𐓤' ['𐒼']
   CharMap.leaf)) '𐓥' ['𐒽'] (CharMap.node (CharMap.node (CharMap.node CharMap.leaf '𐓦' ['𐒾'] CharMap.leaf) '𐓧'
   ['𐒿'] CharMap.leaf) '𐓨' ['𐓀'] (CharMap.node (CharMap.node CharMap.leaf '𐓩' ['𐓁'] CharMap.leaf) '𐓪' ['𐓂']
   CharMap.leaf))) '𐓫' ['𐓃'] (CharMap.node (CharMap.node (CharMap.node (CharMap.node CharMap.leaf '𐓬' ['𐓄']
   CharMap.leaf) '𐓭' ['𐓅'] CharMap.leaf) '𐓮' ['𐓆'] (CharMap.node (CharMap.node CharMap.leaf '𐓯' ['𐓇']
   CharMap.leaf) '𐓰' ['𐓈'] CharMap.leaf)) '𐓱' ['𐓉'] (CharMap.node (CharMap.node (CharMap.node CharMap.leaf '𐓲'
   ['𐓊'] CharMap.leaf) '𐓳' ['𐓋'] CharMap.leaf) '𐓴' ['𐓌'] (CharMap.node CharMap.leaf '𐓵' ['𐓍']
   CharMap.leaf))))))) '𐓶' ['𐓎'] (CharMap.node (CharMap.node (CharMap.node (CharMap.node (CharMap.node
   (CharMap.node (CharMap.node (CharMap.node CharMap.leaf '𐓷' ['𐓏'] CharMap.leaf) '𐓸' ['𐓐'] CharMap.leaf) '𐓹'
   ['𐓑'] (CharMap.node (CharMap.node CharMap.leaf '𐓺' ['𐓒'] CharMap.leaf) '𐓻' ['𐓓'] CharMap.leaf)) '𐖗' ['𐕰']
   (CharMap.node (CharMap.node (CharMap.node CharMap.leaf '𐖘' ['𐕱'] CharMap.leaf) '𐖙' ['𐕲'] CharMap.leaf) '𐖚'
   ['𐕳'] (CharMap.node (CharMap.node CharMap.leaf '𐖛' ['𐕴'] CharMap.leaf) '𐖜' ['𐕵'] CharMap.leaf))) '𐖝' ['𐕶']
   (CharMap.node (CharMap.node (CharMap.node (CharMap.node CharMap.leaf '𐖞' ['𐕷'] CharMap.leaf) '𐖟' ['𐕸']
   CharMap.leaf) '𐖠' ['𐕹'] (CharMap.node (CharMap.node CharMap.leaf '𐖡' ['𐕺'] CharMap.leaf) '𐖣' ['𐕼']
   CharMap.leaf)) '𐖤' ['𐕽'] (CharMap.node (CharMap.node (CharMap.node CharMap.leaf '𐖥' ['𐕾'] CharMap.leaf) '𐖦'
   ['𐕿'] CharMap.leaf) '𐖧' ['𐖀'] (CharMap.node (CharMap.node CharMap.leaf '𐖨' ['𐖁'] CharMap.leaf) '𐖩' ['𐖂']
   CharMap.leaf)))) '𐖪' ['𐖃'] (CharMap.node (CharMap.node (CharMap.node (CharMap.node (CharMap.node
   CharMap.leaf '𐖫' ['𐖄'] CharMap.leaf) '𐖬' ['𐖅'] CharMap.leaf) '𐖭' ['𐖆'] (CharMap.node (CharMap.node
   CharMap.leaf '𐖮' ['𐖇'] CharMap.leaf) '𐖯' ['𐖈'] CharMap.leaf)) '𐖰' ['𐖉'] (CharMap.node (CharMap.node
   (CharMap.node CharMap.leaf '𐖱' ['𐖊'] CharMap.leaf) '𐖳' ['𐖌'] CharMap.leaf) '𐖴' ['𐖍'] (CharMap.node
   (CharMap.node CharMap.leaf '𐖵' ['𐖎'] CharMap.leaf) '𐖶' ['𐖏'] CharMap.leaf))) '𐖷' ['𐖐'] (CharMap.node
   (CharMap.node (CharMap.node (CharMap.node CharMap.leaf '𐖸' ['𐖑'] CharMap.leaf) '𐖹' ['𐖒'] CharMap.leaf) '𐖻'
   ['𐖔'] (CharMap.node (CharMap.node CharMap.leaf '𐖼' ['𐖕'] CharMap.leaf) '𐳀' ['𐲀'] CharMap.leaf)) '𐳁' ['𐲁']
   (CharMap.node (CharMap.node (CharMap.node CharMap.leaf '𐳂' ['𐲂'] CharMap.leaf) '𐳃' ['𐲃'] CharMap.leaf) '𐳄'
   ['𐲄'] (CharMap.node (CharMap.node CharMap.leaf '𐳅' ['𐲅'] CharMap.leaf) '𐳆' ['𐲆'] CharMap.leaf))))) '𐳇'
   ['𐲇'] (CharMap.node (CharMap.node (CharMap.node (CharMap.node (CharMap.node (CharMap.node CharMap.leaf '𐳈'
   ['𐲈'] CharMap.leaf) '𐳉' ['𐲉'] CharMap.leaf) '𐳊' ['𐲊'] (CharMap.node (CharMap.node CharMap.leaf '𐳋' ['𐲋']
   CharMap.leaf) '𐳌' ['𐲌'] CharMap.leaf)) '𐳍' ['𐲍'] (CharMap.node (CharMap.node (CharMap.node CharMap.leaf '𐳎'
   ['𐲎'] CharMap.leaf) '𐳏' ['𐲏'] CharMap.leaf) '𐳐' ['𐲐'] (CharMap.node (CharMap.node CharMap.leaf '𐳑' ['𐲑']
   CharMap.leaf) '𐳒' ['𐲒'] CharMap.leaf))) '𐳓' ['𐲓'] (CharMap.node (CharMap.node (CharMap.node (CharMap.node
   CharMap.leaf '𐳔' ['𐲔'] CharMap.leaf) '𐳕' ['𐲕'] CharMap.leaf) '𐳖' ['𐲖'] (CharMap.node (CharMap.node
   CharMap.leaf '𐳗' ['𐲗'] CharMap.leaf) '𐳘' ['𐲘'] CharMap.leaf)) '𐳙' ['𐲙'] (CharMap.node (CharMap.node
   (CharMap.node CharMap.leaf '𐳚' ['𐲚'] CharMap.leaf) '𐳛' ['𐲛'] CharMap.leaf) '𐳜' ['𐲜'] (CharMap.node
   (CharMap.node CharMap.leaf '𐳝' ['𐲝'] CharMap.leaf) '𐳞' ['𐲞'] CharMap.leaf)))) '𐳟' ['𐲟'] (CharMap.node
   (CharMap.node (CharMap.node (CharMap.node (CharMap.node CharMap.leaf '𐳠' ['𐲠'] CharMap.leaf) '𐳡' ['𐲡']
   CharMap.leaf) '𐳢' ['𐲢'] (CharMap.node (CharMap.node CharMap.leaf '𐳣' ['𐲣'] CharMap.leaf) '𐳤' ['𐲤']
   CharMap.leaf)) '𐳥' ['𐲥'] (CharMap.node (CharMap.node (CharMap.node CharMap.leaf '𐳦' ['𐲦'] CharMap.leaf) '𐳧'
   ['𐲧'] CharMap.leaf) '𐳨' ['𐲨'] (CharMap.node (CharMap.node CharMap.leaf '𐳩' ['𐲩'] CharMap.leaf) '𐳪' ['𐲪']
   CharMap.leaf))) '𐳫' ['𐲫'] (CharMap.node (CharMap.node (CharMap.node (CharMap.node CharMap.leaf '𐳬' ['𐲬']
   CharMap.leaf) '𐳭' ['𐲭'] CharMap.leaf) '𐳮' ['𐲮'] (CharMap.node (CharMap.node CharMap.leaf '𐳯' ['𐲯']
   CharMap.leaf) '𐳰' ['𐲰'] CharMap.leaf)) '𐳱' ['𐲱'] (CharMap.node (CharMap.node (CharMap.node CharMap.leaf '𐳲'
   ['𐲲'] CharMap.leaf) '𑣀' ['𑢠'] CharMap.leaf) '𑣁' ['𑢡'] (CharMap.node CharMap.leaf '𑣂' ['𑢢']
   CharMap.leaf)))))) '𑣃' ['𑢣'] (CharMap.node (CharMap.node (CharMap.node (CharMap.node (CharMap.node
   (CharMap.node (CharMap.node CharMap.leaf '𑣄' ['𑢤'] CharMap.leaf) '𑣅' ['𑢥'] CharMap.leaf) '𑣆' ['𑢦']
   (CharMap.node (CharMap.node CharMap.leaf '𑣇' ['𑢧'] CharMap.leaf) '𑣈' ['𑢨'] CharMap.leaf)) '𑣉' ['𑢩']
   (CharMap.node (CharMap.node (CharMap.node CharMap.leaf '𑣊' ['𑢪'] CharMap.leaf) '𑣋' ['𑢫'] CharMap.leaf) '𑣌'
   ['𑢬'] (CharMap.node (CharMap.node CharMap.leaf '𑣍' ['𑢭'] CharMap.leaf) '𑣎' ['𑢮'] CharMap.leaf))) '𑣏' ['𑢯']
   (CharMap.node (CharMap.node (CharMap.node (CharMap.node CharMap.leaf '𑣐' ['𑢰'] CharMap.leaf) '𑣑' ['𑢱']
   CharMap.leaf) '𑣒' ['𑢲'] (CharMap.node (CharMap.node CharMap.leaf '𑣓' ['𑢳'] CharMap.leaf) '𑣔' ['𑢴']
   CharMap.leaf)) '𑣕' ['𑢵'] (CharMap.node (CharMap.node (CharMap.node CharMap.leaf '𑣖' ['𑢶'] CharMap.leaf) '𑣗'
   ['𑢷'] CharMap.leaf) '𑣘' ['𑢸'] (CharMap.node (CharMap.node CharMap.leaf '𑣙' ['𑢹'] CharMap.leaf) '𑣚' ['𑢺']
   CharMap.leaf)))) '𑣛' ['𑢻'] (CharMap.node (CharMap.node (CharMap.node (CharMap.node (CharMap.node
   CharMap.leaf '𑣜' ['𑢼'] CharMap.leaf) '𑣝' ['𑢽'] CharMap.leaf) '𑣞' ['𑢾'] (CharMap.node (CharMap.node
   CharMap.leaf '𑣟' ['𑢿'] CharMap.leaf) '𖹠' ['𖹀'] CharMap.leaf)) '𖹡' ['𖹁'] (CharMap.node (CharMap.node
   (CharMap.node CharMap.leaf '𖹢' ['𖹂'] CharMap.leaf) '𖹣' ['𖹃'] CharMap.leaf) '𖹤' ['𖹄'] (CharMap.node
   (CharMap.node CharMap.leaf '𖹥' ['𖹅'] CharMap.leaf) '𖹦' ['𖹆'] CharMap.leaf))) '𖹧' ['𖹇'] (CharMap.node
   (CharMap.node (CharMap.node (CharMap.node CharMap.leaf '𖹨' ['𖹈'] CharMap.leaf) '𖹩' ['𖹉'] CharMap.leaf) '𖹪'
   ['𖹊'] (CharMap.node (CharMap.node CharMap.leaf '𖹫' ['𖹋'] CharMap.leaf) '𖹬' ['𖹌'] CharMap.leaf)) '𖹭' ['𖹍']
   (CharMap.node (CharMap.node (CharMap.node CharMap.leaf '𖹮' ['𖹎'] CharMap.leaf) '𖹯' ['𖹏'] CharMap.leaf) '𖹰'
   ['𖹐'] (CharMap.node (CharMap.node CharMap.leaf '𖹱' ['𖹑'] CharMap.leaf) '𖹲' ['𖹒'] CharMap.leaf))))) '𖹳'
   ['𖹓'] (CharMap.node (CharMap.node (CharMap.node (CharMap.node (CharMap.node (CharMap.node CharMap.leaf '𖹴'
   ['𖹔'] CharMap.leaf) '𖹵' ['𖹕'] CharMap.leaf) '𖹶' ['𖹖'] (CharMap.node (CharMap.node CharMap.leaf '𖹷' ['𖹗']
   CharMap.leaf) '𖹸' ['𖹘'] CharMap.leaf)) '𖹹' ['𖹙'] (CharMap.node (CharMap.node (CharMap.node CharMap.leaf '𖹺'
   ['𖹚'] CharMap.leaf) '𖹻' ['𖹛'] CharMap.leaf) '𖹼' ['𖹜'] (CharMap.node (CharMap.node CharMap.leaf '𖹽' ['𖹝']
   CharMap.leaf) '𖹾' ['𖹞'] CharMap.leaf))) '𖹿' ['𖹟'] (CharMap.node (CharMap.node (CharMap.node (CharMap.node
   CharMap.leaf '𞤢' ['𞤀'] CharMap.leaf) '𞤣' ['𞤁'] CharMap.leaf) '𞤤' ['𞤂'] (CharMap.node (CharMap.node
   CharMap.leaf '𞤥' ['𞤃'] CharMap.leaf) '𞤦' ['𞤄'] CharMap.leaf)) '𞤧' ['𞤅'] (CharMap.node (CharMap.node
   (CharMap.node CharMap.leaf '𞤨' ['𞤆'] CharMap.leaf) '𞤩' ['𞤇'] CharMap.leaf) '𞤪' ['𞤈'] (CharMap.node
   (CharMap.node CharMap.leaf '𞤫' ['𞤉'] CharMap.leaf) '𞤬' ['𞤊'] CharMap.leaf)))) '𞤭' ['𞤋'] (CharMap.node
   (CharMap.node (CharMap.node (CharMap.node (CharMap.node CharMap.leaf '𞤮' ['𞤌'] CharMap.leaf) '𞤯' ['𞤍']
   CharMap.leaf) '𞤰' ['𞤎'] (CharMap.node (CharMap.node CharMap.leaf '𞤱' ['𞤏'] CharMap.leaf) '𞤲' ['𞤐']
   CharMap.leaf)) '𞤳' ['𞤑'] (CharMap.node (CharMap.node (CharMap.node CharMap.leaf '𞤴' ['𞤒'] CharMap.leaf) '𞤵'
   ['𞤓'] CharMap.leaf) '𞤶' ['𞤔'] (CharMap.node (CharMap.node CharMap.leaf '𞤷' ['𞤕'] CharMap.leaf) '𞤸' ['𞤖']
   CharMap.leaf))) '𞤹' ['𞤗'] (CharMap.node (CharMap.node (CharMap.node (CharMap.node CharMap.leaf '𞤺' ['𞤘']
   CharMap.leaf) '𞤻' ['𞤙'] CharMap.leaf) '𞤼' ['𞤚'] (CharMap.node (CharMap.node CharMap.leaf '𞤽' ['𞤛']
   CharMap.leaf) '𞤾' ['𞤜'] CharMap.leaf)) '𞤿' ['𞤝'] (CharMap.node (CharMap.node (CharMap.node CharMap.leaf '𞥀'
   ['𞤞'] CharMap.leaf) '𞥁' ['𞤟'] CharMap.leaf) '𞥂' ['𞤠'] (CharMap.node CharMap.leaf '𞥃' ['𞤡']
   CharMap.leaf))))))))))

/-- Embeds `char::to_uppercase`: the table mapping where present, the
character itself otherwise. -/
def rustToUpper (c : Char) : List Char :=
  match rustUpperMap.find c with
  | some vs => vs
  | none => [c]

/-- Embeds `str::to_uppercase` (plate-ocr lib.rs line 139): the
concatenation of the per-character uppercase mappings. -/
def rustToUppercase (l : List Char) : List Char :=
  l.flatMap rustToUpper

/-- Embeds the cleanup chain `text.trim().replace(['\n', ' '], "").to_uppercase()`
of `PlateOcr::postprocess_text` (plate-ocr lib.rs lines 136-139). -/
def normalize_text (text : List Char) : List Char :=
  rustToUppercase (removeNewlineSpace (rustTrim text))

/-- Membership in the character class `[A-Z0-9-]` of the plate pattern
(plate-ocr lib.rs line 48). -/
def isPlateChar (c : Char) : Bool :=
  decide ((65 ≤ c.toNat ∧ c.toNat ≤ 90) ∨ (48 ≤ c.toNat ∧ c.toNat ≤ 57) ∨ c.toNat = 45)

/-- Embeds `plate_pattern.is_match`: the anchored regex `[A-Z0-9-]{4,10}`
(plate-ocr lib.rs line 48) matches exactly the strings of length 4 to 10
whose characters all lie in the class. -/
def plate_pattern_match (l : List Char) : Bool :=
  decide (4 ≤ l.length ∧ l.length ≤ 10) && l.all isPlateChar

/-- Embeds `PlateOcr::postprocess_text` (plate-ocr lib.rs lines 134-150):
normalize the raw text, then fail with a `ValidationError` carrying the
processed text when it does not match the plate pattern. -/
def postprocess_text (text : List Char) : Except OcrError (List Char) :=
  let processed := normalize_text text
  if !plate_pattern_match processed then
    Except.error (OcrError.ValidationError processed)
  else
    Except.ok processed

/-- Claim C6: `postprocess_text` returns `Ok` with the normalized text
exactly when the normalized text matches `[A-Z0-9-]{4,10}` anchored at both
ends, and otherwise returns a `ValidationError` carrying the normalized
text; in particular it accepts `ABC123` and rejects `!@#$%^`. -/
theorem postprocess_text_spec (text : List Char) :
    (postprocess_text text = Except.ok (normalize_text text) ↔
      plate_pattern_match (normalize_text text) = true) ∧
    (postprocess_text text =
        Except.error (OcrError.ValidationError (normalize_text text)) ↔
      plate_pattern_match (normalize_text text) = false) ∧
    postprocess_text "ABC123".data = Except.ok "ABC123".data ∧
    postprocess_text "!@#$%^".data =
      Except.error (OcrError.ValidationError "!@#$%^".data) := by
  refine ⟨?_, ?_, by rfl, by rfl⟩
  · unfold postprocess_text
    cases hp : plate_pattern_match (normalize_text text) <;> simp [hp]
  · unfold postprocess_text
    cases hp : plate_pattern_match (normalize_text text) <;> simp [hp]

/-- Newline and space are whitespace characters. -/
theorem isRustWhitespace_of_isNewlineOrSpace {c : Char}
    (h : isNewlineOrSpace c = true) : isRustWhitespace c = true := by
  simp only [isNewlineOrSpace, decide_eq_true_eq] at h
  simp only [isRustWhitespace, decide_eq_true_eq]
  omega

/-- A non-whitespace character is neither newline nor space. -/
theorem not_isNewlineOrSpace_of_not_ws {c : Char}
    (h : isRustWhitespace c = false) : (!isNewlineOrSpace c) = true := by
  cases hq : isNewlineOrSpace c
  · rfl
  · rw [isRustWhitespace_of_isNewlineOrSpace hq] at h
    cases h

set_option maxRecDepth 400000 in
/-- Every entry of the flat table is found in the search tree with exactly
its mapping. -/
theorem rustUpperMap_complete :
    rustUpperTable.all (fun e => rustUpperMap.find e.1 == some e.2) = true := by decide

set_option maxRecDepth 400000 in
/-- The tree holds exactly as many entries as the flat table, so by
`rustUpperMap_complete` the two list the same mappings. -/
theorem rustUpperMap_size : rustUpperMap.size = rustUpperTable.length := by decide

set_option maxRecDepth 100000 in
/-- Every uppercase mapping in the tree is non-empty. -/
theorem rustUpperMap_outputs_ne_nil :
    rustUpperMap.allB (fun _ v => !v.isEmpty) = true := by decide

set_option maxRecDepth 100000 in
/-- No character produced by an uppercase mapping is whitespace. -/
theorem rustUpperMap_outputs_not_ws :
    rustUpperMap.allB (fun _ v => v.all fun d => !isRustWhitespace d) = true := by decide

set_option maxRecDepth 100000 in
/-- Characters produced by an uppercase mapping have no mapping of their
own: the uppercase image consists of fixed points of uppercasing. -/
theorem rustUpperMap_outputs_unmapped :
    rustUpperMap.allB (fun _ v => v.all fun d => (rustUpperMap.find d).isNone) = true := by
  decide

/-- Whatever `find` returns satisfies any predicate checked by `allB`. -/
theorem CharMap.find_all {p : Char → List Char → Bool} {t : CharMap}
    (hall : t.allB p = true) {c : Char} {vs : List Char}
    (h : t.find c = some vs) : p c vs = true := by
  induction t with
  | leaf => simp [CharMap.find] at h
  | node l k v r ihl ihr =>
    unfold CharMap.allB at hall
    rw [Bool.and_eq_true, Bool.and_eq_true] at hall
    obtain ⟨⟨hp, hl⟩, hr⟩ := hall
    unfold CharMap.find at h
    by_cases h1 : c < k
    · rw [if_pos h1] at h
      exact ihl hl h
    · rw [if_neg h1] at h
      by_cases h2 : k < c
      · rw [if_pos h2] at h
        exact ihr hr h
      · rw [if_neg h2] at h
        obtain rfl : c = k := le_antisymm (not_lt.mp h2) (not_lt.mp h1)
        obtain rfl : v = vs := Option.some_inj.mp h
        exact hp

/-- Uppercasing a character never yields the empty string. -/
theorem rustToUpper_ne_nil (c : Char) : rustToUpper c ≠ [] := by
  cases hf : rustUpperMap.find c with
  | none => simp [rustToUpper, hf]
  | some vs =>
    have hne := CharMap.find_all rustUpperMap_outputs_ne_nil hf
    simp only [rustToUpper, hf]
    intro e
    subst e
    simp at hne

/-- Every character in the uppercase image of a character is a fixed point
of uppercasing. -/
theorem rustToUpper_stable {c d : Char} (hd : d ∈ rustToUpper c) :
    rustToUpper d = [d] := by
  cases hf : rustUpperMap.find c with
  | none =>
    have hdc : d = c := by simpa [rustToUpper, hf] using hd
    subst hdc
    simp [rustToUpper, hf]
  | some vs =>
    rw [show rustToUpper c = vs from by simp [rustToUpper, hf]] at hd
    have hall := CharMap.find_all rustUpperMap_outputs_unmapped hf
    have hfd := List.all_eq_true.mp hall _ hd
    rw [Option.isNone_iff_eq_none] at hfd
    simp [rustToUpper, hfd]

/-- Uppercasing a non-whitespace character yields only non-whitespace
characters. -/
theorem rustToUpper_not_ws {c d : Char} (hd : d ∈ rustToUpper c)
    (hc : isRustWhitespace c = false) : isRustWhitespace d = false := by
  cases hf : rustUpperMap.find c with
  | none =>
    have hdc : d = c := by simpa [rustToUpper, hf] using hd
    subst hdc
    exact hc
  | some vs =>
    rw [show rustToUpper c = vs from by simp [rustToUpper, hf]] at hd
    have hall := CharMap.find_all rustUpperMap_outputs_not_ws hf
    have hws := List.all_eq_true.mp hall _ hd
    simpa using hws

/-- Uppercasing a character that is neither newline nor space yields only
such characters. -/
theorem rustToUpper_not_nlsp {c d : Char} (hd : d ∈ rustToUpper c)
    (hc : (!isNewlineOrSpace c) = true) : (!isNewlineOrSpace d) = true := by
  cases hf : rustUpperMap.find c with
  | none =>
    have hdc : d = c := by simpa [rustToUpper, hf] using hd
    subst hdc
    exact hc
  | some vs =>
    rw [show rustToUpper c = vs from by simp [rustToUpper, hf]] at hd
    have hall := CharMap.find_all rustUpperMap_outputs_not_ws hf
    have hws := List.all_eq_true.mp hall _ hd
    exact not_isNewlineOrSpace_of_not_ws (by simpa using hws)

/-- The head of a `dropWhile` result fails the dropped predicate. -/
theorem dropWhile_head_false {p : Char → Bool} (l : List Char) :
    ∀ x, (l.dropWhile p).head? = some x → p x = false := by
  induction l with
  | nil => intro x hx; simp at hx
  | cons a l ih =>
    intro x hx
    rw [List.dropWhile_cons] at hx
    by_cases ha : p a = true
    · rw [if_pos ha] at hx
      exact ih x hx
    · rw [if_neg ha] at hx
      simp only [List.head?_cons, Option.some_inj] at hx
      subst hx
      exact Bool.not_eq_true _ ▸ Bool.of_not_eq_true ha

/-- When the head fails the predicate (or the list is empty), `dropWhile`
is the identity. -/
theorem dropWhile_eq_self_of_head {p : Char → Bool} {l : List Char}
    (h : ∀ x, l.head? = some x → p x = false) : l.dropWhile p = l := by
  cases l with
  | nil => rfl
  | cons a l =>
    have ha : p a = false := h a rfl
    simp [List.dropWhile_cons, ha]

/-- A non-empty `dropWhile` result has the same last element as the input. -/
theorem dropWhile_getLast?_of_ne_nil {p : Char → Bool} :
    ∀ l : List Char, l.dropWhile p ≠ [] → (l.dropWhile p).getLast? = l.getLast? := by
  intro l
  induction l with
  | nil => intro h; exact absurd rfl h
  | cons a l ih =>
    intro h
    rw [List.dropWhile_cons] at h ⊢
    by_cases ha : p a = true
    · rw [if_pos ha] at h ⊢
      rw [ih h]
      have hl : l ≠ [] := by
        intro e
        rw [e] at h
        simp at h
      cases l with
      | nil => exact absurd rfl hl
      | cons b m => rw [List.getLast?_cons_cons]
    · rw [if_neg ha] at h ⊢

/-- Filtering keeps a head that satisfies the predicate as the head. -/
theorem filter_head_of_pred {q : Char → Bool} {l : List Char} {a : Char}
    (h : l.head? = some a) (ha : q a = true) : (l.filter q).head? = some a := by
  cases l with
  | nil => simp at h
  | cons b m =>
    simp only [List.head?_cons, Option.some_inj] at h
    subst h
    rw [List.filter_cons, if_pos ha]
    rfl

/-- Filtering keeps a last element that satisfies the predicate as the last
element. -/
theorem filter_getLast_of_pred {q : Char → Bool} {l : List Char} {a : Char}
    (h : l.getLast? = some a) (ha : q a = true) : (l.filter q).getLast? = some a := by
  rw [← List.head?_reverse] at h
  rw [← List.head?_reverse, ← List.filter_reverse]
  exact filter_head_of_pred h ha

/-- The first character of a trimmed string is not whitespace. -/
theorem rustTrim_head (l : List Char) :
    ∀ x, (rustTrim l).head? = some x → isRustWhitespace x = false := by
  intro x hx
  unfold rustTrim at hx
  rw [List.head?_reverse] at hx
  have hne : (l.dropWhile isRustWhitespace).reverse.dropWhile isRustWhitespace ≠ [] := by
    intro e
    rw [e] at hx
    simp at hx
  rw [dropWhile_getLast?_of_ne_nil _ hne, List.getLast?_reverse] at hx
  exact dropWhile_head_false l x hx

/-- The last character of a trimmed string is not whitespace. -/
theorem rustTrim_getLast (l : List Char) :
    ∀ x, (rustTrim l).getLast? = some x → isRustWhitespace x = false := by
  intro x hx
  unfold rustTrim at hx
  rw [List.getLast?_reverse] at hx
  exact dropWhile_head_false _ x hx

/-- The head of the uppercased string lies in the uppercase image of the
input string head. -/
theorem head?_rustToUppercase {l : List Char} {a : Char} (h : l.head? = some a) :
    ∃ d, (rustToUppercase l).head? = some d ∧ d ∈ rustToUpper a := by
  cases l with
  | nil => simp at h
  | cons b m =>
    have hba : b = a := by simpa using h
    unfold rustToUppercase
    rw [List.flatMap_cons, hba]
    cases hu : rustToUpper a with
    | nil => exact absurd hu (rustToUpper_ne_nil a)
    | cons d ds =>
      refine ⟨d, by simp, ?_⟩
      exact List.mem_cons_self _ _

/-- The last character of the uppercased string lies in the uppercase image
of the input string last character. -/
theorem getLast?_rustToUppercase : ∀ {l : List Char} {a : Char},
    l.getLast? = some a →
    ∃ d, (rustToUppercase l).getLast? = some d ∧ d ∈ rustToUpper a := by
  intro l
  induction l with
  | nil => intro a h; simp at h
  | cons b m ih =>
    intro a h
    cases m with
    | nil =>
      have hba : b = a := by simpa using h
      subst hba
      have he : rustToUppercase [b] = rustToUpper b := by
        unfold rustToUppercase
        rw [List.flatMap_cons]
        simp
      rw [he]
      cases hg : (rustToUpper b).getLast? with
      | none =>
        rw [List.getLast?_eq_none_iff] at hg
        exact absurd hg (rustToUpper_ne_nil b)
      | some d =>
        exact ⟨d, rfl, List.mem_of_mem_getLast? (Option.mem_def.mpr hg)⟩
    | cons c2 m2 =>
      rw [List.getLast?_cons_cons] at h
      obtain ⟨d, hd1, hd2⟩ := ih h
      refine ⟨d, ?_, hd2⟩
      unfold rustToUppercase at hd1 ⊢
      rw [List.flatMap_cons, List.getLast?_append, hd1]
      rfl

/-- The first character of a normalized string is not whitespace. -/
theorem normalize_text_head (s : List Char) :
    ∀ x, (normalize_text s).head? = some x → isRustWhitespace x = false := by
  intro x hx
  cases ht : rustTrim s with
  | nil =>
    rw [show normalize_text s = [] from by
      unfold normalize_text removeNewlineSpace
      rw [ht]
      rfl] at hx
    simp at hx
  | cons a m =>
    have ha : isRustWhitespace a = false := rustTrim_head s a (by rw [ht]; rfl)
    have hq : (!isNewlineOrSpace a) = true := not_isNewlineOrSpace_of_not_ws ha
    have hbase : (removeNewlineSpace (rustTrim s)).head? = some a := by
      unfold removeNewlineSpace
      exact filter_head_of_pred (by rw [ht]; rfl) hq
    obtain ⟨d, hd1, hd2⟩ := head?_rustToUppercase hbase
    unfold normalize_text at hx
    rw [hd1] at hx
    obtain rfl := Option.some_inj.mp hx
    exact rustToUpper_not_ws hd2 ha

/-- The last character of a normalized string is not whitespace. -/
theorem normalize_text_getLast (s : List Char) :
    ∀ x, (normalize_text s).getLast? = some x → isRustWhitespace x = false := by
  intro x hx
  cases ht : (rustTrim s).getLast? with
  | none =>
    have hnil : rustTrim s = [] := List.getLast?_eq_none_iff.mp ht
    rw [show normalize_text s = [] from by
      unfold normalize_text removeNewlineSpace
      rw [hnil]
      rfl] at hx
    simp at hx
  | some a =>
    have ha : isRustWhitespace a = false := rustTrim_getLast s a ht
    have hq : (!isNewlineOrSpace a) = true := not_isNewlineOrSpace_of_not_ws ha
    have hbase : (removeNewlineSpace (rustTrim s)).getLast? = some a := by
      unfold removeNewlineSpace
      exact filter_getLast_of_pred ht hq
    obtain ⟨d, hd1, hd2⟩ := getLast?_rustToUppercase hbase
    unfold normalize_text at hx
    rw [hd1] at hx
    obtain rfl := Option.some_inj.mp hx
    exact rustToUpper_not_ws hd2 ha

/-- Uppercasing fixes any string all of whose characters are fixed points
of uppercasing. -/
theorem rustToUppercase_fixed {l : List Char}
    (h : ∀ d ∈ l, rustToUpper d = [d]) : rustToUppercase l = l := by
  induction l with
  | nil => rfl
  | cons d m ih =>
    have ih2 := ih fun e he => h e (List.mem_cons_of_mem _ he)
    unfold rustToUppercase at ih2 ⊢
    rw [List.flatMap_cons, h d (List.mem_cons_self _ _), ih2]
    rfl

/-- Claim C8: text normalization (trim, remove newlines and spaces,
uppercase) is idempotent. -/
theorem normalize_text_idempotent (s : List Char) :
    normalize_text (normalize_text s) = normalize_text s := by
  have htrim : rustTrim (normalize_text s) = normalize_text s := by
    unfold rustTrim
    rw [dropWhile_eq_self_of_head (normalize_text_head s)]
    have h2 : ∀ x, ((normalize_text s).reverse).head? = some x →
        isRustWhitespace x = false := by
      intro x hx
      rw [List.head?_reverse] at hx
      exact normalize_text_getLast s x hx
    rw [dropWhile_eq_self_of_head h2, List.reverse_reverse]
  have hrem : removeNewlineSpace (normalize_text s) = normalize_text s := by
    unfold removeNewlineSpace
    refine List.filter_eq_self.mpr ?_
    intro c hc
    unfold normalize_text rustToUppercase at hc
    obtain ⟨b, hb, hcb⟩ := List.mem_flatMap.mp hc
    unfold removeNewlineSpace at hb
    have hbq : (!isNewlineOrSpace b) = true := (List.mem_filter.mp hb).2
    exact rustToUpper_not_nlsp hcb hbq
  have hup : rustToUppercase (normalize_text s) = normalize_text s := by
    refine rustToUppercase_fixed ?_
    intro d hd
    unfold normalize_text rustToUppercase at hd
    obtain ⟨b, hb, hdb⟩ := List.mem_flatMap.mp hd
    exact rustToUpper_stable hdb
  show rustToUppercase (removeNewlineSpace (rustTrim (normalize_text s))) = normalize_text s
  rw [htrim, hrem, hup]

/-- Embeds `AccessStatus` (src/crates/notification/src/lib.rs lines 26-31). -/
inductive AccessStatus where
  | Allowed
  | Denied
  | Suspicious
deriving DecidableEq

/-- Embeds `LicensePlateText` (plate-ocr lib.rs lines 20-25). -/
structure LicensePlateText where
  text : List Char
  confidence : ℚ
  processed_text : List Char
deriving DecidableEq

/-- Embeds `PlateOcr::process_plate` (plate-ocr lib.rs lines 58-95) with the
Tesseract engine abstracted into its two results: `rawText` (the engine's
`get_utf8_text` output for the crop) and `rawConf` (its `mean_text_conf`
already rescaled by 100).  The raw text is validated by `postprocess_text`,
whose failure propagates through the `?` on line 81; on success the struct
with the trimmed raw text, the confidence and the processed text is
returned. -/
def process_plate (rawText : List Char) (rawConf : ℚ) :
    Except OcrError LicensePlateText :=
  match postprocess_text rawText with
  | Except.error e => Except.error e
  | Except.ok processed =>
      Except.ok { text := rustTrim rawText, confidence := rawConf,
                  processed_text := processed }

/-- Embeds the whitelist lookup of `App::process_frame` (src/src/main.rs
lines 72-80); the `HashSet` is modelled as the list of its elements.
Membership yields `Allowed`, absence `Suspicious`. -/
def access_decision (whitelist : List (List Char)) (processed : List Char) :
    AccessStatus :=
  if processed ∈ whitelist then AccessStatus.Allowed else AccessStatus.Suspicious

/-- Embeds `DetectionEvent` (notification lib.rs lines 17-24) restricted to
the fields the core computes; the timestamp and the saved image path are
produced by the environment (clock, filesystem) and are not modelled. -/
structure DetectionEvent where
  plate_number : List Char
  confidence : ℚ
  access_status : AccessStatus
deriving DecidableEq

/-- Embeds the per-box loop of `App::process_frame` (main.rs lines 56-102).
The detector result is the `detections` argument; cropping composed with the
OCR engine is abstracted into the oracles `ocrText` and `ocrConf`, giving
the raw engine text and confidence for each box.  The first component
collects the events logged by `info!("Processed plate: ...")`, one per
successfully processed box; the second is the frame result: the `?` on
`process_plate` (main.rs line 70) turns the first per-box error into the
frame's result and stops the loop.  The alert send (lines 92-96) has its
error explicitly ignored and cannot affect the result; the
`save_detection_image` call only touches the filesystem and is not
modelled. -/
def process_frame (whitelist : List (List Char)) (ocrText : BoundingBox → List Char)
    (ocrConf : BoundingBox → ℚ) :
    List BoundingBox → List DetectionEvent × Except OcrError Unit
  | [] => ([], Except.ok ())
  | bbox :: rest =>
    match process_plate (ocrText bbox) (ocrConf bbox) with
    | Except.error e => ([], Except.error e)
    | Except.ok plate =>
        let event : DetectionEvent :=
          { plate_number := plate.processed_text, confidence := plate.confidence,
            access_status := access_decision whitelist plate.processed_text }
        let result := process_frame whitelist ocrText ocrConf rest
        (event :: result.1, result.2)

/-- An OCR oracle for the C1 scenario: the box with confidence 1 reads as
the invalid text `!@#$%^`, every other box as the valid plate `ABC123`. -/
def c1OcrText (b : BoundingBox) : List Char :=
  if b.confidence = 1 then "!@#$%^".data else "ABC123".data

/-- Claim C1 (code bug): in a frame with two surviving boxes whose OCR reads
`!@#$%^` (invalid) for the first and `ABC123` (valid) for the second,
`process_frame` returns the first box's `ValidationError` as the frame
result and logs no event — the second box is never cropped, recognized,
classified or logged, because the `?` on `process_plate` aborts the loop.
Alone, the second box would be processed successfully (second conjunct), so
it is exactly the first box's validation failure that kills the frame. -/
theorem process_frame_aborts_on_validation_error :
    process_frame [] c1OcrText (fun _ => 1)
        [{ x_min := 0, y_min := 0, x_max := 10, y_max := 10, confidence := 1 },
         { x_min := 20, y_min := 20, x_max := 30, y_max := 30, confidence := 0 }] =
      ([], Except.error (OcrError.ValidationError "!@#$%^".data)) ∧
    process_frame [] c1OcrText (fun _ => 1)
        [{ x_min := 20, y_min := 20, x_max := 30, y_max := 30, confidence := 0 }] =
      ([{ plate_number := "ABC123".data, confidence := 1,
          access_status := AccessStatus.Suspicious }], Except.ok ()) := by
  constructor
  · rfl
  · rfl

/-- Claim C7: the access decision yields `Allowed` exactly on whitelist
membership and `Suspicious` exactly on absence, never `Denied`; moreover no
event produced by `process_frame` ever carries `Denied`. -/
theorem access_decision_spec (whitelist : List (List Char)) (t : List Char) :
    (access_decision whitelist t = AccessStatus.Allowed ↔ t ∈ whitelist) ∧
    (access_decision whitelist t = AccessStatus.Suspicious ↔ t ∉ whitelist) ∧
    access_decision whitelist t ≠ AccessStatus.Denied ∧
    ∀ ocrText ocrConf detections ev,
      ev ∈ (process_frame whitelist ocrText ocrConf detections).1 →
        ev.access_status ≠ AccessStatus.Denied := by
  refine ⟨?_, ?_, ?_, ?_⟩
  · unfold access_decision
    by_cases h : t ∈ whitelist <;> simp [h]
  · unfold access_decision
    by_cases h : t ∈ whitelist <;> simp [h]
  · unfold access_decision
    by_cases h : t ∈ whitelist <;> simp [h]
  · intro ocrText ocrConf detections ev hev
    induction detections with
    | nil => simp [process_frame] at hev
    | cons b rest ih =>
      simp only [process_frame] at hev
      cases hp : process_plate (ocrText b) (ocrConf b) with
      | error e => rw [hp] at hev; simp at hev
      | ok plate =>
        rw [hp] at hev
        simp only [List.mem_cons] at hev
        rcases hev with rfl | hev'
        · simp only [ne_eq]
          unfold access_decision
          by_cases h : plate.processed_text ∈ whitelist <;> simp [h]
        · exact ih hev'

/-- Claim C7, witness: the whitelist containing `ABC123` yields `Allowed`
for detected text `ABC123` and `Suspicious` for `XYZ999`. -/
theorem access_decision_spec_witness :
    access_decision ["ABC123".data] "ABC123".data = AccessStatus.Allowed ∧
    access_decision ["ABC123".data] "XYZ999".data = AccessStatus.Suspicious :=
  ⟨(access_decision_spec ["ABC123".data] "ABC123".data).1.mpr (by decide),
   (access_decision_spec ["ABC123".data] "XYZ999".data).2.1.mpr (by decide)⟩

/-- Embeds `NotificationError` (notification lib.rs lines 7-15); each
variant carries its message. -/
inductive NotificationError where
  | ConfigError : List Char → NotificationError
  | ApiError : List Char → NotificationError
  | ImageError : List Char → NotificationError
deriving DecidableEq

/-- Embeds `NotificationService` (notification lib.rs lines 33-37). -/
structure NotificationService where
  line_token : Option (List Char)
  telegram_token : Option (List Char)
  telegram_chat_id : Option (List Char)
deriving DecidableEq

/-- The two delivery channels used by `send_alert`. -/
inductive Channel where
  | line
  | telegram
deriving DecidableEq

/-- Embeds `NotificationService::send_alert` (notification lib.rs lines
52-75).  The network transports `send_line_notify` and `send_telegram` are
opaque; their results for this alert are the oracle arguments `lineOutcome`
and `telegramOutcome`.  The first component records which channels were
attempted (in program order) and the outcome each attempt observed: LINE is
attempted exactly when `line_token` is present, Telegram exactly when both
`telegram_token` and `telegram_chat_id` are present, mirroring the two
`if let` guards; a failed attempt is only logged by `error!(...)`.  The
second component is the return value, which is always `Ok(())`. -/
def send_alert (svc : NotificationService) (_event : DetectionEvent)
    (lineOutcome telegramOutcome : Except NotificationError Unit) :
    List (Channel × Except NotificationError Unit) × Except NotificationError Unit :=
  let lineAttempts :=
    match svc.line_token with
    | some _ => [(Channel.line, lineOutcome)]
    | none => []
  let telegramAttempts :=
    match svc.telegram_token, svc.telegram_chat_id with
    | some _, some _ => [(Channel.telegram, telegramOutcome)]
    | _, _ => []
  (lineAttempts ++ telegramAttempts, Except.ok ())

/-- Claim C9: `send_alert` always returns success for every event, every
credential configuration and every channel outcome; a channel is attempted
exactly when its own credentials are present (a missing credential skips
that channel without error); and the set of attempted channels does not
depend on the outcomes at all, so one channel's failure neither prevents
the other channel's attempt nor fails the overall alert. -/
theorem send_alert_best_effort (svc : NotificationService) (ev : DetectionEvent)
    (lineO telO lineO' telO' : Except NotificationError Unit) :
    (send_alert svc ev lineO telO).2 = Except.ok () ∧
    ((Channel.line, lineO) ∈ (send_alert svc ev lineO telO).1 ↔
      svc.line_token.isSome = true) ∧
    ((Channel.telegram, telO) ∈ (send_alert svc ev lineO telO).1 ↔
      (svc.telegram_token.isSome = true ∧ svc.telegram_chat_id.isSome = true)) ∧
    (send_alert svc ev lineO telO).1.map Prod.fst =
      (send_alert svc ev lineO' telO').1.map Prod.fst := by
  unfold send_alert
  cases hl : svc.line_token <;> cases ht : svc.telegram_token <;>
    cases hc : svc.telegram_chat_id <;> simp
